import Mathlib

/-!
Device-control panels: fingerprint workflow, gesture-action store, Android
container surface, USB surface, user-scope service masks and the IMS
properties of a modem.

A shallow embedding of `panels/fingerprint/cc-fingerprint-panel.c`,
`panels/assistant/cc-assistant-panel.c`, `panels/waydroid/cc-waydroid-panel.c`,
`panels/usb/cc-usb-panel.c`, `panels/waydroid/cc-systemd-service-ext.c` and
`panels/wwan/cc-wwan-ims.c`.

Conventions of the embedding.

* A panel object is a record; every C function that mutates `self` becomes a
  function returning the new record.
* Widgets are represented by the properties the code writes: sensitivity,
  visibility, the fraction of the progress bar, the rows of the list box and
  the toasts handed to the toast overlay (oldest first).
* Replies of the fingerprint daemon are inputs of the functions that issue the
  call: `none` stands for the `NULL` that `get_enrolled_fingers` returns when
  the proxy or the call fails.
* `g_usleep` appends its argument (microseconds) to `usleep_log`.
* A `double` is the rational it stands for; the result of an arithmetic
  operation on doubles is rounded to the nearest double.
* `g_debug` and `g_warning` only write to the log and are left out.
* A function that can dereference `NULL` returns an `Option`; `none` stands
  for the fault.
* What a handler reads from the system (files, replies of the bus, the outcome
  of a spawn) is an argument or a field of an environment record; what it asks
  of the system (calls, spawned commands, queued callbacks, started threads)
  is appended to a list of the result.
-/

namespace Fingerprint

/-- The payload of a daemon signal: `(i)` or `(s)`. -/
inductive GVariant where
  | int (i : Int)
  | str (s : String)
  deriving DecidableEq, Repr

/-- The fields of `struct _CcFingerprintPanel`, widgets replaced by the
properties written through them. -/
structure CcFingerprintPanel where
  /-- messages of the toasts added to `toast_overlay`, oldest first -/
  toast_overlay : List String
  enroll_progress_visible : Bool
  enroll_progress_fraction : ℚ
  finger_select_row_sensitive : Bool
  finger_select_row_expanded : Bool
  /-- labels of the rows of `finger_list`, in order -/
  finger_list : List String
  remove_finger_button_sensitive : Bool
  enroll_finger_button_sensitive : Bool
  identify_finger_button_sensitive : Bool
  show_enrolled_list_active : Bool
  show_enrolled_list_sensitive : Bool
  show_unenrolled_list_active : Bool
  show_unenrolled_list_sensitive : Bool
  enrollment_done : Bool
  identification_done : Bool
  finger_canceled : Bool
  sensitive : Bool
  /-- labels of the row widgets kept in the `finger_widgets` list -/
  finger_widgets : List String
  selected_finger : Option String
  /-- arguments of the `g_usleep` calls made so far, in microseconds -/
  usleep_log : List Nat
  deriving DecidableEq, Repr

/-- `show_toast` with a format that has no conversion: the toast carries the
format itself. -/
def show_toast (self : CcFingerprintPanel) (message : String) : CcFingerprintPanel :=
  { self with toast_overlay := self.toast_overlay ++ [message] }

/-- `g_usleep`. -/
def g_usleep (self : CcFingerprintPanel) (microseconds : Nat) : CcFingerprintPanel :=
  { self with usleep_log := self.usleep_log ++ [microseconds] }

/-- Rounding of a rational to an integer, to the nearest one and to the even
one of the two when it lies in the middle. -/
def round_half_even (q : ℚ) : Int :=
  if q - ⌊q⌋ < 1 / 2 then ⌊q⌋
  else if 1 / 2 < q - ⌊q⌋ then ⌊q⌋ + 1
  else if ⌊q⌋ % 2 = 0 then ⌊q⌋ else ⌊q⌋ + 1

/-- The exponent `e` of the last place of the double nearest to a positive
rational `a`: `2 ^ 52 ≤ a / 2 ^ e < 2 ^ 53`.  The fuel covers the normal range
of doubles. -/
def binade : Nat → ℚ → Int
  | 0, _ => 0
  | fuel + 1, a =>
    if a < 2 ^ 52 then binade fuel (a * 2) - 1
    else if 2 ^ 53 ≤ a then binade fuel (a / 2) + 1
    else 0

/-- The `double` that an arithmetic operation of C yields for the exact result
`q` (IEEE 754 binary64, round to nearest, ties to even), for results in the
normal range: a significand of 53 bits. -/
def round_to_double (q : ℚ) : ℚ :=
  if q = 0 then 0
  else (round_half_even (q / 2 ^ binade 1100 |q|) : ℚ) * 2 ^ binade 1100 |q|

/-- `gtk_progress_bar_set_fraction`: GTK clamps the fraction to `[0, 1]`. -/
def gtk_progress_bar_set_fraction (self : CcFingerprintPanel) (fraction : ℚ) :
    CcFingerprintPanel :=
  { self with enroll_progress_fraction := max 0 (min fraction 1) }

/-- The `ErrorInfo` branch of `handle_signal`: the chain of `g_strcmp0` tests
choosing the toast. -/
def error_info_toast (info : String) : String :=
  if info = "ERROR_NO_SPACE" then "No space available for new fingerprints"
  else if info = "ERROR_HW_UNAVAILABLE" then "Fingerprint hardware is unavailable"
  else if info = "ERROR_UNABLE_TO_PROCESS" then "Unable to process fingerprint"
  else if info = "ERROR_TIMEOUT" then "Fingerprint operation timed out"
  else if info = "ERROR_CANCELED" then "Fingerprint operation was canceled"
  else if info = "ERROR_UNABLE_TO_REMOVE" then "Unable to remove the fingerprint"
  else if info = "FINGER_NOT_RECOGNIZED" then "Fingerprint is not recognized"
  else "An error occurred with the fingerprint reader"

/-- The `AcquisitionInfo` branch of `handle_signal`: the chain of `g_strcmp0`
tests; the chain has no final `else`, so other strings show nothing. -/
def acquisition_info_toast (info : String) : Option String :=
  if info = "FPACQUIRED_PARTIAL" then some "Partial fingerprint detected. Please try again"
  else if info = "FPACQUIRED_IMAGER_DIRTY" then
    some "The sensor is dirty. Please clean and try again"
  else if info = "FPACQUIRED_TOO_FAST" then some "Finger moved too fast. Please try again"
  else if info = "FPACQUIRED_TOO_SLOW" then some "Finger moved too slow. Please try again"
  else if info = "FPACQUIRED_INSUFFICIENT" then
    some "Couldn't process fingerprint. Please try again"
  else none

/-- `handle_signal`, the `g-signal` callback of the enroll and identify
workers.  A payload whose type does not fit the signal (the daemon's interface
fixes `(i)` for `EnrollProgressChanged` and `(s)` for the others) leaves the
panel as it is.  `progress / 100.0` is a division of doubles; the `gint`
converts to a double without rounding. -/
def handle_signal (self : CcFingerprintPanel) (signal_name : String)
    (parameters : GVariant) : CcFingerprintPanel :=
  if signal_name = "EnrollProgressChanged" then
    match parameters with
    | .int progress =>
      let self := { self with enroll_progress_visible := true }
      let self := gtk_progress_bar_set_fraction self (round_to_double ((progress : ℚ) / 100))
      if progress = 100 then
        let self := g_usleep self (500 * 1000)
        let self := { self with enrollment_done := true }
        { self with enroll_progress_visible := false }
      else self
    | .str _ => self
  else if signal_name = "Identified" then
    match parameters with
    | .str info =>
      let self := { self with identification_done := true }
      show_toast self ("Identified finger: " ++ info)
    | .int _ => self
  else if signal_name = "StateChanged" then
    match parameters with
    | .str info => if info = "FPSTATE_IDLE" then g_usleep self (500 * 1000) else self
    | .int _ => self
  else if signal_name = "ErrorInfo" then
    match parameters with
    | .str info =>
      let self := show_toast self (error_info_toast info)
      let self := { self with finger_canceled := true }
      { self with enrollment_done := true }
    | .int _ => self
  else if signal_name = "AcquisitionInfo" then
    match parameters with
    | .str info =>
      match acquisition_info_toast info with
      | some message => show_toast self message
      | none => self
    | .int _ => self
  else self

/-- The array `all_fingers` of `refresh_fingerprint_list`. -/
def all_fingers : List String :=
  [ "right-index-finger",
    "left-index-finger",
    "right-thumb",
    "right-middle-finger",
    "right-ring-finger",
    "right-little-finger",
    "left-thumb",
    "left-middle-finger",
    "left-ring-finger",
    "left-little-finger" ]

/-- `g_strv_contains`: on a `NULL` vector GLib's precondition check returns
`FALSE`. -/
def g_strv_contains (strv : Option (List String)) (str : String) : Bool :=
  match strv with
  | none => false
  | some l => l.contains str

/-- The `for` loop of `refresh_fingerprint_list` over the remaining entries of
`all_fingers`: a row is appended to the list box and to `finger_widgets` when
the finger belongs to the view shown. -/
def refresh_loop (enrolled_fingers : Option (List String)) (show_enrolled : Bool) :
    List String → CcFingerprintPanel → CcFingerprintPanel
  | [], self => self
  | finger :: rest, self =>
    let is_enrolled := g_strv_contains enrolled_fingers finger
    if (show_enrolled && is_enrolled) || (!show_enrolled && !is_enrolled) then
      refresh_loop enrolled_fingers show_enrolled rest
        { self with finger_list := self.finger_list ++ [finger],
                    finger_widgets := self.finger_widgets ++ [finger] }
    else
      refresh_loop enrolled_fingers show_enrolled rest self

/-- `refresh_fingerprint_list`; `enrolled_fingers` is what its call of
`get_enrolled_fingers` returns. -/
def refresh_fingerprint_list (self : CcFingerprintPanel)
    (enrolled_fingers : Option (List String)) : CcFingerprintPanel :=
  let show_enrolled := self.show_enrolled_list_active
  let self := { self with finger_list := [] }
  let self := { self with finger_widgets := [] }
  let self := refresh_loop enrolled_fingers show_enrolled all_fingers self
  let self := { self with remove_finger_button_sensitive := false }
  { self with enroll_finger_button_sensitive := false }

/-- The test `enrolled_fingers != NULL && enrolled_fingers[0] != NULL`. -/
def has_enrolled_fingers (enrolled_fingers : Option (List String)) : Bool :=
  match enrolled_fingers with
  | none => false
  | some [] => false
  | some (_ :: _) => true

/-- `cc_fingerprint_panel_remove_finger`.  `remove_fingerprint` gives the
outcome of the daemon's `Remove` for a finger; `first_get_all` is the reply to
the handler's own `get_enrolled_fingers`, `second_get_all` the reply to the
one made inside `refresh_fingerprint_list`. -/
def cc_fingerprint_panel_remove_finger (self : CcFingerprintPanel)
    (remove_fingerprint : String → Bool)
    (first_get_all second_get_all : Option (List String)) : CcFingerprintPanel :=
  match self.selected_finger with
  | some finger =>
    if remove_fingerprint finger then
      let self := show_toast self "Successfully removed fingerprint"
      let self :=
        { self with identify_finger_button_sensitive := has_enrolled_fingers first_get_all }
      refresh_fingerprint_list self second_get_all
    else
      show_toast self "Failed to remove fingerprint"
  | none => show_toast self "Please select a finger to remove"

/-- `set_ui_sensitivity`, the idle callback. -/
def set_ui_sensitivity (self : CcFingerprintPanel) : CcFingerprintPanel :=
  { self with enroll_finger_button_sensitive := self.sensitive,
              finger_select_row_sensitive := self.sensitive,
              remove_finger_button_sensitive := self.sensitive,
              identify_finger_button_sensitive := self.sensitive,
              show_enrolled_list_sensitive := self.sensitive,
              show_unenrolled_list_sensitive := self.sensitive }

/-- A daemon signal: its name and payload. -/
abbrev Signal := String × GVariant

/-- The signals of one batch handled in order by `handle_signal`. -/
def handle_signals (self : CcFingerprintPanel) (batch : List Signal) : CcFingerprintPanel :=
  batch.foldl (fun s sig => handle_signal s sig.1 sig.2) self

/-- The wait loop of `identify_finger_thread`,
`while (!self->identification_done) g_usleep (500 * 100);`.
`deliveries` lists, for each sleep of the worker, the signals the dispatcher
handles during that sleep.  The result is `none` when the deliveries are used
up and the loop is still polling. -/
def identify_wait : CcFingerprintPanel → List (List Signal) → Option CcFingerprintPanel
  | self, [] => if self.identification_done then some self else none
  | self, batch :: rest =>
    if self.identification_done then some self
    else identify_wait (handle_signals (g_usleep self (500 * 100)) batch) rest

/-- The body of `identify_finger_thread`.  `proxy_ok` and `identify_ok` tell
whether the proxy was created and whether the `Identify` call returned without
error; the idle callback `set_ui_sensitivity` is run where it is queued.  The
result is `none` while the worker has not left its wait loop. -/
def identify_finger_thread (self : CcFingerprintPanel) (proxy_ok identify_ok : Bool)
    (deliveries : List (List Signal)) : Option CcFingerprintPanel :=
  if !proxy_ok then some self
  else if !identify_ok then some self
  else
    let self := { self with sensitive := false }
    let self := set_ui_sensitivity self
    match identify_wait self deliveries with
    | none => none
    | some self =>
      some { self with show_enrolled_list_sensitive := true,
                       show_unenrolled_list_sensitive := true,
                       finger_select_row_sensitive := true,
                       identify_finger_button_sensitive := true }

/-- `cc_fingerprint_panel_identify_finger`: the flag is reset and the worker
started. -/
def cc_fingerprint_panel_identify_finger (self : CcFingerprintPanel)
    (proxy_ok identify_ok : Bool) (deliveries : List (List Signal)) :
    Option CcFingerprintPanel :=
  let self := { self with identification_done := false }
  identify_finger_thread self proxy_ok identify_ok deliveries

/-- A concrete panel for the examples: no toast, no row, nothing selected,
every control sensitive, the Enrolled view active, no session flag set. -/
def initial_panel : CcFingerprintPanel :=
  { toast_overlay := [],
    enroll_progress_visible := false,
    enroll_progress_fraction := 0,
    finger_select_row_sensitive := true,
    finger_select_row_expanded := false,
    finger_list := [],
    remove_finger_button_sensitive := true,
    enroll_finger_button_sensitive := true,
    identify_finger_button_sensitive := true,
    show_enrolled_list_active := true,
    show_enrolled_list_sensitive := true,
    show_unenrolled_list_active := false,
    show_unenrolled_list_sensitive := true,
    enrollment_done := false,
    identification_done := false,
    finger_canceled := false,
    sensitive := false,
    finger_widgets := [],
    selected_finger := none,
    usleep_log := [] }

end Fingerprint

namespace Assistant

/-- The enum `AssistantGesture`; a value of the type is one of the three
enumerators, so the `default:` arms of the switches are never taken. -/
inductive AssistantGesture where
  | GESTURE_SHORT_PRESS
  | GESTURE_LONG_PRESS
  | GESTURE_DOUBLE_PRESS
  deriving DecidableEq, Repr

open AssistantGesture

/-- A value of `enum PredefinedAction`: the 32-bit unsigned representation of
the enum, which also holds values that are no enumerator. -/
abbrev PredefinedAction := Nat

def NO_ACTION : PredefinedAction := 0
def FLASHLIGHT : PredefinedAction := 1
def OPEN_CAMERA : PredefinedAction := 2
def TAKE_PICTURE : PredefinedAction := 3
def TAKE_SCREENSHOT : PredefinedAction := 4
def SEND_TAB : PredefinedAction := 5
def MANUAL_AUTOROTATE : PredefinedAction := 6
def SEND_XF86BACK : PredefinedAction := 7
def SEND_ESCAPE : PredefinedAction := 8

/-- What a path names. -/
inductive FileNode where
  | absent
  | unreadable
  | regular (content : String)
  deriving DecidableEq, Repr

/-- The files the store touches.  Directories are not tracked:
`set_contents_ok` tells whether `g_file_set_contents` on a path succeeds
(its directory exists and can be written). -/
structure FileSystem where
  node : String → FileNode
  set_contents_ok : String → Bool

/-- `g_file_set_contents`: the whole file is replaced on success, nothing
changes on failure. -/
def g_file_set_contents (fs : FileSystem) (filename contents : String) : Bool × FileSystem :=
  if fs.set_contents_ok filename then
    (true, { fs with node := fun p => if p = filename then FileNode.regular contents
                                      else fs.node p })
  else (false, fs)

/-- `g_file_get_contents`: the content, or `none` on any error. -/
def g_file_get_contents (fs : FileSystem) (filename : String) : Option String :=
  match fs.node filename with
  | FileNode.regular content => some content
  | FileNode.absent => none
  | FileNode.unreadable => none

/-- The `switch (gesture)` of `save_predefined_action` and
`load_predefined_action`. -/
def gesture_filename : AssistantGesture → String
  | GESTURE_SHORT_PRESS => "short_press_predefined"
  | GESTURE_LONG_PRESS => "long_press_predefined"
  | GESTURE_DOUBLE_PRESS => "double_press_predefined"

/-- `g_build_filename (g_get_home_dir (), ".config", "assistant-button",
filename, NULL)` for a home directory without trailing separator. -/
def file_path (home : String) (gesture : AssistantGesture) : String :=
  home ++ "/.config/assistant-button/" ++ gesture_filename gesture

/-- The conversion `%d` of an enum value passed as `int`. -/
def printf_d (value : PredefinedAction) : String :=
  if value % 2 ^ 32 < 2 ^ 31 then Nat.repr (value % 2 ^ 32)
  else "-" ++ Nat.repr (2 ^ 32 - value % 2 ^ 32)

/-- `ensure_config_directory`: it creates directories only, which the file
model does not track. -/
def ensure_config_directory (fs : FileSystem) (_home : String) : FileSystem := fs

/-- `save_predefined_action`. -/
def save_predefined_action (fs : FileSystem) (home : String) (gesture : AssistantGesture)
    (action : PredefinedAction) : FileSystem :=
  let fs := ensure_config_directory fs home
  let file_path := file_path home gesture
  let content := printf_d action ++ "\n"
  (g_file_set_contents fs file_path content).2

/-- The macro `ISSPACE` of GLib's `g_ascii_strtoll`: space, form feed, line
feed, carriage return, tab and vertical tab. -/
def ISSPACE (c : Char) : Bool :=
  c = ' ' || c.toNat = 12 || c = '\n' || c = '\r' || c = '\t' || c.toNat = 11

def G_MAXUINT64 : Nat := 2 ^ 64 - 1
def G_MAXINT64 : Int := 2 ^ 63 - 1
def G_MININT64 : Int := -(2 ^ 63)

/-- The digit loop of GLib's `g_parse_long_long` for base 10, from the
position after the sign: the accumulated value, whether it overflowed 64 bits
and whether any character was consumed. -/
def parse_digits : List Char → Nat → Bool → Bool → Nat × Bool × Bool
  | [], ui64, overflow, consumed => (ui64, overflow, consumed)
  | c :: s, ui64, overflow, consumed =>
    if '0' ≤ c ∧ c ≤ '9' then
      let d := c.toNat - '0'.toNat
      if ui64 > G_MAXUINT64 / 10 ∨ (ui64 = G_MAXUINT64 / 10 ∧ d > G_MAXUINT64 % 10) then
        parse_digits s ui64 true true
      else
        parse_digits s (ui64 * 10 + d) overflow true
    else (ui64, overflow, consumed)

/-- `g_ascii_strtoll (nptr, NULL, 10)`: leading white space, an optional
sign, then decimal digits; `0` when no digit follows; saturating at the 64-bit
bounds. -/
def g_ascii_strtoll (nptr : String) : Int :=
  match nptr.toList.dropWhile ISSPACE with
  | [] => 0
  | c :: rest =>
    let negative : Bool := c = '-'
    let s := if c = '-' ∨ c = '+' then rest else c :: rest
    match parse_digits s 0 false false with
    | (ui64, overflow, consumed) =>
      if !consumed then 0
      else
        let result := if overflow then G_MAXUINT64 else ui64
        if negative ∧ result > 2 ^ 63 then G_MININT64
        else if ¬ negative ∧ result > 2 ^ 63 - 1 then G_MAXINT64
        else if negative then -(result : Int)
        else (result : Int)

/-- The cast `(enum PredefinedAction)` of a `gint64`: reduction modulo
`2 ^ 32`. -/
def to_PredefinedAction (v : Int) : PredefinedAction := (v % 2 ^ 32).toNat

/-- `load_predefined_action`. -/
def load_predefined_action (fs : FileSystem) (home : String) (gesture : AssistantGesture) :
    PredefinedAction :=
  let file_path := file_path home gesture
  match g_file_get_contents fs file_path with
  | some content => to_PredefinedAction (g_ascii_strtoll content)
  | none => NO_ACTION

/-- The file format in the words of the specification, "one line, decimal
integer, trailing newline": an optional minus sign and at least one decimal
digit, then at most one newline, and nothing else. -/
def single_line_integer (content : String) : Bool :=
  let line := match content.toList.reverse with
    | '\n' :: r => r.reverse
    | _ => content.toList
  let digits := match line with
    | '-' :: r => r
    | _ => line
  !digits.isEmpty && digits.all (fun c => decide ('0' ≤ c ∧ c ≤ '9'))

/-- Whether a content begins with a decimal integer: after leading white space
and an optional sign comes a decimal digit. -/
def starts_with_integer (content : String) : Bool :=
  match content.toList.dropWhile ISSPACE with
  | [] => false
  | c :: rest =>
    if c = '-' ∨ c = '+' then
      match rest with
      | [] => false
      | d :: _ => decide ('0' ≤ d ∧ d ≤ '9')
    else decide ('0' ≤ c ∧ c ≤ '9')

/-- A file system that holds one regular file and accepts every write. -/
def single_file (path content : String) : FileSystem :=
  { node := fun p => if p = path then FileNode.regular content else FileNode.absent,
    set_contents_ok := fun _ => true }

/-- A file system without files that accepts every write. -/
def no_files : FileSystem :=
  { node := fun _ => FileNode.absent,
    set_contents_ok := fun _ => true }

end Assistant

namespace Waydroid

/-- The bytes of a C string: the UTF-8 encoding of the text. -/
def utf8_bytes (s : String) : List Nat :=
  s.toList.flatMap (fun c => (String.utf8EncodeChar c).map UInt8.toNat)

/-- `strcmp` on the bytes of two strings: the difference of the first pair of
bytes that differ; the end of a list counts as the terminating byte 0, and
the comparison stops at a byte 0. -/
def strcmp : List Nat → List Nat → Int
  | [], [] => 0
  | [], b :: _ => 0 - (b : Int)
  | a :: _, [] => (a : Int)
  | a :: as, b :: bs =>
    if a = b then (if a = 0 then 0 else strcmp as bs)
    else (a : Int) - (b : Int)

/-- `g_strcmp0` on two strings that are not `NULL`. -/
def g_strcmp0 (a b : String) : Int := strcmp (utf8_bytes a) (utf8_bytes b)

/-- `qsort_g_strcmp0`, the comparator handed to `qsort`. -/
def qsort_g_strcmp0 (a b : String) : Int := g_strcmp0 a b

/-- The order of the specification on sequences of bytes, "ascending by
case-sensitive byte comparison": the first bytes that differ decide, and a
sequence comes before its extensions. -/
def bytes_le : List Nat → List Nat → Bool
  | [], _ => true
  | _ :: _, [] => false
  | a :: as, b :: bs => decide (a < b) || (decide (a = b) && bytes_le as bs)

/-- The order of the specification on names: the order of their bytes (for
UTF-8 this is also the order of their code points). -/
def byte_order_le (a b : String) : Prop := bytes_le (utf8_bytes a) (utf8_bytes b) = true

instance (a b : String) : Decidable (byte_order_le a b) := by
  unfold byte_order_le
  infer_instance

/-- `qsort` with a comparator: the array in ascending order.  The C library
leaves the algorithm open; insertion is taken here. -/
def qsort (compar : String → String → Int) (base : List String) : List String :=
  base.insertionSort (fun a b => compar a b ≤ 0)

/-- The `for` loop of `update_app_list_idle` over the sorted names: a row is
appended for every name whose first byte is not the terminator. -/
def app_rows_loop : List String → List String → List String
  | [], rows => rows
  | app :: rest, rows =>
    if app ≠ "" then app_rows_loop rest (rows ++ [app])
    else app_rows_loop rest rows

/-- One line as `getline` returns it, terminator included, for each line of a
text. -/
def getlines : List Char → List (List Char)
  | [] => []
  | c :: cs =>
    if c = '\n' then [c] :: getlines cs
    else
      match getlines cs with
      | [] => [[c]]
      | line :: lines => (c :: line) :: lines

/-- `strtok (s, " ")` on the text left to scan: the next token and the text
after the delimiter that ended it, or `none` when only spaces are left. -/
def strtok (s : List Char) : Option (List Char × List Char) :=
  match s.dropWhile (fun c => c = ' ') with
  | [] => none
  | t => some (t.takeWhile (fun c => c ≠ ' '), (t.dropWhile (fun c => c ≠ ' ')).drop 1)

/-- The two `strtok` calls of `is_mounted` on one line: the second token. -/
def mount_point (line : List Char) : Option (List Char) :=
  match strtok line with
  | none => none
  | some (_, saved) =>
    match strtok saved with
    | none => none
    | some (token, _) => some token

/-- The `while (getline ...)` loop of `is_mounted` over the lines left. -/
def is_mounted_loop (path : List Char) : List (List Char) → Int
  | [] => 0
  | line :: rest =>
    if mount_point line = some path then 1
    else is_mounted_loop path rest

/-- `is_mounted`; `proc_mounts` is the text of `/proc/mounts`, `none` when
`fopen` fails. -/
def is_mounted (proc_mounts : Option String) (path : String) : Int :=
  match proc_mounts with
  | none => -1
  | some content => is_mounted_loop path.toList (getlines content.toList)

/-- One entry of the kernel's mount table, the six fields of a line of
`/proc/mounts`. -/
structure mntent where
  mnt_fsname : String
  mnt_dir : String
  mnt_type : String
  mnt_opts : String
  mnt_freq : String
  mnt_passno : String
  deriving DecidableEq, Repr

/-- A field as the kernel prints it: not empty, and free of spaces and
newlines (the kernel writes those as octal escapes). -/
def field_ok (s : String) : Prop :=
  s.toList ≠ [] ∧ ' ' ∉ s.toList ∧ '\n' ∉ s.toList

instance (s : String) : Decidable (field_ok s) := by
  unfold field_ok
  infer_instance

/-- An entry all of whose fields are printed fields. -/
def mntent_ok (e : mntent) : Prop :=
  field_ok e.mnt_fsname ∧ field_ok e.mnt_dir ∧ field_ok e.mnt_type ∧
  field_ok e.mnt_opts ∧ field_ok e.mnt_freq ∧ field_ok e.mnt_passno

instance (e : mntent) : Decidable (mntent_ok e) := by
  unfold mntent_ok
  infer_instance

/-- The line of `/proc/mounts` for an entry: the fields separated by single
spaces, then a newline. -/
def mounts_line (e : mntent) : String :=
  e.mnt_fsname ++ " " ++ e.mnt_dir ++ " " ++ e.mnt_type ++ " " ++ e.mnt_opts ++ " " ++
    e.mnt_freq ++ " " ++ e.mnt_passno ++ "\n"

/-- The text of `/proc/mounts` for a mount table. -/
def mounts_text : List mntent → String
  | [] => ""
  | e :: rest => mounts_line e ++ mounts_text rest

/-- Splitting in the words of the specification: the pieces of a text between
the occurrences of a separator. -/
def split_on (sep : Char) : List Char → List (List Char)
  | [] => [[]]
  | c :: cs =>
    if c = sep then [] :: split_on sep cs
    else
      match split_on sep cs with
      | [] => [[c]]
      | piece :: pieces => (c :: piece) :: pieces

/-- In the words of the specification: some line of the content, split on
spaces, has a second field exactly equal to `p`.  The lines are the pieces of
the content between its newlines. -/
def second_field_is (content p : String) : Prop :=
  ∃ line ∈ split_on '\n' content.toList, (split_on ' ' line)[1]? = some p.toList

instance (content p : String) : Decidable (second_field_is content p) := by
  unfold second_field_is
  infer_instance

end Waydroid

namespace Waydroid

/-- The fields of `struct _CcWaydroidPanel` the modelled functions use,
widgets replaced by the properties written through them, followed by what the
panel has asked of GLib and of the bus. -/
structure CcWaydroidPanel where
  /-- messages of the toasts added to `toast_overlay`, oldest first -/
  toast_overlay : List String
  waydroid_enabled_switch_active : Bool
  waydroid_enabled_switch_sensitive : Bool
  waydroid_autostart_switch_active : Bool
  waydroid_autostart_switch_sensitive : Bool
  waydroid_shared_folder_switch_active : Bool
  waydroid_shared_folder_switch_sensitive : Bool
  waydroid_nfc_switch_active : Bool
  waydroid_nfc_switch_sensitive : Bool
  waydroid_ip_label : String
  waydroid_vendor_label : String
  waydroid_version_label : String
  app_selector_sensitive : Bool
  app_selector_expanded : Bool
  /-- labels of the rows of `app_list`; `none` while the list box is `NULL` -/
  app_list : Option (List String)
  launch_app_button_sensitive : Bool
  remove_app_button_sensitive : Bool
  install_app_button_sensitive : Bool
  store_button_sensitive : Bool
  refresh_app_list_button_sensitive : Bool
  factory_reset_button_sensitive : Bool
  clear_app_data_button_sensitive : Bool
  kill_app_button_sensitive : Bool
  apps : Option (List String)
  /-- labels of the row widgets kept in the `app_widgets` list -/
  app_widgets : List String
  selected_app_name : Option String
  selected_app_pkgname : Option String
  refreshing : Bool
  /-- handlers connected with `g_signal_connect`: widget, signal, callback -/
  signal_handlers : List (String × String × String)
  /-- callbacks queued with `g_idle_add` -/
  idle_sources : List String
  /-- callbacks queued with `g_timeout_add_seconds`: interval, callback -/
  timeout_sources : List (Nat × String)
  /-- names of the threads started with `g_thread_new` -/
  threads : List String
  /-- argument vectors handed to `g_spawn_*` -/
  spawned : List (List String)
  /-- methods called on the container and session managers, with arguments -/
  dbus_calls : List (String × List String)
  deriving DecidableEq, Repr

/-- What the panel reads from the system when it is built. -/
structure Environment where
  /-- `g_get_home_dir ()` -/
  home_dir : String
  /-- `g_file_test ("/usr/bin/waydroid", G_FILE_TEST_EXISTS)` -/
  waydroid_installed : Bool
  /-- whether `$HOME/.android_enable` exists -/
  android_enable_exists : Bool
  /-- the result of `waydroid_get_state ()`: the `state` of `GetSession` -/
  current_state : Option String
  /-- the text of `/proc/mounts`, `none` when it cannot be opened -/
  proc_mounts : Option String
  /-- the result of `waydroid_get_nfc_status ()` -/
  nfc_status : Bool

/-- `show_toast` with a format that has no conversion. -/
def show_toast (self : CcWaydroidPanel) (message : String) : CcWaydroidPanel :=
  { self with toast_overlay := self.toast_overlay ++ [message] }

/-- `g_signal_connect (widget, signal, callback, self)`. -/
def g_signal_connect (self : CcWaydroidPanel) (widget signal callback : String) :
    CcWaydroidPanel :=
  { self with signal_handlers := self.signal_handlers ++ [(widget, signal, callback)] }

/-- `g_idle_add (callback, self)`. -/
def g_idle_add (self : CcWaydroidPanel) (callback : String) : CcWaydroidPanel :=
  { self with idle_sources := self.idle_sources ++ [callback] }

/-- `g_timeout_add_seconds (interval, callback, self)`. -/
def g_timeout_add_seconds (self : CcWaydroidPanel) (interval : Nat) (callback : String) :
    CcWaydroidPanel :=
  { self with timeout_sources := self.timeout_sources ++ [(interval, callback)] }

/-- `g_thread_new (name, ...)`. -/
def g_thread_new (self : CcWaydroidPanel) (name : String) : CcWaydroidPanel :=
  { self with threads := self.threads ++ [name] }

/-- `set_refresh_sensitive`, an idle callback. -/
def set_refresh_sensitive (self : CcWaydroidPanel) : CcWaydroidPanel :=
  { self with refresh_app_list_button_sensitive := !self.refreshing,
              app_selector_sensitive := !self.refreshing }

/-- `update_app_list_idle`.  It is queued by `update_app_list` only when
`self->apps` holds names; with `NULL` the panel is returned as it is. -/
def update_app_list_idle (self : CcWaydroidPanel) : CcWaydroidPanel :=
  match self.apps with
  | none => self
  | some apps =>
    let self := { self with app_selector_expanded := false }
    let self :=
      match self.app_list with
      | none =>
        let self := g_signal_connect self "app_list" "row-activated" "on_app_activated"
        { self with app_list := some [] }
      | some _ => { self with app_list := some [] }
    let self := { self with app_widgets := [] }
    let apps := qsort qsort_g_strcmp0 apps
    let self := { self with apps := some apps }
    let rows := app_rows_loop apps []
    let self := { self with app_list := some rows, app_widgets := rows }
    let self := { self with apps := none }
    let self := { self with refreshing := false }
    g_idle_add self "set_refresh_sensitive"

/-- `update_app_list`, the body of the refresh thread; `names` is the result
of `waydroid_get_all_names ()`. -/
def update_app_list (self : CcWaydroidPanel) (names : Option (List String)) :
    CcWaydroidPanel :=
  let self := { self with refreshing := true }
  let self := g_idle_add self "set_refresh_sensitive"
  let self := { self with apps := names }
  match names with
  | none =>
    let self := { self with refreshing := false }
    g_idle_add self "set_refresh_sensitive"
  | some _ => g_idle_add self "update_app_list_idle"

/-- `update_app_list_threaded`. -/
def update_app_list_threaded (self : CcWaydroidPanel) : CcWaydroidPanel :=
  g_thread_new self "update_app_list"

/-- `set_widgets_state`. -/
def set_widgets_state (self : CcWaydroidPanel) (state : Bool) : CcWaydroidPanel :=
  { self with app_selector_sensitive := state,
              remove_app_button_sensitive := state,
              install_app_button_sensitive := state,
              refresh_app_list_button_sensitive := state,
              store_button_sensitive := state,
              clear_app_data_button_sensitive := state,
              kill_app_button_sensitive := state,
              launch_app_button_sensitive := state }

/-- `set_enable_widgets_state`, the callback of the re-enable timers. -/
def set_enable_widgets_state (self : CcWaydroidPanel) : CcWaydroidPanel :=
  set_widgets_state self true

/-- GLib's `g_ascii_isspace`: space, tab, line feed, form feed and carriage
return; the vertical tab is not among them. -/
def g_ascii_isspace (c : Char) : Bool :=
  c = ' ' || c = '\t' || c = '\n' || c = '\r' || c.toNat = 12

/-- `g_strstrip`: leading and trailing white space removed. -/
def g_strstrip (s : String) : String :=
  String.mk ((s.toList.dropWhile g_ascii_isspace).reverse.dropWhile g_ascii_isspace).reverse

/-- `cc_waydroid_panel_uninstall_app`. -/
def cc_waydroid_panel_uninstall_app (self : CcWaydroidPanel) : CcWaydroidPanel :=
  match self.selected_app_pkgname with
  | some pkgname =>
    let self := set_widgets_state self false
    let stripped_pkgname := g_strstrip pkgname
    let self := { self with selected_app_pkgname := some stripped_pkgname }
    let self := { self with dbus_calls := self.dbus_calls ++ [("RemoveApp", [stripped_pkgname])] }
    let self := g_timeout_add_seconds self 5 "set_enable_widgets_state"
    update_app_list_threaded self
  | none => show_toast self "No app selected"

/-- `cc_waydroid_panel_clear_app_data`. -/
def cc_waydroid_panel_clear_app_data (self : CcWaydroidPanel) : CcWaydroidPanel :=
  match self.selected_app_pkgname with
  | some pkgname =>
    let self := set_widgets_state self false
    let stripped_pkgname := g_strstrip pkgname
    let self := { self with selected_app_pkgname := some stripped_pkgname }
    let self :=
      { self with dbus_calls := self.dbus_calls ++ [("ClearAppData", [stripped_pkgname])] }
    g_timeout_add_seconds self 2 "set_enable_widgets_state"
  | none => show_toast self "No app selected"

/-- `cc_waydroid_panel_kill_app`. -/
def cc_waydroid_panel_kill_app (self : CcWaydroidPanel) : CcWaydroidPanel :=
  match self.selected_app_pkgname with
  | some pkgname =>
    let self := set_widgets_state self false
    let stripped_pkgname := g_strstrip pkgname
    let self := { self with selected_app_pkgname := some stripped_pkgname }
    let self := { self with dbus_calls := self.dbus_calls ++ [("KillApp", [stripped_pkgname])] }
    g_timeout_add_seconds self 2 "set_enable_widgets_state"
  | none => show_toast self "No app selected"

/-- The seven `g_signal_connect` calls on the app-management buttons, made by
`enable_idle` and by `cc_waydroid_panel_init`. -/
def connect_app_buttons (self : CcWaydroidPanel) : CcWaydroidPanel :=
  let self := g_signal_connect self "launch_app_button" "clicked"
    "cc_waydroid_panel_launch_app_threaded"
  let self := g_signal_connect self "remove_app_button" "clicked"
    "cc_waydroid_panel_uninstall_app"
  let self := g_signal_connect self "install_app_button" "clicked"
    "cc_waydroid_panel_install_app"
  let self := g_signal_connect self "store_button" "clicked" "cc_waydroid_panel_open_store"
  let self := g_signal_connect self "refresh_app_list_button" "clicked"
    "cc_waydroid_refresh_button"
  let self := g_signal_connect self "clear_app_data_button" "clicked"
    "cc_waydroid_panel_clear_app_data"
  g_signal_connect self "kill_app_button" "clicked" "cc_waydroid_panel_kill_app"

/-- `enable_idle`, the callback of the 10 s timer started when the enable
switch is turned on; `nfc_status` is the result of
`waydroid_get_nfc_status ()`. -/
def enable_idle (self : CcWaydroidPanel) (nfc_status : Bool) : CcWaydroidPanel :=
  let self :=
    { self with waydroid_enabled_switch_sensitive := true,
                launch_app_button_sensitive := true,
                remove_app_button_sensitive := true,
                install_app_button_sensitive := true,
                app_selector_sensitive := true,
                store_button_sensitive := true,
                refresh_app_list_button_sensitive := true,
                waydroid_nfc_switch_sensitive := true,
                clear_app_data_button_sensitive := true,
                kill_app_button_sensitive := true }
  let self := { self with factory_reset_button_sensitive := false }
  let self := connect_app_buttons self
  let self := g_idle_add self "update_waydroid_info_idle"
  { self with waydroid_nfc_switch_active := nfc_status }

/-- `cc_waydroid_panel_enable_waydroid`, the `state-set` handler of the enable
switch.  `spawn_ok` tells whether the spawn of `waydroid session start` (or
`stop`) succeeded.  The handler returns `FALSE`, so GTK's default handler then
gives the switch the requested state. -/
def cc_waydroid_panel_enable_waydroid (self : CcWaydroidPanel) (state : Bool)
    (spawn_ok : Bool) : CcWaydroidPanel :=
  let self := { self with waydroid_enabled_switch_active := state }
  if state then
    let self := { self with spawned := self.spawned ++ [["waydroid", "session", "start"]] }
    if !spawn_ok then self
    else
      let self := { self with waydroid_enabled_switch_sensitive := false }
      g_timeout_add_seconds self 10 "enable_idle"
  else
    let self := { self with spawned := self.spawned ++ [["waydroid", "session", "stop"]] }
    let self := { self with waydroid_ip_label := "",
                            waydroid_vendor_label := "",
                            waydroid_version_label := "" }
    let self :=
      { self with launch_app_button_sensitive := false,
                  remove_app_button_sensitive := false,
                  install_app_button_sensitive := false,
                  app_selector_sensitive := false,
                  store_button_sensitive := false,
                  refresh_app_list_button_sensitive := false,
                  waydroid_nfc_switch_sensitive := false,
                  clear_app_data_button_sensitive := false,
                  kill_app_button_sensitive := false }
    let self := { self with factory_reset_button_sensitive := true }
    { self with app_selector_expanded := false }

/-- `cc_waydroid_panel_shared_folder`, the `state-set` handler of the
shared-folder switch.  `proxy_ok` tells whether the proxy of the container
manager could be created; the outcome of the call itself is not looked at. -/
def cc_waydroid_panel_shared_folder (self : CcWaydroidPanel) (state : Bool)
    (proxy_ok : Bool) : CcWaydroidPanel :=
  if state then
    let self :=
      if proxy_ok then { self with dbus_calls := self.dbus_calls ++ [("MountSharedFolder", [])] }
      else self
    { self with waydroid_shared_folder_switch_active := true }
  else
    let self :=
      if proxy_ok then
        { self with dbus_calls := self.dbus_calls ++ [("UnmountSharedFolder", [])] }
      else self
    { self with waydroid_shared_folder_switch_active := false }

/-- `cc_waydroid_panel_init`; `self` is the panel as the widget template
builds it. -/
def cc_waydroid_panel_init (self : CcWaydroidPanel) (env : Environment) : CcWaydroidPanel :=
  let self := { self with selected_app_name := none, selected_app_pkgname := none }
  if env.waydroid_installed then
    let self := g_signal_connect self "waydroid_enabled_switch" "state-set"
      "cc_waydroid_panel_enable_waydroid"
    let self := g_signal_connect self "waydroid_autostart_switch" "state-set"
      "cc_waydroid_panel_autostart"
    let self := g_signal_connect self "waydroid_shared_folder_switch" "state-set"
      "cc_waydroid_panel_shared_folder"
    let self := g_signal_connect self "waydroid_nfc_switch" "state-set" "cc_waydroid_panel_nfc"
    let self := g_signal_connect self "factory_reset_button" "clicked"
      "cc_waydroid_factory_reset_threaded"
    let self := { self with waydroid_autostart_switch_active := env.android_enable_exists }
    if env.current_state = some "RUNNING" then
      let self := { self with waydroid_enabled_switch_active := true }
      let self := { self with factory_reset_button_sensitive := false }
      let self := connect_app_buttons self
      let android_dir_path := env.home_dir ++ "/Android"
      let self :=
        if is_mounted env.proc_mounts android_dir_path ≠ 0 then
          { self with waydroid_shared_folder_switch_active := true }
        else
          { self with waydroid_shared_folder_switch_active := false }
      let self := { self with waydroid_nfc_switch_active := env.nfc_status }
      let self := g_thread_new self "update_waydroid_ip"
      let self := g_thread_new self "update_waydroid_vendor"
      let self := update_app_list_threaded self
      g_thread_new self "update_waydroid_version"
    else
      let self := { self with waydroid_enabled_switch_active := false }
      let self := { self with waydroid_vendor_label := "", waydroid_version_label := "" }
      { self with waydroid_nfc_switch_sensitive := false,
                  launch_app_button_sensitive := false,
                  remove_app_button_sensitive := false,
                  install_app_button_sensitive := false,
                  app_selector_sensitive := false,
                  store_button_sensitive := false,
                  refresh_app_list_button_sensitive := false,
                  clear_app_data_button_sensitive := false,
                  kill_app_button_sensitive := false }
  else
    let self := { self with waydroid_enabled_switch_active := false }
    let self :=
      { self with waydroid_enabled_switch_sensitive := false,
                  waydroid_autostart_switch_sensitive := false,
                  waydroid_shared_folder_switch_sensitive := false,
                  waydroid_nfc_switch_sensitive := false,
                  launch_app_button_sensitive := false,
                  remove_app_button_sensitive := false,
                  install_app_button_sensitive := false,
                  app_selector_sensitive := false,
                  store_button_sensitive := false,
                  refresh_app_list_button_sensitive := false,
                  factory_reset_button_sensitive := false,
                  clear_app_data_button_sensitive := false,
                  kill_app_button_sensitive := false }
    { self with waydroid_vendor_label := "", waydroid_version_label := "" }

/-- The app-management controls of the sensitivity policy (app selector,
launch, remove, install, store, refresh, clear data, kill) and the NFC
passthrough switch are all insensitive. -/
def app_controls_insensitive (self : CcWaydroidPanel) : Prop :=
  self.app_selector_sensitive = false ∧ self.launch_app_button_sensitive = false ∧
  self.remove_app_button_sensitive = false ∧ self.install_app_button_sensitive = false ∧
  self.store_button_sensitive = false ∧ self.refresh_app_list_button_sensitive = false ∧
  self.clear_app_data_button_sensitive = false ∧ self.kill_app_button_sensitive = false ∧
  self.waydroid_nfc_switch_sensitive = false

instance (self : CcWaydroidPanel) : Decidable (app_controls_insensitive self) := by
  unfold app_controls_insensitive
  infer_instance

/-- The eight app-management controls (app selector, launch, remove, install,
store, refresh, clear data, kill) all have the sensitivity `state`. -/
def app_management_sensitive (self : CcWaydroidPanel) (state : Bool) : Prop :=
  self.app_selector_sensitive = state ∧ self.launch_app_button_sensitive = state ∧
  self.remove_app_button_sensitive = state ∧ self.install_app_button_sensitive = state ∧
  self.store_button_sensitive = state ∧ self.refresh_app_list_button_sensitive = state ∧
  self.clear_app_data_button_sensitive = state ∧ self.kill_app_button_sensitive = state

instance (self : CcWaydroidPanel) (state : Bool) :
    Decidable (app_management_sensitive self state) := by
  unfold app_management_sensitive
  infer_instance

/-- The panel together with the state of the Android session. -/
structure World where
  panel : CcWaydroidPanel
  /-- the `state` that `GetSession` would report now -/
  session : Option String
  deriving DecidableEq, Repr

/-- What can happen to a panel that has been built: the user acts on a
control, or a queued callback runs.  The state of the session after the enable
switch was handled is given by the system. -/
inductive Event where
  | enable_switch (state : Bool) (spawn_ok : Bool) (session_after : Option String)
  | enable_idle_timer (nfc_status : Bool)
  | uninstall_app_clicked
  | clear_app_data_clicked
  | kill_app_clicked
  | reenable_timer
  | refresh_thread (names : Option (List String))
  | set_refresh_sensitive_idle
  | update_app_list_idle_run
  | shared_folder_switch (state : Bool) (proxy_ok : Bool)
  deriving DecidableEq, Repr

/-- The handler or callback of one event run on the panel. -/
def World.step (w : World) : Event → World
  | Event.enable_switch state spawn_ok session_after =>
    { panel := cc_waydroid_panel_enable_waydroid w.panel state spawn_ok,
      session := session_after }
  | Event.enable_idle_timer nfc_status => { w with panel := enable_idle w.panel nfc_status }
  | Event.uninstall_app_clicked => { w with panel := cc_waydroid_panel_uninstall_app w.panel }
  | Event.clear_app_data_clicked => { w with panel := cc_waydroid_panel_clear_app_data w.panel }
  | Event.kill_app_clicked => { w with panel := cc_waydroid_panel_kill_app w.panel }
  | Event.reenable_timer => { w with panel := set_enable_widgets_state w.panel }
  | Event.refresh_thread names => { w with panel := update_app_list w.panel names }
  | Event.set_refresh_sensitive_idle => { w with panel := set_refresh_sensitive w.panel }
  | Event.update_app_list_idle_run => { w with panel := update_app_list_idle w.panel }
  | Event.shared_folder_switch state proxy_ok =>
    { w with panel := cc_waydroid_panel_shared_folder w.panel state proxy_ok }

/-- The world after the panel was built from the template in an environment
and a sequence of events took place. -/
def World.run (template : CcWaydroidPanel) (env : Environment) (events : List Event) : World :=
  events.foldl World.step
    { panel := cc_waydroid_panel_init template env, session := env.current_state }

/-- The control-sensitivity policy of the specification on one state: with the
session not `RUNNING` the app-management controls and the NFC switch are
insensitive and factory reset is sensitive; with the session `RUNNING` factory
reset is insensitive. -/
def sensitivity_policy (w : World) : Prop :=
  (w.session ≠ some "RUNNING" →
    app_controls_insensitive w.panel ∧ w.panel.factory_reset_button_sensitive = true) ∧
  (w.session = some "RUNNING" → w.panel.factory_reset_button_sensitive = false)

instance (w : World) : Decidable (sensitivity_policy w) := by
  unfold sensitivity_policy
  infer_instance

/-- A template for the examples: every control sensitive, every switch off,
the labels empty, no list box yet, nothing connected or queued. -/
def template_panel : CcWaydroidPanel :=
  { toast_overlay := [],
    waydroid_enabled_switch_active := false,
    waydroid_enabled_switch_sensitive := true,
    waydroid_autostart_switch_active := false,
    waydroid_autostart_switch_sensitive := true,
    waydroid_shared_folder_switch_active := false,
    waydroid_shared_folder_switch_sensitive := true,
    waydroid_nfc_switch_active := false,
    waydroid_nfc_switch_sensitive := true,
    waydroid_ip_label := "",
    waydroid_vendor_label := "",
    waydroid_version_label := "",
    app_selector_sensitive := true,
    app_selector_expanded := false,
    app_list := none,
    launch_app_button_sensitive := true,
    remove_app_button_sensitive := true,
    install_app_button_sensitive := true,
    store_button_sensitive := true,
    refresh_app_list_button_sensitive := true,
    factory_reset_button_sensitive := true,
    clear_app_data_button_sensitive := true,
    kill_app_button_sensitive := true,
    apps := none,
    app_widgets := [],
    selected_app_name := none,
    selected_app_pkgname := none,
    refreshing := false,
    signal_handlers := [],
    idle_sources := [],
    timeout_sources := [],
    threads := [],
    spawned := [],
    dbus_calls := [] }

/-- An environment for the examples: Waydroid installed, the session stopped,
one mount that is not the shared folder. -/
def stopped_environment : Environment :=
  { home_dir := "/home/user",
    waydroid_installed := true,
    android_enable_exists := false,
    current_state := some "STOPPED",
    proc_mounts := some "/dev/sda1 / ext4 rw 0 0\n",
    nfc_status := false }

/-- An environment for the examples: Waydroid installed, the session running,
one mount that is not the shared folder. -/
def running_environment : Environment :=
  { stopped_environment with current_state := some "RUNNING" }

end Waydroid

namespace Usb

/-- The macro `MTP_SERVER_SERVICE`. -/
def MTP_SERVER_SERVICE : String := "mtp-server.service"

/-- The fields of `struct _CcUsbPanel`, widgets replaced by the properties
written through them, and the handlers connected. -/
structure CcUsbPanel where
  cdrom_enabled_switch_active : Bool
  cdrom_enabled_switch_sensitive : Bool
  iso_selection_switch_sensitive : Bool
  iso_label : String
  usb_state_mtp_active : Bool
  usb_state_mtp_sensitive : Bool
  usb_state_rndis_active : Bool
  usb_state_rndis_sensitive : Bool
  usb_state_none_active : Bool
  usb_state_none_sensitive : Bool
  power_role_sink_active : Bool
  power_role_sink_sensitive : Bool
  power_role_source_active : Bool
  power_role_source_sensitive : Bool
  path : Option String
  /-- handlers connected with `g_signal_connect`: widget, signal, callback -/
  signal_handlers : List (String × String × String)
  deriving DecidableEq, Repr

/-- The part of the system the handlers of the panel act on. -/
structure System where
  /-- whether the marker `$HOME/.mtp_disable` exists -/
  mtp_disable_exists : Bool
  /-- whether files can be created in and deleted from `$HOME` -/
  home_writable : Bool
  /-- the user services that are active -/
  active_services : List String
  /-- whether the init system carries out start and stop requests -/
  systemd_ok : Bool
  /-- whether a proxy of the USB configurator can be created -/
  usbconfig_ok : Bool
  /-- methods called on the USB configurator, with their argument -/
  dbus_calls : List (String × String)
  /-- requests made to the init system: `start` or `stop`, and the service -/
  service_requests : List (String × String)
  /-- argument vectors handed to `g_spawn_async` -/
  spawned : List (List String)
  deriving DecidableEq, Repr

/-- What `cc_usb_panel_init` reads from the system. -/
structure Environment where
  /-- whether `/usr/lib/droidian/device/mtp-supported` exists -/
  mtp_supported : Bool
  /-- the result of `usb_get_current_state ()` -/
  current_state : Option String
  /-- the result of `powerconfig_get ("PreferredRole")` -/
  preferred_role : Option String
  /-- whether `/usr/bin/isodrive` exists -/
  isodrive_exists : Bool
  /-- the content of the `lun.0/cdrom` node, `none` when missing or unreadable -/
  cdrom_node : Option String
  /-- the content of the `lun.0/file` node, `none` when missing or unreadable -/
  file_node : Option String

/-- `usb_set_mode`: the call is made when the proxy could be created, and its
reply is not awaited. -/
def usb_set_mode (sys : System) (mode : String) : System :=
  if sys.usbconfig_ok then { sys with dbus_calls := sys.dbus_calls ++ [("SetUSBMode", mode)] }
  else sys

/-- Modelled from the spec: `cc_start_service` of
`panels/nfc/cc-systemd-service.c`, which is not among the sources; the
specification gives the Service Controller the operation `start(service,
bus)`.  The request is recorded, and the service is active afterwards when the
init system carries the request out. -/
def cc_start_service (sys : System) (service : String) : System :=
  let sys := { sys with service_requests := sys.service_requests ++ [("start", service)] }
  if sys.systemd_ok then
    if service ∈ sys.active_services then sys
    else { sys with active_services := service :: sys.active_services }
  else sys

/-- Modelled from the spec: `cc_stop_service` of
`panels/nfc/cc-systemd-service.c`, which is not among the sources; the
specification gives the Service Controller the operation `stop(service, bus)`.
The request is recorded, and the service is not active afterwards when the
init system carries the request out. -/
def cc_stop_service (sys : System) (service : String) : System :=
  let sys := { sys with service_requests := sys.service_requests ++ [("stop", service)] }
  if sys.systemd_ok then
    { sys with active_services := sys.active_services.filter (fun s => s ≠ service) }
  else sys

/-- `cc_usb_panel_enable_mtp`. -/
def cc_usb_panel_enable_mtp (sys : System) (state : Bool) : System :=
  if state then
    let sys :=
      if sys.mtp_disable_exists && sys.home_writable then
        { sys with mtp_disable_exists := false }
      else sys
    cc_start_service sys MTP_SERVER_SERVICE
  else
    let sys := cc_stop_service sys MTP_SERVER_SERVICE
    if !sys.mtp_disable_exists then
      if sys.home_writable then { sys with mtp_disable_exists := true }
      else sys
    else sys

/-- The mode `cc_usb_panel_usb_state_changed` derives from the radios. -/
def selected_mode (self : CcUsbPanel) : String :=
  if self.usb_state_mtp_active then "mtp"
  else if self.usb_state_rndis_active then "rndis"
  else "none"

/-- The flag `mtp_enabled` that `cc_usb_panel_usb_state_changed` derives from
the radios. -/
def mtp_enabled (self : CcUsbPanel) : Bool :=
  if self.usb_state_mtp_active then true
  else if self.usb_state_rndis_active then false
  else false

/-- `cc_usb_panel_usb_state_changed`, the `toggled` handler of the three mode
radios. -/
def cc_usb_panel_usb_state_changed (self : CcUsbPanel) (sys : System) : System :=
  let sys := usb_set_mode sys (selected_mode self)
  cc_usb_panel_enable_mtp sys (mtp_enabled self)

/-- GLib's `g_ascii_isspace`: space, tab, line feed, form feed and carriage
return; the vertical tab is not among them. -/
def g_ascii_isspace (c : Char) : Bool :=
  c = ' ' || c = '\t' || c = '\n' || c = '\r' || c.toNat = 12

/-- `g_strchomp`: trailing white space removed. -/
def g_strchomp (s : String) : String :=
  String.mk (s.toList.reverse.dropWhile g_ascii_isspace).reverse

/-- `g_path_get_basename`: `.` for the empty string, `/` for a string of
separators, otherwise what follows the last separator once trailing separators
are dropped. -/
def g_path_get_basename (file_name : String) : String :=
  if file_name = "" then "."
  else
    match file_name.toList.reverse.dropWhile (fun c => c = '/') with
    | [] => "/"
    | stripped => String.mk (stripped.takeWhile (fun c => c ≠ '/')).reverse

/-- `atoi`: the leading decimal integer of a text, as a 32-bit `int`. -/
def atoi (nptr : String) : Int :=
  let v := Assistant.g_ascii_strtoll nptr % 2 ^ 32
  if v < 2 ^ 31 then v else v - 2 ^ 32

/-- `cc_usb_panel_enable_cdrom`, the `state-set` handler of the CD-ROM switch.
The argument vector of the mount ends at the first `NULL`, so a `NULL` path
cuts it after `isodrive`. -/
def cc_usb_panel_enable_cdrom (self : CcUsbPanel) (sys : System) (state : Bool) :
    CcUsbPanel × System :=
  let sys :=
    if state then
      match self.path with
      | some path => { sys with spawned := sys.spawned ++ [["pkexec", "isodrive", path, "-cdrom"]] }
      | none => { sys with spawned := sys.spawned ++ [["pkexec", "isodrive"]] }
    else { sys with spawned := sys.spawned ++ [["pkexec", "isodrive", "umount"]] }
  ({ self with cdrom_enabled_switch_active := state }, sys)

/-- `on_file_chosen`, the `response` handler of the file chooser; `accepted`
tells whether the response is `GTK_RESPONSE_ACCEPT`, `file` is the local path
of the chosen file. -/
def on_file_chosen (self : CcUsbPanel) (accepted : Bool) (file : Option String) : CcUsbPanel :=
  if accepted then
    match file with
    | some path =>
      let path := g_strchomp path
      let basename := g_path_get_basename path
      let self := { self with path := some path }
      let self := { self with cdrom_enabled_switch_sensitive := true }
      { self with iso_label := basename }
    | none => self
  else self

/-- `gtk_check_button_set_active (button, TRUE)` on one of the three mode
radios of the template, which form one group: the button becomes active and
the other two inactive. -/
def set_usb_state_active (self : CcUsbPanel) (button : String) : CcUsbPanel :=
  { self with usb_state_mtp_active := decide (button = "usb_state_mtp"),
              usb_state_rndis_active := decide (button = "usb_state_rndis"),
              usb_state_none_active := decide (button = "usb_state_none") }

/-- `g_signal_connect (widget, signal, callback, self)`. -/
def g_signal_connect (self : CcUsbPanel) (widget signal callback : String) : CcUsbPanel :=
  { self with signal_handlers := self.signal_handlers ++ [(widget, signal, callback)] }

/-- The part of `cc_usb_panel_init` on the USB mode. -/
def init_usb_state (self : CcUsbPanel) (env : Environment) : CcUsbPanel :=
  let self :=
    if !env.mtp_supported then
      { self with usb_state_mtp_sensitive := false,
                  usb_state_rndis_sensitive := false,
                  usb_state_none_sensitive := false }
    else self
  match env.current_state with
  | some current_state =>
    let self := g_signal_connect self "usb_state_mtp" "toggled" "cc_usb_panel_usb_state_changed"
    let self := g_signal_connect self "usb_state_rndis" "toggled" "cc_usb_panel_usb_state_changed"
    let self := g_signal_connect self "usb_state_none" "toggled" "cc_usb_panel_usb_state_changed"
    if current_state = "mtp" then set_usb_state_active self "usb_state_mtp"
    else if current_state = "rndis" then set_usb_state_active self "usb_state_rndis"
    else set_usb_state_active self "usb_state_none"
  | none =>
    { self with usb_state_mtp_sensitive := false,
                usb_state_rndis_sensitive := false,
                usb_state_none_sensitive := false }

/-- The part of `cc_usb_panel_init` on the power role; the two radios form one
group. -/
def init_power_role (self : CcUsbPanel) (env : Environment) : CcUsbPanel :=
  match env.preferred_role with
  | some preferred_role =>
    let self := g_signal_connect self "power_role_sink" "toggled"
      "cc_usb_panel_power_role_changed"
    let self := g_signal_connect self "power_role_source" "toggled"
      "cc_usb_panel_power_role_changed"
    if preferred_role = "sink" then
      { self with power_role_sink_active := true, power_role_source_active := false }
    else if preferred_role = "source" then
      { self with power_role_source_active := true, power_role_sink_active := false }
    else self
  | none =>
    { self with power_role_sink_sensitive := false, power_role_source_sensitive := false }

/-- The part of `cc_usb_panel_init` on the CD-ROM emulation. -/
def init_cdrom (self : CcUsbPanel) (env : Environment) : CcUsbPanel :=
  let self := { self with cdrom_enabled_switch_sensitive := false }
  if env.isodrive_exists then
    let self := g_signal_connect self "cdrom_enabled_switch" "state-set"
      "cc_usb_panel_enable_cdrom"
    let self := g_signal_connect self "iso_selection_switch" "clicked" "cc_usb_panel_select_iso"
    match env.cdrom_node with
    | some content =>
      let cdrom_status := atoi content
      if cdrom_status = 1 then
        let self := { self with cdrom_enabled_switch_active := true }
        let self := { self with cdrom_enabled_switch_sensitive := true }
        match env.file_node with
        | some content =>
          let content := g_strchomp content
          let basename := g_path_get_basename content
          let self := { self with iso_label := basename }
          { self with path := some basename }
        | none => self
      else self
    | none => self
  else { self with iso_selection_switch_sensitive := false }

/-- The three mode radios: `mtp`, `rndis`, `none`. -/
def usb_state_radios (self : CcUsbPanel) : Bool × Bool × Bool :=
  (self.usb_state_mtp_active, self.usb_state_rndis_active, self.usb_state_none_active)

/-- `cc_usb_panel_init`; `self` is the panel as the widget template builds
it. -/
def cc_usb_panel_init (self : CcUsbPanel) (env : Environment) : CcUsbPanel :=
  let self := init_usb_state self env
  let self := init_power_role self env
  init_cdrom self env

/-- A template for the examples: every control sensitive, the `none` radio
and the `sink` radio active, no path. -/
def template_panel : CcUsbPanel :=
  { cdrom_enabled_switch_active := false,
    cdrom_enabled_switch_sensitive := true,
    iso_selection_switch_sensitive := true,
    iso_label := "",
    usb_state_mtp_active := false,
    usb_state_mtp_sensitive := true,
    usb_state_rndis_active := false,
    usb_state_rndis_sensitive := true,
    usb_state_none_active := true,
    usb_state_none_sensitive := true,
    power_role_sink_active := true,
    power_role_sink_sensitive := true,
    power_role_source_active := false,
    power_role_source_sensitive := true,
    path := none,
    signal_handlers := [] }

/-- A system for the examples: the marker present, the MTP server stopped,
everything permitted, nothing requested yet. -/
def idle_system : System :=
  { mtp_disable_exists := true,
    home_writable := true,
    active_services := [],
    systemd_ok := true,
    usbconfig_ok := true,
    dbus_calls := [],
    service_requests := [],
    spawned := [] }

/-- An environment for the examples: a device that emulates the CD-ROM
`/home/user/isos/debian.iso` when the panel is opened. -/
def cdrom_environment : Environment :=
  { mtp_supported := true,
    current_state := some "mtp",
    preferred_role := some "sink",
    isodrive_exists := true,
    cdrom_node := some "1\n",
    file_node := some "/home/user/isos/debian.iso\n" }

end Usb

namespace Systemd

/-- What a path names. -/
inductive Node where
  | directory (mode : Nat)
  | symlink (target : String)
  | regular
  deriving DecidableEq, Repr

/-- The file system as far as the mask functions touch it: what each path
names, whether the file system refuses every change, and the file mode
creation mask of the process.  A directory named by the path of a service is
taken to be empty.  The process owns the directories and is not privileged, so
the owner bits of a mode decide what it may do. -/
structure FileSystem where
  node : String → Option Node
  read_only : Bool
  umask : Nat

/-- The errors of the GIO calls that occur here. -/
inductive GIOErrorEnum where
  | G_IO_ERROR_NOT_FOUND
  | G_IO_ERROR_EXISTS
  | G_IO_ERROR_READ_ONLY
  | G_IO_ERROR_NOT_DIRECTORY
  | G_IO_ERROR_PERMISSION_DENIED
  deriving DecidableEq, Repr

open GIOErrorEnum

/-- The file system with one path renamed to name a node, or nothing. -/
def FileSystem.set (fs : FileSystem) (path : String) (n : Option Node) : FileSystem :=
  { fs with node := fun p => if p = path then n else fs.node p }

/-- The directories `g_mkdir_with_parents` visits for a path: every prefix
that ends before a separator, then the path itself. -/
def path_prefixes_aux : List Char → List Char → List String
  | [], acc => if acc = [] ∨ acc.getLast? = some '/' then [] else [String.mk acc]
  | c :: cs, acc =>
    if c = '/' then
      if acc = [] ∨ acc.getLast? = some '/' then path_prefixes_aux cs (acc ++ [c])
      else String.mk acc :: path_prefixes_aux cs (acc ++ [c])
    else path_prefixes_aux cs (acc ++ [c])

/-- The walk of `g_mkdir_with_parents` over the prefixes left: a missing one
is created with the mode asked for, less the bits of the mask; the walk stops
at a prefix that is no directory, and on a read-only file system. -/
def mkdir_walk (mode : Nat) : List String → FileSystem → Int × FileSystem
  | [], fs => (0, fs)
  | p :: rest, fs =>
    match fs.node p with
    | none =>
      if fs.read_only then (-1, fs)
      else mkdir_walk mode rest (fs.set p (some (Node.directory (mode &&& (511 ^^^ fs.umask)))))
    | some (Node.directory _) => mkdir_walk mode rest fs
    | some _ => (-1, fs)

/-- `g_mkdir_with_parents`: nothing to do for a directory that exists, failure
for a path that names something else, otherwise the walk over the prefixes. -/
def g_mkdir_with_parents (fs : FileSystem) (pathname : String) (mode : Nat) :
    Int × FileSystem :=
  match fs.node pathname with
  | some (Node.directory _) => (0, fs)
  | some _ => (-1, fs)
  | none => mkdir_walk mode (path_prefixes_aux pathname.toList []) fs

/-- `chmod` on a directory. -/
def chmod (fs : FileSystem) (path : String) (mode : Nat) : FileSystem :=
  match fs.node path with
  | some (Node.directory _) =>
    if fs.read_only then fs else fs.set path (some (Node.directory mode))
  | _ => fs

/-- `g_path_get_dirname`: `.` without separator, otherwise the text before the
last separator, less the separators that end it, and `/` when nothing is
left. -/
def g_path_get_dirname (file_name : String) : String :=
  match file_name.toList.reverse.dropWhile (fun c => c ≠ '/') with
  | [] => "."
  | upto =>
    match upto.dropWhile (fun c => c = '/') with
    | [] => "/"
    | dir => String.mk dir.reverse

/-- `g_file_make_symbolic_link`: the link is created when nothing has the
path, its directory exists and the file system takes changes. -/
def g_file_make_symbolic_link (fs : FileSystem) (file symlink_value : String) :
    Except GIOErrorEnum FileSystem :=
  match fs.node file with
  | some _ => Except.error G_IO_ERROR_EXISTS
  | none =>
    match fs.node (g_path_get_dirname file) with
    | some (Node.directory _) =>
      if fs.read_only then Except.error G_IO_ERROR_READ_ONLY
      else Except.ok (fs.set file (some (Node.symlink symlink_value)))
    | _ => Except.error G_IO_ERROR_NOT_FOUND

/-- `g_file_delete` on a local file, which is `unlink` (`rmdir` for a
directory) with the error translated by GIO.  The kernel first reaches the
directory of the path: a directory that is missing gives `ENOENT`, something
else in its place `ENOTDIR`, a directory without search permission `EACCES`;
the directories above it are taken to exist and to be searchable.  A
read-only file system then refuses with `EROFS`, before the entry is looked
up.  An entry that is missing gives `ENOENT`; removing one needs write
permission on the directory. -/
def g_file_delete (fs : FileSystem) (file : String) : Except GIOErrorEnum FileSystem :=
  match fs.node (g_path_get_dirname file) with
  | none => Except.error G_IO_ERROR_NOT_FOUND
  | some (Node.directory mode) =>
    if mode &&& 0o100 = 0 then Except.error G_IO_ERROR_PERMISSION_DENIED
    else if fs.read_only then Except.error G_IO_ERROR_READ_ONLY
    else
      match fs.node file with
      | none => Except.error G_IO_ERROR_NOT_FOUND
      | some _ =>
        if mode &&& 0o200 = 0 then Except.error G_IO_ERROR_PERMISSION_DENIED
        else Except.ok (fs.set file none)
  | some _ => Except.error G_IO_ERROR_NOT_DIRECTORY

/-- `g_build_filename (home_dir, ".config", "systemd", "user", NULL)` for a
home directory without trailing separator. -/
def config_dir (home_dir : String) : String :=
  home_dir ++ "/.config/systemd/user"

/-- `g_build_filename (config_dir, service, NULL)`, which is also
`g_build_filename (home_dir, ".config", "systemd", "user", service, NULL)`.
An empty element is ignored; the separators that start the last element are
dropped and one separator is put before what is left of it; the separators
that end it are kept. -/
def service_path (home_dir service : String) : String :=
  let start := service.toList.dropWhile (fun c => c = '/')
  let trailing := service.toList.reverse.takeWhile (fun c => c = '/')
  let element := (start.reverse.dropWhile (fun c => c = '/')).reverse
  if element = [] then config_dir home_dir ++ String.mk trailing
  else config_dir home_dir ++ "/" ++ String.mk element ++ String.mk trailing

/-- A unit name: not empty and without separator. -/
def service_name_ok (service : String) : Prop :=
  service.toList ≠ [] ∧ '/' ∉ service.toList

instance (service : String) : Decidable (service_name_ok service) := by
  unfold service_name_ok
  infer_instance

/-- `cc_mask_user_service`: the result and the file system it leaves. -/
def cc_mask_user_service (fs : FileSystem) (home_dir service : String) : Bool × FileSystem :=
  let config_dir := config_dir home_dir
  let service_path := service_path home_dir service
  let fs := (g_mkdir_with_parents fs config_dir 0o755).2
  let fs := chmod fs config_dir 0o755
  match g_file_make_symbolic_link fs service_path "/dev/null" with
  | Except.ok fs => (true, fs)
  | Except.error _ => (false, fs)

/-- `cc_unmask_user_service`: the result and the file system it leaves. -/
def cc_unmask_user_service (fs : FileSystem) (home_dir service : String) :
    Bool × FileSystem :=
  let service_path := service_path home_dir service
  match g_file_delete fs service_path with
  | Except.ok fs => (true, fs)
  | Except.error e =>
    if e = G_IO_ERROR_NOT_FOUND then (true, fs)
    else (false, fs)

/-- A file system for the examples: `/home` and `/home/user` are directories,
nothing else exists, changes are taken, the mask is 022. -/
def fresh_home : FileSystem :=
  { node := fun p =>
      if p = "/home" ∨ p = "/home/user" then some (Node.directory 0o755) else none,
    read_only := false,
    umask := 0o022 }

/-- The example file system with the unit directory in place. -/
def home_with_units : FileSystem :=
  (g_mkdir_with_parents fresh_home "/home/user/.config/systemd/user" 0o755).2

/-- The example file system with a regular file where the unit directory
would be. -/
def home_with_unit_file : FileSystem :=
  (g_mkdir_with_parents fresh_home "/home/user/.config/systemd" 0o755).2.set
    "/home/user/.config/systemd/user" (some Node.regular)

/-- In the words of the specification, the entry named `s` in
`$HOME/.config/systemd/user`: the path of the directory, a separator and the
name. -/
def unit_entry (home_dir s : String) : String :=
  home_dir ++ "/.config/systemd/user" ++ "/" ++ s

end Systemd

namespace Fingerprint

/-- The wait loop of `enroll_finger_thread`,
`while (!self->enrollment_done) g_usleep (500 * 100);`.
`deliveries` lists, for each sleep of the worker, the signals the dispatcher
handles during that sleep.  The result is `none` when the deliveries are used
up and the loop is still polling. -/
def enroll_wait : CcFingerprintPanel → List (List Signal) → Option CcFingerprintPanel
  | self, [] => if self.enrollment_done then some self else none
  | self, batch :: rest =>
    if self.enrollment_done then some self
    else enroll_wait (handle_signals (g_usleep self (500 * 100)) batch) rest

/-- The part of `enroll_finger_thread` after the wait loop; `enrolled_fingers`
is what the call of `get_enrolled_fingers` inside `refresh_fingerprint_list`
returns. -/
def enroll_finish (self : CcFingerprintPanel) (enrolled_fingers : Option (List String)) :
    CcFingerprintPanel :=
  let self := { self with show_enrolled_list_sensitive := true }
  let self := { self with show_unenrolled_list_sensitive := true }
  let self := { self with finger_select_row_sensitive := true }
  let self := { self with identify_finger_button_sensitive := true }
  let self :=
    if self.finger_canceled then
      let self := g_usleep self (500 * 100)
      { self with enroll_progress_visible := false }
    else self
  let self := g_usleep self (500 * 100)
  refresh_fingerprint_list self enrolled_fingers

/-- The body of `enroll_finger_thread`.  `proxy_ok` and `enroll_ok` tell
whether the proxy was created and whether the `Enroll` call returned without
error; the idle callback `set_ui_sensitivity` is run where it is queued.  The
result is `none` while the worker has not left its wait loop. -/
def enroll_finger_thread (self : CcFingerprintPanel) (proxy_ok enroll_ok : Bool)
    (deliveries : List (List Signal)) (enrolled_fingers : Option (List String)) :
    Option CcFingerprintPanel :=
  if !proxy_ok then some self
  else if self.selected_finger.isSome && !enroll_ok then some self
  else
    let self := { self with sensitive := false }
    let self := set_ui_sensitivity self
    match enroll_wait self deliveries with
    | none => none
    | some self => some (enroll_finish self enrolled_fingers)

/-- `cc_fingerprint_panel_enroll_finger`: with a finger selected the two flags
are reset and the worker started. -/
def cc_fingerprint_panel_enroll_finger (self : CcFingerprintPanel)
    (proxy_ok enroll_ok : Bool) (deliveries : List (List Signal))
    (enrolled_fingers : Option (List String)) : Option CcFingerprintPanel :=
  match self.selected_finger with
  | some _ =>
    let self := { self with enrollment_done := false }
    let self := { self with finger_canceled := false }
    enroll_finger_thread self proxy_ok enroll_ok deliveries enrolled_fingers
  | none => some (show_toast self "Please select a finger to enroll")

/-- A panel for the examples as init leaves it when nothing is enrolled: the
identify, remove and enroll buttons insensitive, then `right-thumb`, a finger
that is not enrolled, selected. -/
def nothing_enrolled_panel : CcFingerprintPanel :=
  { initial_panel with identify_finger_button_sensitive := false,
                       remove_finger_button_sensitive := false,
                       enroll_finger_button_sensitive := true,
                       selected_finger := some "right-thumb" }

end Fingerprint

namespace Wwan

/-- The values that occur in the property dictionaries of ofono. -/
inductive GVariant where
  | boolean (b : Bool)
  | string (s : String)
  | uint32 (n : Nat)
  deriving DecidableEq, Repr

/-- The errors the IMS functions set or receive. -/
inductive GError where
  /-- the error of `g_bus_get_sync` -/
  | bus_unreachable
  /-- the error of the `GetModems` call -/
  | get_modems_failed
  /-- the error of `g_dbus_proxy_new_sync` -/
  | proxy_failed
  /-- the error of the `GetProperties` call -/
  | get_properties_failed
  | G_IO_ERROR_INVALID_ARGUMENT
  | G_IO_ERROR_NOT_FOUND
  deriving DecidableEq, Repr

/-- The system bus as the IMS functions see it. -/
structure Bus where
  /-- whether `g_bus_get_sync` gives a connection -/
  connection : Bool
  /-- the modems of the reply of `GetModems`, object path and properties, in
  the order of the reply; `none` when the call fails -/
  get_modems : Option (List (String × List (String × GVariant)))
  /-- whether `g_dbus_proxy_new_sync` for the IMS interface succeeds on a path -/
  proxy_new : String → Bool
  /-- the dictionary of the reply of `GetProperties` on the IMS interface of a
  path; `none` when the call fails -/
  get_properties : String → Option (List (String × GVariant))

/-- `g_str_has_suffix`. -/
def g_str_has_suffix (str suffix : String) : Bool :=
  suffix.toList.isSuffixOf str.toList

/-- One element of an object path: letters, digits and the underscore. -/
def object_path_char (c : Char) : Bool :=
  c.isAlphanum || c = '_'

/-- The elements of an object path after a separator: each is not empty. -/
def object_path_elements : List Char → Bool → Bool
  | [], nonempty => nonempty
  | c :: cs, nonempty =>
    if c = '/' then nonempty && object_path_elements cs false
    else object_path_char c && object_path_elements cs true

/-- `g_variant_is_object_path`: the root `/`, or elements of letters, digits
and underscores, each preceded by a single `/`. -/
def g_variant_is_object_path (s : String) : Bool :=
  match s.toList with
  | ['/'] => true
  | '/' :: cs => object_path_elements cs false
  | _ => false

/-- The `while (g_variant_iter_next ...)` loop of `get_ims_proxy_for_port`
over the modems left: the path of the first one that has the port name as
suffix. -/
def matched_path (port_name : String) :
    List (String × List (String × GVariant)) → Option String
  | [] => none
  | (path, _) :: rest =>
    if g_str_has_suffix path port_name then some path
    else matched_path port_name rest

/-- `get_ims_proxy_for_port`: the proxy, named by the object path it is made
for, and the error left in `error`.  A `NULL` port name fails the entry check
and leaves `error` unset. -/
def get_ims_proxy_for_port (bus : Bus) (port_name : Option String) :
    Option String × Option GError :=
  match port_name with
  | none => (none, none)
  | some port_name =>
    if !bus.connection then (none, some GError.bus_unreachable)
    else
      match bus.get_modems with
      | none => (none, some GError.get_modems_failed)
      | some modems =>
        match matched_path port_name modems with
        | some matched_path =>
          if g_variant_is_object_path matched_path then
            if bus.proxy_new matched_path then (some matched_path, none)
            else (none, some GError.proxy_failed)
          else (none, some GError.G_IO_ERROR_INVALID_ARGUMENT)
        | none => (none, some GError.G_IO_ERROR_NOT_FOUND)

/-- `g_variant_lookup (properties, property_name, "b", value)`: the value of
the entry with the key, when it is a boolean. -/
def g_variant_lookup_b (properties : List (String × GVariant)) (property_name : String) :
    Option Bool :=
  match properties.find? (fun entry => entry.1 = property_name) with
  | some (_, GVariant.boolean b) => some b
  | _ => none

/-- `get_ims_property_boolean`: the result, the boolean written to `value`
(when one is written) and the error left in `error`. -/
def get_ims_property_boolean (bus : Bus) (port_name : Option String)
    (property_name : String) : Bool × Option Bool × Option GError :=
  match port_name with
  | none => (false, none, none)
  | some port_name =>
    match get_ims_proxy_for_port bus (some port_name) with
    | (none, error) => (false, none, error)
    | (some proxy, _) =>
      match bus.get_properties proxy with
      | some properties =>
        match g_variant_lookup_b properties property_name with
        | some value => (true, some value, none)
        | none => (false, none, some GError.G_IO_ERROR_NOT_FOUND)
      | none => (false, none, some GError.get_properties_failed)

/-- `cc_wwan_ims_check_registered`; no result stands for a fault. -/
def cc_wwan_ims_check_registered (bus : Bus) (port_name : Option String) : Option Bool :=
  match port_name with
  | none => some false
  | some port_name =>
    match get_ims_property_boolean bus (some port_name) "Registered" with
    | (false, _, _) => some false
    | (true, value, _) => some (value.getD false)

/-- `cc_wwan_ims_check_voice_capable`; it reads `error->message` without a
test of `error`, so a failure that leaves `error` unset is a fault, for which
no result stands. -/
def cc_wwan_ims_check_voice_capable (bus : Bus) (port_name : Option String) : Option Bool :=
  match get_ims_property_boolean bus port_name "VoiceCapable" with
  | (false, _, none) => none
  | (false, _, some _) => some false
  | (true, value, _) => some (value.getD false)

/-- `cc_wwan_ims_check_sms_capable`; it reads `error->message` without a test
of `error`, so a failure that leaves `error` unset is a fault, for which no
result stands. -/
def cc_wwan_ims_check_sms_capable (bus : Bus) (port_name : Option String) : Option Bool :=
  match get_ims_property_boolean bus port_name "SmsCapable" with
  | (false, _, none) => none
  | (false, _, some _) => some false
  | (true, value, _) => some (value.getD false)

/-- A bus for the examples: ofono serves one modem, `/ril_0`, registered to
IMS, voice capable, with `SmsCapable` missing. -/
def one_modem_bus : Bus :=
  { connection := true,
    get_modems := some [("/ril_0", [("Online", GVariant.boolean true)])],
    proxy_new := fun _ => true,
    get_properties := fun path =>
      if path = "/ril_0" then
        some [("Registered", GVariant.boolean true), ("VoiceCapable", GVariant.boolean true)]
      else none }

end Wwan

namespace Assistant

open AssistantGesture

/-- The fields of `struct _CcAssistantPanel`, widgets replaced by the
properties written through them. -/
structure CcAssistantPanel where
  no_action_active : Bool
  toggle_flashlight_active : Bool
  open_camera_active : Bool
  take_picture_active : Bool
  take_screenshot_active : Bool
  send_tab_active : Bool
  manual_autorotate_active : Bool
  send_xf86back_active : Bool
  send_escape_active : Bool
  no_action_sensitive : Bool
  toggle_flashlight_sensitive : Bool
  open_camera_sensitive : Bool
  take_picture_sensitive : Bool
  take_screenshot_sensitive : Bool
  send_tab_sensitive : Bool
  manual_autorotate_sensitive : Bool
  send_xf86back_sensitive : Bool
  send_escape_sensitive : Bool
  current_gesture : AssistantGesture
  deriving DecidableEq, Repr

/-- `update_action_sensitivity`. -/
def update_action_sensitivity (self : CcAssistantPanel) (sensitive : Bool) :
    CcAssistantPanel :=
  { self with no_action_sensitive := sensitive,
              toggle_flashlight_sensitive := sensitive,
              open_camera_sensitive := sensitive,
              take_picture_sensitive := sensitive,
              take_screenshot_sensitive := sensitive,
              send_tab_sensitive := sensitive,
              manual_autorotate_sensitive := sensitive,
              send_xf86back_sensitive := sensitive,
              send_escape_sensitive := sensitive }

/-- The chain of `g_strcmp0` tests of `on_action_toggled` that turns the id of
a check button into an action; an id outside the chain keeps `NO_ACTION`. -/
def action_of_id (action_id : String) : PredefinedAction :=
  if action_id = "no_action" then NO_ACTION
  else if action_id = "toggle_flashlight" then FLASHLIGHT
  else if action_id = "open_camera" then OPEN_CAMERA
  else if action_id = "take_picture" then TAKE_PICTURE
  else if action_id = "take_screenshot" then TAKE_SCREENSHOT
  else if action_id = "send_tab" then SEND_TAB
  else if action_id = "manual_autorotate" then MANUAL_AUTOROTATE
  else if action_id = "send_xf86back" then SEND_XF86BACK
  else if action_id = "send_escape" then SEND_ESCAPE
  else NO_ACTION

/-- `on_action_toggled`, the `toggled` handler of the nine check buttons;
`active` is the state of the button that emitted the signal. -/
def on_action_toggled (self : CcAssistantPanel) (fs : FileSystem) (home : String)
    (action_id : String) (active : Bool) : FileSystem :=
  if active then save_predefined_action fs home self.current_gesture (action_of_id action_id)
  else fs

/-- `gtk_check_button_set_active` on one of the nine check buttons: the
button has the state `setting` afterwards, which `write` puts into the record;
when that changes the state (`current` is the state before), `toggled` is
emitted, which runs `on_action_toggled`. -/
def set_action_active (self : CcAssistantPanel) (fs : FileSystem) (home : String)
    (action_id : String) (current setting : Bool)
    (write : CcAssistantPanel → CcAssistantPanel) : CcAssistantPanel × FileSystem :=
  (write self,
    if setting = current then fs
    else on_action_toggled (write self) fs home action_id setting)

/-- `update_action_buttons`. -/
def update_action_buttons (self : CcAssistantPanel) (fs : FileSystem) (home : String)
    (action : PredefinedAction) : CcAssistantPanel × FileSystem :=
  let (self, fs) := set_action_active self fs home "no_action" self.no_action_active
    (action = NO_ACTION) (fun p => { p with no_action_active := action = NO_ACTION })
  let (self, fs) := set_action_active self fs home "toggle_flashlight"
    self.toggle_flashlight_active (action = FLASHLIGHT)
    (fun p => { p with toggle_flashlight_active := action = FLASHLIGHT })
  let (self, fs) := set_action_active self fs home "open_camera" self.open_camera_active
    (action = OPEN_CAMERA) (fun p => { p with open_camera_active := action = OPEN_CAMERA })
  let (self, fs) := set_action_active self fs home "take_picture" self.take_picture_active
    (action = TAKE_PICTURE) (fun p => { p with take_picture_active := action = TAKE_PICTURE })
  let (self, fs) := set_action_active self fs home "take_screenshot"
    self.take_screenshot_active (action = TAKE_SCREENSHOT)
    (fun p => { p with take_screenshot_active := action = TAKE_SCREENSHOT })
  let (self, fs) := set_action_active self fs home "send_tab" self.send_tab_active
    (action = SEND_TAB) (fun p => { p with send_tab_active := action = SEND_TAB })
  let (self, fs) := set_action_active self fs home "manual_autorotate"
    self.manual_autorotate_active (action = MANUAL_AUTOROTATE)
    (fun p => { p with manual_autorotate_active := action = MANUAL_AUTOROTATE })
  let (self, fs) := set_action_active self fs home "send_xf86back" self.send_xf86back_active
    (action = SEND_XF86BACK) (fun p => { p with send_xf86back_active := action = SEND_XF86BACK })
  set_action_active self fs home "send_escape" self.send_escape_active
    (action = SEND_ESCAPE) (fun p => { p with send_escape_active := action = SEND_ESCAPE })

/-- `on_gesture_toggled`, the `toggled` handler of the three gesture buttons;
`button_id` is the id of the button that emitted the signal and `active` its
state. -/
def on_gesture_toggled (self : CcAssistantPanel) (fs : FileSystem) (home : String)
    (button_id : String) (active : Bool) : CcAssistantPanel × FileSystem :=
  if active then
    let self := update_action_sensitivity self true
    let new_gesture : Option AssistantGesture :=
      if button_id = "short_press" then some GESTURE_SHORT_PRESS
      else if button_id = "long_press" then some GESTURE_LONG_PRESS
      else if button_id = "double_press" then some GESTURE_DOUBLE_PRESS
      else none
    match new_gesture with
    | none => (self, fs)
    | some new_gesture =>
      let self := { self with current_gesture := new_gesture }
      let action := load_predefined_action fs home new_gesture
      update_action_buttons self fs home action
  else (self, fs)

/-- The id of the toggle button of a gesture. -/
def gesture_button_id : AssistantGesture → String
  | GESTURE_SHORT_PRESS => "short_press"
  | GESTURE_LONG_PRESS => "long_press"
  | GESTURE_DOUBLE_PRESS => "double_press"

/-- The states of the nine action check buttons, in the order of the enum. -/
def action_buttons (self : CcAssistantPanel) : List Bool :=
  [ self.no_action_active, self.toggle_flashlight_active, self.open_camera_active,
    self.take_picture_active, self.take_screenshot_active, self.send_tab_active,
    self.manual_autorotate_active, self.send_xf86back_active, self.send_escape_active ]

/-- A panel for the examples as init leaves it: no action active, the action
buttons insensitive. -/
def startup_panel : CcAssistantPanel :=
  { no_action_active := false,
    toggle_flashlight_active := false,
    open_camera_active := false,
    take_picture_active := false,
    take_screenshot_active := false,
    send_tab_active := false,
    manual_autorotate_active := false,
    send_xf86back_active := false,
    send_escape_active := false,
    no_action_sensitive := false,
    toggle_flashlight_sensitive := false,
    open_camera_sensitive := false,
    take_picture_sensitive := false,
    take_screenshot_sensitive := false,
    send_tab_sensitive := false,
    manual_autorotate_sensitive := false,
    send_xf86back_sensitive := false,
    send_escape_sensitive := false,
    current_gesture := GESTURE_SHORT_PRESS }

end Assistant

namespace Assistant

/-- The value of the decimal digits at the start of a text, read after the
value `acc` of the digits before them. -/
def digits_value : List Char → Nat → Nat
  | [], acc => acc
  | c :: cs, acc =>
    if '0' ≤ c ∧ c ≤ '9' then digits_value cs (acc * 10 + (c.toNat - '0'.toNat))
    else acc

/-- The decimal integer that starts a content, in the words of the
specification: after leading white space and one optional sign come decimal
digits; their value, negated after a minus sign, is the integer, and what
follows the digits is ignored.  There is none when no digit comes there. -/
def leading_integer (content : String) : Option Int :=
  match content.toList.dropWhile ISSPACE with
  | [] => none
  | c :: rest =>
    match (if c = '-' ∨ c = '+' then rest else c :: rest) with
    | [] => none
    | d :: digits =>
      if '0' ≤ d ∧ d ≤ '9' then
        some (if c = '-' then -(digits_value (d :: digits) 0 : Int)
              else (digits_value (d :: digits) 0 : Int))
      else none

end Assistant

/-! ## Fingerprint workflow: the signal handler -/

namespace Fingerprint

/-- The `ErrorInfo` branch of `handle_signal`, unfolded. -/
theorem handle_signal_error_info (self : CcFingerprintPanel) (info : String) :
    handle_signal self "ErrorInfo" (.str info) =
      { self with toast_overlay := self.toast_overlay ++ [error_info_toast info],
                  finger_canceled := true,
                  enrollment_done := true } := by
  simp [handle_signal, show_toast]

/-- The `AcquisitionInfo` branch of `handle_signal`, unfolded. -/
theorem handle_signal_acquisition_info (self : CcFingerprintPanel) (info : String) :
    handle_signal self "AcquisitionInfo" (.str info) =
      match acquisition_info_toast info with
      | some message => show_toast self message
      | none => self := by
  simp [handle_signal]

/-- The `Identified` branch of `handle_signal`, unfolded. -/
theorem handle_signal_identified (self : CcFingerprintPanel) (info : String) :
    handle_signal self "Identified" (.str info) =
      { self with identification_done := true,
                  toast_overlay := self.toast_overlay ++ ["Identified finger: " ++ info] } := by
  simp [handle_signal, show_toast]

/-- C1: every `ErrorInfo` payload, one of the seven codes or any other string,
ends the session with `canceled = true`: after `handle_signal` both
`finger_canceled` and `enrollment_done` are true. -/
theorem C1_error_info_ends_session_canceled (self : CcFingerprintPanel) (info : String) :
    (handle_signal self "ErrorInfo" (.str info)).finger_canceled = true ∧
    (handle_signal self "ErrorInfo" (.str info)).enrollment_done = true := by
  rw [handle_signal_error_info]
  exact ⟨rfl, rfl⟩

/-- C2: the toast of an `ErrorInfo` payload follows the table of the
specification: each of the seven codes shows its own message, every other
string shows "An error occurred with the fingerprint reader", and the handler
adds exactly one toast per `ErrorInfo`. -/
theorem C2_error_info_toast_table (self : CcFingerprintPanel) (info other : String)
    (hother : other ∉ ["ERROR_NO_SPACE", "ERROR_HW_UNAVAILABLE", "ERROR_UNABLE_TO_PROCESS",
      "ERROR_TIMEOUT", "ERROR_CANCELED", "ERROR_UNABLE_TO_REMOVE", "FINGER_NOT_RECOGNIZED"]) :
    (handle_signal self "ErrorInfo" (.str "ERROR_NO_SPACE")).toast_overlay =
      self.toast_overlay ++ ["No space available for new fingerprints"] ∧
    (handle_signal self "ErrorInfo" (.str "ERROR_HW_UNAVAILABLE")).toast_overlay =
      self.toast_overlay ++ ["Fingerprint hardware is unavailable"] ∧
    (handle_signal self "ErrorInfo" (.str "ERROR_UNABLE_TO_PROCESS")).toast_overlay =
      self.toast_overlay ++ ["Unable to process fingerprint"] ∧
    (handle_signal self "ErrorInfo" (.str "ERROR_TIMEOUT")).toast_overlay =
      self.toast_overlay ++ ["Fingerprint operation timed out"] ∧
    (handle_signal self "ErrorInfo" (.str "ERROR_CANCELED")).toast_overlay =
      self.toast_overlay ++ ["Fingerprint operation was canceled"] ∧
    (handle_signal self "ErrorInfo" (.str "ERROR_UNABLE_TO_REMOVE")).toast_overlay =
      self.toast_overlay ++ ["Unable to remove the fingerprint"] ∧
    (handle_signal self "ErrorInfo" (.str "FINGER_NOT_RECOGNIZED")).toast_overlay =
      self.toast_overlay ++ ["Fingerprint is not recognized"] ∧
    (handle_signal self "ErrorInfo" (.str other)).toast_overlay =
      self.toast_overlay ++ ["An error occurred with the fingerprint reader"] ∧
    (∃ message, (handle_signal self "ErrorInfo" (.str info)).toast_overlay =
      self.toast_overlay ++ [message]) := by
  simp only [List.mem_cons, List.mem_singleton, List.not_mem_nil, or_false, not_or] at hother
  obtain ⟨h1, h2, h3, h4, h5, h6, h7⟩ := hother
  simp only [handle_signal_error_info]
  refine ⟨rfl, rfl, rfl, rfl, rfl, rfl, rfl, ?_, _, rfl⟩
  simp [error_info_toast, h1, h2, h3, h4, h5, h6, h7]

/-- C2 at the unknown code `ERROR_VENDOR` on the initial panel. -/
theorem C2_error_info_toast_table_witness :
    (handle_signal initial_panel "ErrorInfo" (.str "ERROR_VENDOR")).toast_overlay =
      ["An error occurred with the fingerprint reader"] :=
  (C2_error_info_toast_table initial_panel "ERROR_TIMEOUT" "ERROR_VENDOR"
    (by decide)).2.2.2.2.2.2.2.1

/-- An `ErrorInfo` never writes `identification_done`. -/
theorem handle_signal_error_info_identification_done (self : CcFingerprintPanel)
    (info : String) :
    (handle_signal self "ErrorInfo" (.str info)).identification_done =
      self.identification_done := by
  rw [handle_signal_error_info]

/-- A batch of `ErrorInfo` signals never writes `identification_done`. -/
theorem handle_signals_error_info_identification_done (batch : List Signal)
    (self : CcFingerprintPanel)
    (hbatch : ∀ sig ∈ batch, ∃ info, sig = ("ErrorInfo", GVariant.str info)) :
    (handle_signals self batch).identification_done = self.identification_done := by
  induction batch generalizing self with
  | nil => rfl
  | cons sig rest ih =>
    obtain ⟨info, hsig⟩ := hbatch sig (List.mem_cons_self _ _)
    have hrest : ∀ x ∈ rest, ∃ info, x = ("ErrorInfo", GVariant.str info) :=
      fun x hx => hbatch x (List.mem_cons_of_mem _ hx)
    have hstep := ih (handle_signal self sig.1 sig.2) hrest
    simp only [handle_signals, List.foldl_cons] at hstep ⊢
    rw [hstep, hsig]
    exact handle_signal_error_info_identification_done self info

/-- However many `ErrorInfo` signals are delivered, and over however many
sleeps, the wait loop of the identify worker is still polling. -/
theorem identify_wait_error_info_only (deliveries : List (List Signal))
    (self : CcFingerprintPanel) (hwaiting : self.identification_done = false)
    (hdeliveries : ∀ batch ∈ deliveries, ∀ sig ∈ batch,
      ∃ info, sig = ("ErrorInfo", GVariant.str info)) :
    identify_wait self deliveries = none := by
  induction deliveries generalizing self with
  | nil => simp [identify_wait, hwaiting]
  | cons batch rest ih =>
    simp only [identify_wait, hwaiting, Bool.false_eq_true, if_false]
    apply ih
    · rw [handle_signals_error_info_identification_done _ _
        (hdeliveries batch (List.mem_cons_self _ _))]
      exact hwaiting
    · exact fun b hb => hdeliveries b (List.mem_cons_of_mem _ hb)

/-- An identify session that receives `Identified` leaves its wait loop: the
worker returns, with the four controls sensitive again. -/
theorem identify_session_ends_on_identified :
    (cc_fingerprint_panel_identify_finger initial_panel true true
      [[("Identified", .str "right-thumb")], []]).map
        (fun p => (p.identification_done, p.identify_finger_button_sensitive,
          p.toast_overlay)) =
      some (true, true, ["Identified finger: right-thumb"]) := by
  rfl

/-- C3: evaluation of the code in an identify session that receives
`ErrorInfo("FINGER_NOT_RECOGNIZED")`: the handler leaves `identification_done`
false, and the worker, started on the initial panel with the signal delivered
during its first sleep, is still polling when the deliveries are used up. -/
theorem C3_error_info_leaves_identify_session_waiting :
    (handle_signal { initial_panel with identification_done := false } "ErrorInfo"
      (.str "FINGER_NOT_RECOGNIZED")).identification_done = false ∧
    cc_fingerprint_panel_identify_finger initial_panel true true
      [[("ErrorInfo", .str "FINGER_NOT_RECOGNIZED")], []] = none := by
  constructor
  · rfl
  · rfl

/-- C4: an `AcquisitionInfo` payload, whatever its string, leaves
`enrollment_done`, `identification_done` and `finger_canceled` as they were;
each of the five `FPACQUIRED_*` hints adds one toast. -/
theorem C4_acquisition_info_keeps_session (self : CcFingerprintPanel) (info : String) :
    ((handle_signal self "AcquisitionInfo" (.str info)).enrollment_done =
        self.enrollment_done ∧
      (handle_signal self "AcquisitionInfo" (.str info)).identification_done =
        self.identification_done ∧
      (handle_signal self "AcquisitionInfo" (.str info)).finger_canceled =
        self.finger_canceled) ∧
    (handle_signal self "AcquisitionInfo" (.str "FPACQUIRED_PARTIAL")).toast_overlay =
      self.toast_overlay ++ ["Partial fingerprint detected. Please try again"] ∧
    (handle_signal self "AcquisitionInfo" (.str "FPACQUIRED_IMAGER_DIRTY")).toast_overlay =
      self.toast_overlay ++ ["The sensor is dirty. Please clean and try again"] ∧
    (handle_signal self "AcquisitionInfo" (.str "FPACQUIRED_TOO_FAST")).toast_overlay =
      self.toast_overlay ++ ["Finger moved too fast. Please try again"] ∧
    (handle_signal self "AcquisitionInfo" (.str "FPACQUIRED_TOO_SLOW")).toast_overlay =
      self.toast_overlay ++ ["Finger moved too slow. Please try again"] ∧
    (handle_signal self "AcquisitionInfo" (.str "FPACQUIRED_INSUFFICIENT")).toast_overlay =
      self.toast_overlay ++ ["Couldn't process fingerprint. Please try again"] := by
  simp only [handle_signal_acquisition_info]
  refine ⟨?_, rfl, rfl, rfl, rfl, rfl⟩
  cases acquisition_info_toast info <;> exact ⟨rfl, rfl, rfl⟩

/-- C5: for every finger name `n`, `Identified(n)` sets `identification_done`
and adds exactly the toast "Identified finger: n". -/
theorem C5_identified_ends_session (self : CcFingerprintPanel) (n : String) :
    (handle_signal self "Identified" (.str n)).identification_done = true ∧
    (handle_signal self "Identified" (.str n)).toast_overlay =
      self.toast_overlay ++ ["Identified finger: " ++ n] := by
  rw [handle_signal_identified]
  exact ⟨rfl, rfl⟩

/-! ## Fingerprint workflow: the enrolled and unenrolled views -/

/-- The rows the loop appends are the fingers that pass the view's test, in
the order of the array. -/
theorem refresh_loop_finger_list (enrolled_fingers : Option (List String))
    (show_enrolled : Bool) (fingers : List String) (self : CcFingerprintPanel) :
    (refresh_loop enrolled_fingers show_enrolled fingers self).finger_list =
      self.finger_list ++ fingers.filter (fun finger =>
        (show_enrolled && g_strv_contains enrolled_fingers finger) ||
        (!show_enrolled && !g_strv_contains enrolled_fingers finger)) := by
  induction fingers generalizing self with
  | nil => simp [refresh_loop]
  | cons finger rest ih =>
    simp only [refresh_loop, List.filter_cons]
    split
    · rw [ih]
      simp
    · rw [ih]

/-- The loop writes no field but the two row lists. -/
theorem refresh_loop_identify_sensitive (enrolled_fingers : Option (List String))
    (show_enrolled : Bool) (fingers : List String) (self : CcFingerprintPanel) :
    (refresh_loop enrolled_fingers show_enrolled fingers self).identify_finger_button_sensitive
      = self.identify_finger_button_sensitive := by
  induction fingers generalizing self with
  | nil => rfl
  | cons finger rest ih =>
    simp only [refresh_loop]
    split <;> simp [ih]

/-- The rows of the list box after `refresh_fingerprint_list`. -/
theorem refresh_fingerprint_list_rows (self : CcFingerprintPanel)
    (enrolled_fingers : Option (List String)) :
    (refresh_fingerprint_list self enrolled_fingers).finger_list =
      all_fingers.filter (fun finger =>
        (self.show_enrolled_list_active && g_strv_contains enrolled_fingers finger) ||
        (!self.show_enrolled_list_active && !g_strv_contains enrolled_fingers finger)) := by
  simp [refresh_fingerprint_list, refresh_loop_finger_list]

/-- C6: for every reply of `GetAll` (`none` for a failed call, otherwise any
list of strings), the rows `refresh_fingerprint_list` builds for the Enrolled
view and those it builds for the Unenrolled view have no finger in common,
together hold exactly the ten finger identifiers, and hold each of them
once. -/
theorem C6_views_partition_all_fingers (self : CcFingerprintPanel)
    (reply : Option (List String)) :
    (∀ finger,
      ¬ (finger ∈ (refresh_fingerprint_list
            { self with show_enrolled_list_active := true } reply).finger_list ∧
         finger ∈ (refresh_fingerprint_list
            { self with show_enrolled_list_active := false } reply).finger_list)) ∧
    (∀ finger,
      (finger ∈ (refresh_fingerprint_list
            { self with show_enrolled_list_active := true } reply).finger_list ∨
       finger ∈ (refresh_fingerprint_list
            { self with show_enrolled_list_active := false } reply).finger_list) ↔
      finger ∈ [ "right-index-finger", "left-index-finger", "right-thumb",
        "right-middle-finger", "right-ring-finger", "right-little-finger", "left-thumb",
        "left-middle-finger", "left-ring-finger", "left-little-finger" ]) ∧
    ((refresh_fingerprint_list
          { self with show_enrolled_list_active := true } reply).finger_list ++
      (refresh_fingerprint_list
          { self with show_enrolled_list_active := false } reply).finger_list).Perm
      all_fingers := by
  simp only [refresh_fingerprint_list_rows, Bool.true_and, Bool.not_true, Bool.false_and,
    Bool.or_false, Bool.not_false, Bool.false_or]
  refine ⟨?_, ?_, ?_⟩
  · intro finger h
    simp only [List.mem_filter] at h
    obtain ⟨⟨_, h1⟩, ⟨_, h2⟩⟩ := h
    simp [h1] at h2
  · intro finger
    simp only [List.mem_filter]
    change _ ↔ finger ∈ all_fingers
    constructor
    · rintro (h | h) <;> exact h.1
    · intro h
      by_cases hc : g_strv_contains reply finger = true
      · exact Or.inl ⟨h, hc⟩
      · exact Or.inr ⟨h, by simpa using hc⟩
  · have := List.filter_append_perm (fun finger => g_strv_contains reply finger) all_fingers
    simpa using this

/-- A refresh leaves the sensitivity of the identify button alone. -/
theorem refresh_fingerprint_list_identify_sensitive (self : CcFingerprintPanel)
    (enrolled_fingers : Option (List String)) :
    (refresh_fingerprint_list self enrolled_fingers).identify_finger_button_sensitive =
      self.identify_finger_button_sensitive := by
  simp [refresh_fingerprint_list, refresh_loop_identify_sensitive]

/-- The test of the handlers holds exactly for a reply that is a non-empty
list. -/
theorem has_enrolled_fingers_iff (enrolled_fingers : Option (List String)) :
    has_enrolled_fingers enrolled_fingers = true ↔
      ∃ name rest, enrolled_fingers = some (name :: rest) := by
  cases enrolled_fingers with
  | none => simp [has_enrolled_fingers]
  | some l =>
    cases l with
    | nil => simp [has_enrolled_fingers]
    | cons name rest => simp [has_enrolled_fingers]

/-- C7: with a finger `f` selected, when `Remove(f)` succeeds the list box
holds the rows of a refresh (built from the reply `GetAll` gives to the
refresh) and the identify button is sensitive exactly when the reply `GetAll`
gave to the handler is a non-empty list (an empty list or a failed call
disables it); when `Remove(f)` fails the panel changes in nothing but the added
toast "Failed to remove fingerprint". -/
theorem C7_remove_finger (self : CcFingerprintPanel) (f : String)
    (remove_fingerprint : String → Bool) (first_get_all second_get_all : Option (List String))
    (hselected : self.selected_finger = some f) :
    (remove_fingerprint f = true →
      (cc_fingerprint_panel_remove_finger self remove_fingerprint first_get_all
          second_get_all).finger_list =
        all_fingers.filter (fun finger =>
          if self.show_enrolled_list_active then g_strv_contains second_get_all finger
          else !g_strv_contains second_get_all finger) ∧
      ((cc_fingerprint_panel_remove_finger self remove_fingerprint first_get_all
          second_get_all).identify_finger_button_sensitive = true ↔
        ∃ name rest, first_get_all = some (name :: rest))) ∧
    (remove_fingerprint f = false →
      cc_fingerprint_panel_remove_finger self remove_fingerprint first_get_all
          second_get_all =
        { self with toast_overlay := self.toast_overlay ++ ["Failed to remove fingerprint"] })
    := by
  constructor
  · intro hok
    simp only [cc_fingerprint_panel_remove_finger, hselected, hok, if_true]
    rw [refresh_fingerprint_list_rows, refresh_fingerprint_list_identify_sensitive]
    refine ⟨?_, has_enrolled_fingers_iff first_get_all⟩
    simp only [show_toast]
    cases self.show_enrolled_list_active <;> simp
  · intro hfail
    simp [cc_fingerprint_panel_remove_finger, hselected, hfail, show_toast]

/-- C7 on the initial panel with `right-thumb` selected: a successful removal
that leaves `left-thumb` enrolled, and a failed removal. -/
theorem C7_remove_finger_witness :
    (cc_fingerprint_panel_remove_finger
        { initial_panel with selected_finger := some "right-thumb" } (fun _ => true)
        (some ["left-thumb"]) (some ["left-thumb"])).finger_list = ["left-thumb"] ∧
    (cc_fingerprint_panel_remove_finger
        { initial_panel with selected_finger := some "right-thumb" } (fun _ => true)
        (some ["left-thumb"]) (some ["left-thumb"])).identify_finger_button_sensitive = true ∧
    (cc_fingerprint_panel_remove_finger
        { initial_panel with selected_finger := some "right-thumb" } (fun _ => false)
        (some ["left-thumb"]) (some ["left-thumb"])).toast_overlay =
      ["Failed to remove fingerprint"] :=
  ⟨((C7_remove_finger { initial_panel with selected_finger := some "right-thumb" }
        "right-thumb" (fun _ => true) (some ["left-thumb"]) (some ["left-thumb"]) rfl).1
        rfl).1.trans (by decide),
   ((C7_remove_finger { initial_panel with selected_finger := some "right-thumb" }
        "right-thumb" (fun _ => true) (some ["left-thumb"]) (some ["left-thumb"]) rfl).1
        rfl).2.2 ⟨"left-thumb", [], rfl⟩,
   congrArg CcFingerprintPanel.toast_overlay
     ((C7_remove_finger { initial_panel with selected_finger := some "right-thumb" }
        "right-thumb" (fun _ => false) (some ["left-thumb"]) (some ["left-thumb"]) rfl).2
        rfl)⟩

end Fingerprint

/-! ## Gesture-action store -/

namespace Assistant

open AssistantGesture

/-- After a successful write the file reads back as what was written. -/
theorem g_file_get_contents_after_set (fs : FileSystem) (filename contents : String)
    (hok : (g_file_set_contents fs filename contents).1 = true) :
    g_file_get_contents (g_file_set_contents fs filename contents).2 filename =
      some contents := by
  unfold g_file_set_contents at hok ⊢
  by_cases h : fs.set_contents_ok filename = true
  · simp [h, g_file_get_contents]
  · simp [h] at hok

/-- Each of the nine enumerators, printed with `%d` and a newline, parses back
to itself. -/
theorem strtoll_printf_d (a : PredefinedAction) (ha : a ≤ 8) :
    to_PredefinedAction (g_ascii_strtoll (printf_d a ++ "\n")) = a := by
  interval_cases a <;> decide

/-- C8: for each of the three gestures and every valid action `a` (enum values
0..8), when `save_predefined_action (g, a)` writes its file successfully,
`load_predefined_action (g)` on the resulting files returns `a`. -/
theorem C8_load_after_save (fs : FileSystem) (home : String) (g : AssistantGesture)
    (a : PredefinedAction) (ha : a ≤ 8)
    (hwritten : (g_file_set_contents fs (file_path home g) (printf_d a ++ "\n")).1 = true) :
    load_predefined_action (save_predefined_action fs home g a) home g = a := by
  simp only [load_predefined_action, save_predefined_action, ensure_config_directory]
  rw [g_file_get_contents_after_set fs _ _ hwritten]
  exact strtoll_printf_d a ha

/-- C8 for `long_press` and `send_tab` on a home directory without files. -/
theorem C8_load_after_save_witness :
    load_predefined_action
      (save_predefined_action no_files "/home/user" GESTURE_LONG_PRESS SEND_TAB)
      "/home/user" GESTURE_LONG_PRESS = SEND_TAB :=
  C8_load_after_save no_files "/home/user" GESTURE_LONG_PRESS SEND_TAB (by decide) rfl

/-- The digit loop consumes nothing when the first character is no digit. -/
theorem parse_digits_not_digit (c : Char) (s : List Char) (h : ¬ ('0' ≤ c ∧ c ≤ '9')) :
    parse_digits (c :: s) 0 false false = (0, false, false) := by
  simp only [parse_digits, h, if_false]

/-- Without a leading integer the conversion yields `0`. -/
theorem g_ascii_strtoll_without_integer (content : String)
    (h : starts_with_integer content = false) : g_ascii_strtoll content = 0 := by
  unfold starts_with_integer at h
  unfold g_ascii_strtoll
  cases hs : content.toList.dropWhile ISSPACE with
  | nil => rfl
  | cons c rest =>
    rw [hs] at h
    simp only at h ⊢
    by_cases hsign : c = '-' ∨ c = '+'
    · simp only [hsign, if_true] at h ⊢
      cases rest with
      | nil => simp [parse_digits]
      | cons d tail =>
        have hd : ¬ ('0' ≤ d ∧ d ≤ '9') := by simpa using h
        rw [parse_digits_not_digit d tail hd]
        simp
    · simp only [hsign, if_false] at h ⊢
      have hc : ¬ ('0' ≤ c ∧ c ≤ '9') := by simpa using h
      rw [parse_digits_not_digit c rest hc]
      simp

/-- The format test accepts the files the store writes and rejects text,
trailing text and a second line. -/
theorem single_line_integer_examples :
    single_line_integer "4\n" = true ∧ single_line_integer "8" = true ∧
    single_line_integer "none\n" = false ∧ single_line_integer "4 apples\n" = false ∧
    single_line_integer "4\n5\n" = false := by
  decide

/-- C9, the claim as stated fails: the content of two lines `4`, `5` is not a
single line holding a decimal integer, and `load_predefined_action` returns
`TAKE_SCREENSHOT` (4) for it, not `NO_ACTION`. -/
theorem C9_malformed_content_loads_leading_integer :
    single_line_integer "4\n5\n" = false ∧
    load_predefined_action
      (single_file (file_path "/home/user" GESTURE_SHORT_PRESS) "4\n5\n")
      "/home/user" GESTURE_SHORT_PRESS = TAKE_SCREENSHOT ∧
    TAKE_SCREENSHOT ≠ NO_ACTION := by
  refine ⟨by decide, by decide, by decide⟩

/-- C10: when the write succeeds, `save_predefined_action (g, a)` makes the
file of `g` (`short_press_predefined`, `long_press_predefined` or
`double_press_predefined` under `$HOME/.config/assistant-button/`) hold the
decimal representation of `a` followed by one newline, whatever it held
before, and changes no other file; for `short_press` and `take_screenshot` the
content is `4` and a newline. -/
theorem C10_save_writes_decimal_line (fs : FileSystem) (home : String)
    (g : AssistantGesture) (a : PredefinedAction) (ha : a < 2 ^ 31)
    (hwritten : (g_file_set_contents fs (file_path home g) (printf_d a ++ "\n")).1 = true) :
    (save_predefined_action fs home g a).node
        (home ++ "/.config/assistant-button/" ++
          (match g with
           | GESTURE_SHORT_PRESS => "short_press_predefined"
           | GESTURE_LONG_PRESS => "long_press_predefined"
           | GESTURE_DOUBLE_PRESS => "double_press_predefined")) =
      FileNode.regular (Nat.repr a ++ "\n") ∧
    (∀ p, p ≠ file_path home g → (save_predefined_action fs home g a).node p = fs.node p) ∧
    (g = GESTURE_SHORT_PRESS → a = TAKE_SCREENSHOT →
      (save_predefined_action fs home g a).node
          (home ++ "/.config/assistant-button/short_press_predefined") =
        FileNode.regular "4\n") := by
  have hok : fs.set_contents_ok (file_path home g) = true := by
    unfold g_file_set_contents at hwritten
    by_cases h : fs.set_contents_ok (file_path home g) = true
    · exact h
    · simp [h] at hwritten
  have hprint : printf_d a = Nat.repr a := by
    have hlt : a % 2 ^ 32 = a := Nat.mod_eq_of_lt (lt_trans ha (by norm_num))
    simp only [printf_d, hlt, if_pos ha]
  have hnode : ∀ p, (save_predefined_action fs home g a).node p =
      if p = file_path home g then FileNode.regular (Nat.repr a ++ "\n") else fs.node p := by
    intro p
    simp [save_predefined_action, ensure_config_directory, g_file_set_contents, hok, hprint]
  refine ⟨?_, ?_, ?_⟩
  · rw [hnode]
    cases g <;> simp [file_path, gesture_filename]
  · intro p hp
    rw [hnode, if_neg hp]
  · intro hg hact
    subst hg hact
    have hsplit : "/.config/assistant-button/short_press_predefined" =
        "/.config/assistant-button/" ++ "short_press_predefined" := by decide
    have hpath : home ++ "/.config/assistant-button/short_press_predefined" =
        file_path home GESTURE_SHORT_PRESS := by
      rw [hsplit, ← String.append_assoc]
      rfl
    have hline : Nat.repr TAKE_SCREENSHOT ++ "\n" = "4\n" := by decide
    rw [hnode, if_pos hpath, hline]

/-- C10 for `short_press` and `take_screenshot` over a file that held `7`. -/
theorem C10_save_writes_decimal_line_witness :
    (save_predefined_action
        (single_file "/home/user/.config/assistant-button/short_press_predefined" "7\n")
        "/home/user" GESTURE_SHORT_PRESS TAKE_SCREENSHOT).node
      ("/home/user" ++ "/.config/assistant-button/short_press_predefined") =
      FileNode.regular "4\n" :=
  (C10_save_writes_decimal_line
    (single_file "/home/user/.config/assistant-button/short_press_predefined" "7\n")
    "/home/user" GESTURE_SHORT_PRESS TAKE_SCREENSHOT (by decide) rfl).2.2 rfl rfl

end Assistant

/-! ## Android panel: the app list -/

namespace Waydroid

/-- Of two byte strings one is not above the other. -/
theorem strcmp_total (a b : List Nat) : strcmp a b ≤ 0 ∨ strcmp b a ≤ 0 := by
  induction a generalizing b with
  | nil =>
    cases b with
    | nil => simp [strcmp]
    | cons y bs => left; simp [strcmp]
  | cons x as ih =>
    cases b with
    | nil => right; simp [strcmp]
    | cons y bs =>
      simp only [strcmp]
      by_cases hxy : x = y
      · subst hxy
        by_cases hx : x = 0
        · simp [hx]
        · simpa [hx] using ih bs
      · have hyx : ¬ y = x := fun h => hxy h.symm
        simp only [hxy, hyx, if_false]
        omega

/-- The order of `strcmp` is transitive. -/
theorem strcmp_trans (a b c : List Nat) (hab : strcmp a b ≤ 0) (hbc : strcmp b c ≤ 0) :
    strcmp a c ≤ 0 := by
  induction a generalizing b c with
  | nil =>
    cases c with
    | nil => simp [strcmp]
    | cons z cs => simp [strcmp]
  | cons x as ih =>
    cases b with
    | nil =>
      have hx : x = 0 := by
        simp only [strcmp] at hab
        omega
      subst hx
      cases c with
      | nil => simp [strcmp]
      | cons z cs =>
        simp only [strcmp]
        split_ifs <;> omega
    | cons y bs =>
      cases c with
      | nil =>
        simp only [strcmp] at hab hbc ⊢
        have hy : y = 0 := by omega
        subst hy
        split_ifs at hab <;> omega
      | cons z cs =>
        simp only [strcmp] at hab hbc ⊢
        by_cases hxy : x = y
        · subst hxy
          by_cases hxz : x = z
          · subst hxz
            by_cases hx : x = 0
            · simp [hx]
            · simp only [hx, if_true, if_false] at hab hbc ⊢
              exact ih bs cs hab hbc
          · simp only [hxz, if_false] at hbc ⊢
            exact hbc
        · simp only [hxy, if_false] at hab
          by_cases hyz : y = z
          · subst hyz
            simp only [hxy, if_false]
            exact hab
          · simp only [hyz, if_false] at hbc
            have hxz : ¬ x = z := by omega
            simp only [hxz, if_false]
            omega

/-- The order of the comparator is total. -/
theorem qsort_g_strcmp0_total : IsTotal String (fun a b => qsort_g_strcmp0 a b ≤ 0) :=
  ⟨fun a b => strcmp_total (utf8_bytes a) (utf8_bytes b)⟩

/-- The order of the comparator is transitive. -/
theorem qsort_g_strcmp0_trans : IsTrans String (fun a b => qsort_g_strcmp0 a b ≤ 0) :=
  ⟨fun a b c => strcmp_trans (utf8_bytes a) (utf8_bytes b) (utf8_bytes c)⟩

/-- The rows the loop appends are the non-empty names, in the order given. -/
theorem app_rows_loop_eq (apps rows : List String) :
    app_rows_loop apps rows = rows ++ apps.filter (fun app => decide (app ≠ "")) := by
  induction apps generalizing rows with
  | nil => simp [app_rows_loop]
  | cons app rest ih =>
    simp only [app_rows_loop, List.filter_cons]
    by_cases h : app ≠ ""
    · simp [h, ih]
    · simp [h, ih]

end Waydroid

namespace Waydroid

/-- The rows `update_app_list_idle` builds from the names in `self->apps`. -/
theorem update_app_list_idle_rows (self : CcWaydroidPanel) (names : List String) :
    (update_app_list_idle { self with apps := some names }).app_widgets =
        (qsort qsort_g_strcmp0 names).filter (fun app => decide (app ≠ "")) ∧
    (update_app_list_idle { self with apps := some names }).app_list =
        some ((qsort qsort_g_strcmp0 names).filter (fun app => decide (app ≠ ""))) := by
  cases h : self.app_list <;>
    simp [update_app_list_idle, g_idle_add, g_signal_connect, app_rows_loop_eq, h]

/-- On byte sequences without the terminator 0, `strcmp` is at most 0 exactly
when the first sequence comes first in byte order. -/
theorem strcmp_le_iff_bytes_le (a b : List Nat) (ha : 0 ∉ a) (hb : 0 ∉ b) :
    strcmp a b ≤ 0 ↔ bytes_le a b = true := by
  induction a generalizing b with
  | nil =>
    cases b with
    | nil => simp [strcmp, bytes_le]
    | cons y bs => simp [strcmp, bytes_le]
  | cons x as ih =>
    have hx : x ≠ 0 := fun h => ha (by simp [h])
    have has : 0 ∉ as := fun h => ha (List.mem_cons_of_mem _ h)
    cases b with
    | nil =>
      simp only [strcmp, bytes_le]
      constructor
      · intro h
        omega
      · intro h
        exact Bool.noConfusion h
    | cons y bs =>
      have hbs : 0 ∉ bs := fun h => hb (List.mem_cons_of_mem _ h)
      simp only [strcmp, bytes_le]
      by_cases hxy : x = y
      · subst hxy
        simp [hx, ih bs has hbs]
      · simp only [hxy, if_false, decide_False, Bool.false_and, Bool.or_false,
          decide_eq_true_eq]
        omega

/-- C11: for every list of names returned by `GetAllNames` (C strings: no byte
of a name is the terminator 0), the rows built by `update_app_list_idle` (the
rows of the list box and the kept row widgets) are a permutation of the
non-empty names of the list, duplicates kept, and are in ascending
case-sensitive byte order: every row is at most every later row, in
particular the next one. -/
theorem C11_app_rows_sorted_nonempty_names (self : CcWaydroidPanel) (names : List String)
    (hnames : ∀ name ∈ names, 0 ∉ utf8_bytes name) :
    (update_app_list_idle { self with apps := some names }).app_list =
      some (update_app_list_idle { self with apps := some names }).app_widgets ∧
    ((update_app_list_idle { self with apps := some names }).app_widgets).Perm
      (names.filter (fun name => decide (name ≠ ""))) ∧
    ((update_app_list_idle { self with apps := some names }).app_widgets).Pairwise
      byte_order_le ∧
    ((update_app_list_idle { self with apps := some names }).app_widgets).Chain'
      byte_order_le := by
  obtain ⟨hrows, hlist⟩ := update_app_list_idle_rows self names
  rw [hlist, hrows]
  haveI := qsort_g_strcmp0_total
  haveI := qsort_g_strcmp0_trans
  have hperm : ((qsort qsort_g_strcmp0 names).filter (fun app => decide (app ≠ ""))).Perm
      (names.filter (fun name => decide (name ≠ ""))) :=
    List.Perm.filter _ (List.perm_insertionSort (fun a b => qsort_g_strcmp0 a b ≤ 0) names)
  have hsorted : ((qsort qsort_g_strcmp0 names).filter (fun app => decide (app ≠ ""))).Pairwise
      (fun a b => g_strcmp0 a b ≤ 0) :=
    List.Pairwise.filter _ (List.sorted_insertionSort (fun a b => qsort_g_strcmp0 a b ≤ 0) names)
  have hmem : ∀ row ∈ (qsort qsort_g_strcmp0 names).filter (fun app => decide (app ≠ "")),
      0 ∉ utf8_bytes row := fun row hrow =>
    hnames row (List.mem_of_mem_filter (hperm.subset hrow))
  have hordered : ((qsort qsort_g_strcmp0 names).filter (fun app => decide (app ≠ ""))).Pairwise
      byte_order_le :=
    List.Pairwise.imp_of_mem
      (fun {a b} ha hb hab =>
        (strcmp_le_iff_bytes_le (utf8_bytes a) (utf8_bytes b) (hmem a ha) (hmem b hb)).mp hab)
      hsorted
  exact ⟨rfl, hperm, hordered, List.Pairwise.chain' hordered⟩

/-- C11 for the names `b`, an empty name, `a`, `B` and `a` again: the rows are
`B`, `a`, `a`, `b`, each at most the next in byte order. -/
theorem C11_app_rows_sorted_nonempty_names_witness :
    (update_app_list_idle
      { template_panel with apps := some ["b", "", "a", "B", "a"] }).app_widgets =
      ["B", "a", "a", "b"] ∧
    List.Chain' byte_order_le ["B", "a", "a", "b"] ∧
    ¬ byte_order_le "a" "B" := by
  have hrows : (update_app_list_idle
      { template_panel with apps := some ["b", "", "a", "B", "a"] }).app_widgets =
      ["B", "a", "a", "b"] := by decide
  refine ⟨hrows, ?_, by decide⟩
  rw [← hrows]
  exact (C11_app_rows_sorted_nonempty_names template_panel ["b", "", "a", "B", "a"]
    (by decide)).2.2.2

/-- The rows built from the names `b`, an empty name, `a`, `B` and `a` again. -/
theorem update_app_list_idle_example :
    (update_app_list_idle
      { template_panel with apps := some ["b", "", "a", "B", "a"] }).app_widgets =
      ["B", "a", "a", "b"] := by
  decide

end Waydroid

/-! ## Android panel: the mount table -/

namespace Waydroid

/-- `getline` cuts a text after the first newline. -/
theorem getlines_append_line (body rest : List Char) (hbody : '\n' ∉ body) :
    getlines (body ++ '\n' :: rest) = (body ++ ['\n']) :: getlines rest := by
  induction body with
  | nil => simp [getlines]
  | cons c cs ih =>
    have hc : c ≠ '\n' := fun h => hbody (by simp [h])
    have hcs : '\n' ∉ cs := fun h => hbody (List.mem_cons_of_mem _ h)
    have hstep := ih hcs
    simp only [List.cons_append, getlines, hc, if_false]
    change (match getlines (cs ++ '\n' :: rest) with
      | [] => [[c]]
      | line :: lines => (c :: line) :: lines) = _
    rw [hstep]

/-- `strtok` on a field followed by a space returns the field and the text
after the space. -/
theorem strtok_field (field rest : List Char) (hne : field ≠ []) (hsp : ' ' ∉ field) :
    strtok (field ++ ' ' :: rest) = some (field, rest) := by
  cases field with
  | nil => exact absurd rfl hne
  | cons c cs =>
    have hc : c ≠ ' ' := fun h => hsp (by simp [h])
    have hall : ∀ a ∈ c :: cs, (decide (a ≠ ' ')) = true := by
      intro a ha
      have : a ≠ ' ' := fun h => hsp (h ▸ ha)
      simpa using this
    have hdrop : (c :: cs ++ ' ' :: rest).dropWhile (fun c => decide (c = ' ')) =
        c :: cs ++ ' ' :: rest := by
      simp [List.dropWhile, hc]
    have htake : (c :: cs ++ ' ' :: rest).takeWhile (fun c => decide (c ≠ ' ')) = c :: cs := by
      rw [List.takeWhile_append_of_pos hall]
      simp [List.takeWhile]
    have hdrop2 : (c :: cs ++ ' ' :: rest).dropWhile (fun c => decide (c ≠ ' ')) =
        ' ' :: rest := by
      rw [List.dropWhile_append_of_pos hall]
      simp [List.dropWhile]
    unfold strtok
    rw [hdrop]
    simp only [List.cons_append] at htake hdrop2 ⊢
    rw [htake, hdrop2]
    rfl

/-- The characters of the line printed for an entry. -/
theorem mounts_line_toList (e : mntent) :
    (mounts_line e).toList =
      e.mnt_fsname.toList ++ ' ' :: (e.mnt_dir.toList ++ ' ' ::
        (e.mnt_type.toList ++ ' ' :: (e.mnt_opts.toList ++ ' ' ::
          (e.mnt_freq.toList ++ ' ' :: e.mnt_passno.toList)))) ++ ['\n'] := by
  simp [mounts_line, String.toList]

/-- The second token of the line printed for an entry is its mount point. -/
theorem mount_point_mounts_line (e : mntent) (he : mntent_ok e) :
    mount_point (mounts_line e).toList = some e.mnt_dir.toList := by
  obtain ⟨hname, hdir, -⟩ := he
  rw [mounts_line_toList]
  unfold mount_point
  simp only [List.append_assoc, List.cons_append]
  rw [strtok_field _ _ hname.1 hname.2.1]
  simp only
  rw [strtok_field _ _ hdir.1 hdir.2.1]

/-- The line printed for an entry has its only newline at the end. -/
theorem mounts_line_no_newline (e : mntent) (he : mntent_ok e) :
    '\n' ∉ e.mnt_fsname.toList ++ ' ' :: (e.mnt_dir.toList ++ ' ' ::
        (e.mnt_type.toList ++ ' ' :: (e.mnt_opts.toList ++ ' ' ::
          (e.mnt_freq.toList ++ ' ' :: e.mnt_passno.toList)))) := by
  obtain ⟨h1, h2, h3, h4, h5, h6⟩ := he
  have g1 := h1.2.2
  have g2 := h2.2.2
  have g3 := h3.2.2
  have g4 := h4.2.2
  have g5 := h5.2.2
  have g6 := h6.2.2
  simp only [String.toList] at g1 g2 g3 g4 g5 g6
  simp [g1, g2, g3, g4, g5, g6]

/-- The lines `getline` reads from the text of a table are the lines printed
for its entries. -/
theorem getlines_mounts_text (table : List mntent) (hformat : ∀ e ∈ table, mntent_ok e) :
    getlines (mounts_text table).toList = table.map (fun e => (mounts_line e).toList) := by
  induction table with
  | nil => simp [mounts_text, getlines]
  | cons e rest ih =>
    have he := hformat e (List.mem_cons_self _ _)
    have hrest : ∀ x ∈ rest, mntent_ok x := fun x hx => hformat x (List.mem_cons_of_mem _ hx)
    have htext : (mounts_text (e :: rest)).toList =
        (mounts_line e).toList ++ (mounts_text rest).toList := by
      simp [mounts_text, String.toList]
    rw [htext, List.map_cons, ← ih hrest, mounts_line_toList, List.append_assoc]
    exact getlines_append_line _ _ (mounts_line_no_newline e he)

/-- The loop over the lines printed for a table: 1 when an entry has the path
as mount point, 0 when none has. -/
theorem is_mounted_loop_mounts (path : String) (table : List mntent)
    (hformat : ∀ e ∈ table, mntent_ok e) :
    (is_mounted_loop path.toList (table.map (fun e => (mounts_line e).toList)) = 1 ↔
      ∃ e ∈ table, e.mnt_dir = path) ∧
    (is_mounted_loop path.toList (table.map (fun e => (mounts_line e).toList)) = 0 ↔
      ¬ ∃ e ∈ table, e.mnt_dir = path) := by
  induction table with
  | nil => simp [is_mounted_loop]
  | cons e rest ih =>
    have he := hformat e (List.mem_cons_self _ _)
    have hrest : ∀ x ∈ rest, mntent_ok x := fun x hx => hformat x (List.mem_cons_of_mem _ hx)
    obtain ⟨ih1, ih0⟩ := ih hrest
    simp only [List.map_cons, is_mounted_loop, mount_point_mounts_line e he, Option.some.injEq,
      String.toList_inj, List.exists_mem_cons_iff] at *
    by_cases hdir : e.mnt_dir = path
    · simp [hdir]
    · simp only [hdir, if_false, false_or]
      exact ⟨ih1, ih0⟩

/-- A text that ends a piece with the separator splits into that piece and
the pieces of the rest. -/
theorem split_on_append (sep : Char) (body rest : List Char) (hbody : sep ∉ body) :
    split_on sep (body ++ sep :: rest) = body :: split_on sep rest := by
  induction body with
  | nil => simp [split_on]
  | cons c cs ih =>
    have hc : c ≠ sep := fun h => hbody (by simp [h])
    have hcs : sep ∉ cs := fun h => hbody (List.mem_cons_of_mem _ h)
    have hstep := ih hcs
    simp only [List.cons_append, split_on, hc, if_false]
    change (match split_on sep (cs ++ sep :: rest) with
      | [] => [[c]]
      | piece :: pieces => (c :: piece) :: pieces) = _
    rw [hstep]

/-- The pieces of the line printed for an entry start with its first two
fields. -/
theorem split_on_mounts_line (e : mntent) (he : mntent_ok e) :
    (split_on ' ' (e.mnt_fsname.toList ++ ' ' :: (e.mnt_dir.toList ++ ' ' ::
        (e.mnt_type.toList ++ ' ' :: (e.mnt_opts.toList ++ ' ' ::
          (e.mnt_freq.toList ++ ' ' :: e.mnt_passno.toList))))))[1]? =
      some e.mnt_dir.toList := by
  obtain ⟨hname, hdir, -⟩ := he
  rw [split_on_append _ _ _ hname.2.1, split_on_append _ _ _ hdir.2.1]
  simp

/-- The lines of the text of a table are the lines printed for its entries,
without their newlines, and an empty piece after the last newline. -/
theorem split_on_mounts_text (table : List mntent) (hformat : ∀ e ∈ table, mntent_ok e) :
    split_on '\n' (mounts_text table).toList =
      table.map (fun e => e.mnt_fsname.toList ++ ' ' :: (e.mnt_dir.toList ++ ' ' ::
        (e.mnt_type.toList ++ ' ' :: (e.mnt_opts.toList ++ ' ' ::
          (e.mnt_freq.toList ++ ' ' :: e.mnt_passno.toList))))) ++ [[]] := by
  induction table with
  | nil => simp [mounts_text, split_on]
  | cons e rest ih =>
    have he := hformat e (List.mem_cons_self _ _)
    have hrest : ∀ x ∈ rest, mntent_ok x := fun x hx => hformat x (List.mem_cons_of_mem _ hx)
    have htext : (mounts_text (e :: rest)).toList =
        (mounts_line e).toList ++ (mounts_text rest).toList := by
      simp [mounts_text, String.toList]
    rw [htext, List.map_cons, List.cons_append, ← ih hrest, mounts_line_toList,
      List.append_assoc]
    exact split_on_append _ _ _ (mounts_line_no_newline e he)

/-- On the text of a table some line has the second field `p` exactly when an
entry has the mount point `p`. -/
theorem second_field_is_mounts_text (table : List mntent) (p : String)
    (hformat : ∀ e ∈ table, mntent_ok e) :
    second_field_is (mounts_text table) p ↔ ∃ e ∈ table, e.mnt_dir = p := by
  unfold second_field_is
  rw [split_on_mounts_text table hformat]
  constructor
  · rintro ⟨line, hline, hfield⟩
    rcases List.mem_append.mp hline with h | h
    · obtain ⟨e, he, rfl⟩ := List.mem_map.mp h
      rw [split_on_mounts_line e (hformat e he)] at hfield
      exact ⟨e, he, String.toList_inj.mp (Option.some.inj hfield)⟩
    · rw [List.mem_singleton.mp h] at hfield
      simp [split_on] at hfield
  · rintro ⟨e, he, rfl⟩
    exact ⟨_, List.mem_append_left _ (List.mem_map_of_mem _ he),
      split_on_mounts_line e (hformat e he)⟩

/-- C12, the claim as stated fails outside the format of the kernel.  A line
that ends right after the mount point keeps its newline in the second token,
so `is_mounted` returns 0 although the second field of the line is the path;
and on a line that starts with a space `strtok` skips the empty first field,
so `is_mounted` returns 0 for the second field and 1 for the third. -/
theorem C12_second_field_not_found :
    second_field_is "x /home/user/Android\n" "/home/user/Android" ∧
    is_mounted (some "x /home/user/Android\n") "/home/user/Android" = 0 ∧
    second_field_is " /home/user/Android tmpfs rw,relatime 0 0\n" "/home/user/Android" ∧
    is_mounted (some " /home/user/Android tmpfs rw,relatime 0 0\n") "/home/user/Android"
      = 0 ∧
    ¬ second_field_is " /home/user/Android tmpfs rw,relatime 0 0\n" "tmpfs" ∧
    is_mounted (some " /home/user/Android tmpfs rw,relatime 0 0\n") "tmpfs" = 1 := by
  refine ⟨by decide, by decide, by decide, by decide, by decide, by decide⟩

/-- C12, amended: for every content of `/proc/mounts` in the format of the
kernel (every line is six fields, each not empty and free of spaces and
newlines, separated by single spaces and ended by a newline) and every path
`p`, `is_mounted (p)` returns 1 if and only if some line, split on spaces, has
a second field exactly equal to `p`, that is, some entry has the mount point
`p`; and it returns 0 otherwise. -/
theorem C12_is_mounted_exact_second_field (table : List mntent) (p : String)
    (hformat : ∀ e ∈ table, mntent_ok e) :
    (is_mounted (some (mounts_text table)) p = 1 ↔ second_field_is (mounts_text table) p) ∧
    (is_mounted (some (mounts_text table)) p = 0 ↔
      ¬ second_field_is (mounts_text table) p) ∧
    (second_field_is (mounts_text table) p ↔ ∃ e ∈ table, e.mnt_dir = p) := by
  rw [second_field_is_mounts_text table p hformat]
  simp only [is_mounted]
  rw [getlines_mounts_text table hformat]
  refine ⟨(is_mounted_loop_mounts p table hformat).1,
    (is_mounted_loop_mounts p table hformat).2, ?_⟩
  trivial

/-- C12 amended, on a table that mounts `/home/user/Android2` and
`/home/user`: the path `/home/user/Android`, a prefix of the one and an
extension of the other, is not found, and `/home/user` is. -/
theorem C12_is_mounted_exact_second_field_witness :
    is_mounted
      (some "/dev/fuse /home/user/Android2 fuse rw 0 0\n/dev/sda2 /home/user ext4 rw 0 0\n")
      "/home/user/Android" = 0 ∧
    is_mounted
      (some "/dev/fuse /home/user/Android2 fuse rw 0 0\n/dev/sda2 /home/user ext4 rw 0 0\n")
      "/home/user" = 1 :=
  ⟨(C12_is_mounted_exact_second_field
      [ { mnt_fsname := "/dev/fuse", mnt_dir := "/home/user/Android2", mnt_type := "fuse",
          mnt_opts := "rw", mnt_freq := "0", mnt_passno := "0" },
        { mnt_fsname := "/dev/sda2", mnt_dir := "/home/user", mnt_type := "ext4",
          mnt_opts := "rw", mnt_freq := "0", mnt_passno := "0" } ]
      "/home/user/Android" (by decide)).2.1.2 (by decide),
   (C12_is_mounted_exact_second_field
      [ { mnt_fsname := "/dev/fuse", mnt_dir := "/home/user/Android2", mnt_type := "fuse",
          mnt_opts := "rw", mnt_freq := "0", mnt_passno := "0" },
        { mnt_fsname := "/dev/sda2", mnt_dir := "/home/user", mnt_type := "ext4",
          mnt_opts := "rw", mnt_freq := "0", mnt_passno := "0" } ]
      "/home/user" (by decide)).1.2 (by decide)⟩

end Waydroid

/-! ## Android panel: the shared-folder switch and the sensitivity policy -/

namespace Waydroid

/-- The loop of `is_mounted` returns 0 or 1. -/
theorem is_mounted_loop_zero_or_one (path : List Char) (lines : List (List Char)) :
    is_mounted_loop path lines = 0 ∨ is_mounted_loop path lines = 1 := by
  induction lines with
  | nil => left; rfl
  | cons line rest ih =>
    simp only [is_mounted_loop]
    split
    · right; rfl
    · exact ih

/-- C14, the claim as stated fails: the panel is built with the session
stopped, the enable switch is turned on and `waydroid session start` is
spawned, but the session does not come up; when the 10 s timer runs
`enable_idle` the session is still not `RUNNING`, yet the app-management
controls are sensitive and factory reset is insensitive. -/
theorem C14_start_callback_ignores_session :
    (World.run template_panel stopped_environment
      [Event.enable_switch true true (some "STOPPED"),
       Event.enable_idle_timer false]).session = some "STOPPED" ∧
    (World.run template_panel stopped_environment
      [Event.enable_switch true true (some "STOPPED"),
       Event.enable_idle_timer false]).panel.launch_app_button_sensitive = true ∧
    (World.run template_panel stopped_environment
      [Event.enable_switch true true (some "STOPPED"),
       Event.enable_idle_timer false]).panel.factory_reset_button_sensitive = false ∧
    ¬ sensitivity_policy (World.run template_panel stopped_environment
      [Event.enable_switch true true (some "STOPPED"), Event.enable_idle_timer false]) := by
  decide

/-- The re-enable timer of a kill request that runs after the enable switch
was turned off makes the app-management controls sensitive with the session
stopped. -/
theorem reenable_timer_after_switch_off :
    ¬ sensitivity_policy (World.run
      { template_panel with selected_app_pkgname := some "org.fdroid.fdroid" }
      running_environment
      [Event.kill_app_clicked, Event.enable_switch false true (some "STOPPED"),
       Event.reenable_timer]) := by
  decide

/-- C14, amended: with Waydroid installed, init with the session not
`RUNNING` leaves the app-management controls and the NFC switch insensitive
and factory reset as the template has it; init with the session `RUNNING`
makes factory reset insensitive; turning the enable switch off makes the
app-management controls and the NFC switch insensitive and factory reset
sensitive.  The 10 s start callback makes factory reset insensitive and the
app-management controls, the NFC switch and the enable switch sensitive; the
callback of the re-enable timers makes the app-management controls sensitive
and leaves factory reset and the NFC switch alone; the refresh callback gives
the refresh button and the app selector the sensitivity "not refreshing" and
leaves the other controls alone.  No handler or callback looks at the state
of the session: what it does to the panel is the same for every state. -/
theorem C14_sensitivity_set_by_handlers (template self : CcWaydroidPanel)
    (env : Environment) (spawn_ok nfc_status : Bool)
    (hinstalled : env.waydroid_installed = true) :
    (env.current_state ≠ some "RUNNING" →
      app_controls_insensitive (cc_waydroid_panel_init template env) ∧
      (cc_waydroid_panel_init template env).factory_reset_button_sensitive =
        template.factory_reset_button_sensitive) ∧
    (env.current_state = some "RUNNING" →
      (cc_waydroid_panel_init template env).factory_reset_button_sensitive = false) ∧
    (app_controls_insensitive (cc_waydroid_panel_enable_waydroid self false spawn_ok) ∧
      (cc_waydroid_panel_enable_waydroid self false
        spawn_ok).factory_reset_button_sensitive = true) ∧
    ((enable_idle self nfc_status).factory_reset_button_sensitive = false ∧
      app_management_sensitive (enable_idle self nfc_status) true ∧
      (enable_idle self nfc_status).waydroid_nfc_switch_sensitive = true ∧
      (enable_idle self nfc_status).waydroid_enabled_switch_sensitive = true) ∧
    (app_management_sensitive (set_enable_widgets_state self) true ∧
      (set_enable_widgets_state self).factory_reset_button_sensitive =
        self.factory_reset_button_sensitive ∧
      (set_enable_widgets_state self).waydroid_nfc_switch_sensitive =
        self.waydroid_nfc_switch_sensitive) ∧
    ((set_refresh_sensitive self).refresh_app_list_button_sensitive = !self.refreshing ∧
      (set_refresh_sensitive self).app_selector_sensitive = !self.refreshing ∧
      (set_refresh_sensitive self).launch_app_button_sensitive =
        self.launch_app_button_sensitive ∧
      (set_refresh_sensitive self).remove_app_button_sensitive =
        self.remove_app_button_sensitive ∧
      (set_refresh_sensitive self).install_app_button_sensitive =
        self.install_app_button_sensitive ∧
      (set_refresh_sensitive self).store_button_sensitive = self.store_button_sensitive ∧
      (set_refresh_sensitive self).clear_app_data_button_sensitive =
        self.clear_app_data_button_sensitive ∧
      (set_refresh_sensitive self).kill_app_button_sensitive =
        self.kill_app_button_sensitive ∧
      (set_refresh_sensitive self).waydroid_nfc_switch_sensitive =
        self.waydroid_nfc_switch_sensitive ∧
      (set_refresh_sensitive self).factory_reset_button_sensitive =
        self.factory_reset_button_sensitive) ∧
    (∀ (event : Event) (session other : Option String),
      (World.step { panel := self, session := session } event).panel =
        (World.step { panel := self, session := other } event).panel) := by
  refine ⟨?_, ?_, ?_, ?_, ?_, ?_, ?_⟩
  · intro hstopped
    simp [cc_waydroid_panel_init, hinstalled, hstopped, app_controls_insensitive,
      g_signal_connect]
  · intro hrunning
    simp only [cc_waydroid_panel_init, hinstalled, hrunning, if_true,
      update_app_list_threaded, g_thread_new]
    split <;> rfl
  · simp [cc_waydroid_panel_enable_waydroid, app_controls_insensitive]
  · simp [enable_idle, connect_app_buttons, g_signal_connect, g_idle_add,
      app_management_sensitive]
  · simp [set_enable_widgets_state, set_widgets_state, app_management_sensitive]
  · simp [set_refresh_sensitive]
  · intro event session other
    cases event <;> rfl

/-- C14 amended, on the example template with the session stopped. -/
theorem C14_sensitivity_set_by_handlers_witness :
    app_controls_insensitive (cc_waydroid_panel_init template_panel stopped_environment) ∧
    (cc_waydroid_panel_init template_panel stopped_environment).factory_reset_button_sensitive
      = true ∧
    (cc_waydroid_panel_init template_panel
      running_environment).factory_reset_button_sensitive = false :=
  ⟨((C14_sensitivity_set_by_handlers template_panel template_panel stopped_environment true
      false rfl).1 (by decide)).1,
   ((C14_sensitivity_set_by_handlers template_panel template_panel stopped_environment true
      false rfl).1 (by decide)).2,
   (C14_sensitivity_set_by_handlers template_panel template_panel running_environment true
      false rfl).2.1 rfl⟩

end Waydroid

/-! ## USB panel -/

namespace Usb

/-- C15: with the USB configurator reachable, `$HOME` writable and the init
system carrying out requests, `cc_usb_panel_usb_state_changed` with `mtp`
selected issues `SetUSBMode("mtp")`, leaves the marker `$HOME/.mtp_disable`
absent and starts the MTP user service; with `rndis` or `none` selected it
issues `SetUSBMode` with that mode, stops the MTP user service and leaves the
marker present. -/
theorem C15_usb_state_changed_effects (self : CcUsbPanel) (sys : System)
    (hbus : sys.usbconfig_ok = true) (hhome : sys.home_writable = true)
    (hsystemd : sys.systemd_ok = true) :
    (self.usb_state_mtp_active = true →
      (cc_usb_panel_usb_state_changed self sys).dbus_calls =
        sys.dbus_calls ++ [("SetUSBMode", "mtp")] ∧
      (cc_usb_panel_usb_state_changed self sys).mtp_disable_exists = false ∧
      (cc_usb_panel_usb_state_changed self sys).service_requests =
        sys.service_requests ++ [("start", "mtp-server.service")] ∧
      "mtp-server.service" ∈ (cc_usb_panel_usb_state_changed self sys).active_services) ∧
    (self.usb_state_mtp_active = false →
      (cc_usb_panel_usb_state_changed self sys).dbus_calls =
        sys.dbus_calls ++
          [("SetUSBMode", if self.usb_state_rndis_active = true then "rndis" else "none")] ∧
      (cc_usb_panel_usb_state_changed self sys).mtp_disable_exists = true ∧
      (cc_usb_panel_usb_state_changed self sys).service_requests =
        sys.service_requests ++ [("stop", "mtp-server.service")] ∧
      "mtp-server.service" ∉ (cc_usb_panel_usb_state_changed self sys).active_services) := by
  constructor
  · intro hmtp
    by_cases hactive : MTP_SERVER_SERVICE ∈ sys.active_services
    · cases hm : sys.mtp_disable_exists <;>
        simp_all [cc_usb_panel_usb_state_changed, usb_set_mode, selected_mode, mtp_enabled,
          cc_usb_panel_enable_mtp, cc_start_service, MTP_SERVER_SERVICE]
    · cases hm : sys.mtp_disable_exists <;>
        simp_all [cc_usb_panel_usb_state_changed, usb_set_mode, selected_mode, mtp_enabled,
          cc_usb_panel_enable_mtp, cc_start_service, MTP_SERVER_SERVICE]
  · intro hmtp
    cases hr : self.usb_state_rndis_active <;> cases hm : sys.mtp_disable_exists <;>
      simp_all [cc_usb_panel_usb_state_changed, usb_set_mode, selected_mode, mtp_enabled,
        cc_usb_panel_enable_mtp, cc_stop_service, MTP_SERVER_SERVICE]

/-- C15 on the example system (marker present, MTP server stopped) with the
`mtp` radio active. -/
theorem C15_usb_state_changed_effects_witness :
    (cc_usb_panel_usb_state_changed
      { template_panel with usb_state_mtp_active := true, usb_state_none_active := false }
      idle_system).dbus_calls = [("SetUSBMode", "mtp")] ∧
    (cc_usb_panel_usb_state_changed
      { template_panel with usb_state_mtp_active := true, usb_state_none_active := false }
      idle_system).mtp_disable_exists = false ∧
    (cc_usb_panel_usb_state_changed
      { template_panel with usb_state_mtp_active := true, usb_state_none_active := false }
      idle_system).service_requests = [("start", "mtp-server.service")] ∧
    "mtp-server.service" ∈ (cc_usb_panel_usb_state_changed
      { template_panel with usb_state_mtp_active := true, usb_state_none_active := false }
      idle_system).active_services :=
  (C15_usb_state_changed_effects
    { template_panel with usb_state_mtp_active := true, usb_state_none_active := false }
    idle_system rfl rfl rfl).1 rfl

/-- The power-role part of init leaves the mode radios alone. -/
theorem init_power_role_usb_state (self : CcUsbPanel) (env : Environment) :
    usb_state_radios (init_power_role self env) = usb_state_radios self := by
  unfold init_power_role
  split
  · simp only [g_signal_connect]
    split_ifs <;> rfl
  · rfl

/-- The CD-ROM part of init leaves the mode radios alone. -/
theorem init_cdrom_usb_state (self : CcUsbPanel) (env : Environment) :
    usb_state_radios (init_cdrom self env) = usb_state_radios self := by
  unfold init_cdrom
  simp only [g_signal_connect]
  split_ifs <;> (try rfl)
  all_goals (split <;> (try rfl))
  all_goals (split_ifs <;> (try rfl))
  all_goals (split <;> rfl)

/-- The mode radios after init, for a reported `CurrentState`. -/
theorem init_usb_state_radios (self : CcUsbPanel) (env : Environment) (s : String) :
    usb_state_radios (init_usb_state self { env with current_state := some s }) =
      (decide (s = "mtp"), decide (¬ s = "mtp" ∧ s = "rndis"),
        decide (¬ s = "mtp" ∧ ¬ s = "rndis")) := by
  by_cases h1 : s = "mtp"
  · cases hs : env.mtp_supported <;>
      simp [init_usb_state, set_usb_state_active, usb_state_radios, g_signal_connect, h1, hs]
  · by_cases h2 : s = "rndis"
    · cases hs : env.mtp_supported <;>
        simp [init_usb_state, set_usb_state_active, usb_state_radios, g_signal_connect, h2, hs]
    · cases hs : env.mtp_supported <;>
        simp [init_usb_state, set_usb_state_active, usb_state_radios, g_signal_connect, h1, h2,
          hs]

/-- C16: for every `CurrentState` the USB configurator reports at init,
exactly one of the three mode radios is active afterwards: `mtp` for the value
`mtp`, `rndis` for the value `rndis`, `none` for every other string; and the
mode the change handler derives from the radios is that same one. -/
theorem C16_init_activates_one_radio (template : CcUsbPanel) (env : Environment)
    (s : String) :
    usb_state_radios (cc_usb_panel_init template { env with current_state := some s }) =
      (if s = "mtp" then (true, false, false)
       else if s = "rndis" then (false, true, false)
       else (false, false, true)) ∧
    selected_mode (cc_usb_panel_init template { env with current_state := some s }) =
      (if s = "mtp" then "mtp" else if s = "rndis" then "rndis" else "none") := by
  have hradios : usb_state_radios
      (cc_usb_panel_init template { env with current_state := some s }) =
      (decide (s = "mtp"), decide (¬ s = "mtp" ∧ s = "rndis"),
        decide (¬ s = "mtp" ∧ ¬ s = "rndis")) := by
    simp only [cc_usb_panel_init]
    rw [init_cdrom_usb_state, init_power_role_usb_state, init_usb_state_radios]
  have hmtp := congrArg Prod.fst hradios
  have hrndis := congrArg (fun t => t.2.1) hradios
  simp only [usb_state_radios] at hmtp hrndis
  constructor
  · rw [hradios]
    by_cases h1 : s = "mtp"
    · simp [h1]
    · by_cases h2 : s = "rndis"
      · simp [h2]
      · simp [h1, h2]
  · simp only [selected_mode, hmtp, hrndis]
    by_cases h1 : s = "mtp"
    · simp [h1]
    · by_cases h2 : s = "rndis"
      · simp [h2]
      · simp [h1, h2]

/-- C17: for every selection of the mode radios and every system (marker
present or absent, MTP service active or not, requests permitted or not),
running `cc_usb_panel_usb_state_changed` a second time with the same
selection leaves the marker and the active services as the first run left
them. -/
theorem C17_same_mode_twice (self : CcUsbPanel) (sys : System) :
    (cc_usb_panel_usb_state_changed self
        (cc_usb_panel_usb_state_changed self sys)).mtp_disable_exists =
      (cc_usb_panel_usb_state_changed self sys).mtp_disable_exists ∧
    (cc_usb_panel_usb_state_changed self
        (cc_usb_panel_usb_state_changed self sys)).active_services =
      (cc_usb_panel_usb_state_changed self sys).active_services := by
  by_cases hactive : MTP_SERVER_SERVICE ∈ sys.active_services <;>
  cases hmtp : self.usb_state_mtp_active <;> cases hr : self.usb_state_rndis_active <;>
  cases hb : sys.usbconfig_ok <;> cases hs : sys.systemd_ok <;>
  cases hw : sys.home_writable <;> cases hm : sys.mtp_disable_exists <;>
  simp [cc_usb_panel_usb_state_changed, usb_set_mode, selected_mode, mtp_enabled,
    cc_usb_panel_enable_mtp, cc_start_service, cc_stop_service, hactive, hmtp, hr, hb, hs, hw,
    hm]

/-- C18: evaluation of the code on a device that emulates the CD-ROM
`/home/user/isos/debian.iso` when the panel is opened: init stores the
basename `debian.iso` in `path`, and turning the switch off and on again
spawns the unmount and then a mount of `debian.iso`, not of the backing
file. -/
theorem C18_startup_path_is_basename :
    (cc_usb_panel_init template_panel cdrom_environment).path = some "debian.iso" ∧
    (cc_usb_panel_enable_cdrom
      (cc_usb_panel_enable_cdrom (cc_usb_panel_init template_panel cdrom_environment)
        idle_system false).1
      (cc_usb_panel_enable_cdrom (cc_usb_panel_init template_panel cdrom_environment)
        idle_system false).2 true).2.spawned =
      [["pkexec", "isodrive", "umount"], ["pkexec", "isodrive", "debian.iso", "-cdrom"]] := by
  decide

/-- A file picked in the chooser is mounted by the path the chooser gives. -/
theorem chosen_file_is_mounted_by_path :
    (cc_usb_panel_enable_cdrom
      (on_file_chosen template_panel true (some "/home/user/isos/debian.iso"))
      idle_system true).2.spawned =
      [["pkexec", "isodrive", "/home/user/isos/debian.iso", "-cdrom"]] := by
  decide

end Usb

/-! ## User-scope service masks -/

namespace Systemd

open GIOErrorEnum

/-- For a unit name the path of the service is the unit directory, a
separator and the name. -/
theorem service_path_of_ok (home_dir service : String) (hname : service_name_ok service) :
    service_path home_dir service = config_dir home_dir ++ "/" ++ service := by
  obtain ⟨hne, hsep⟩ := hname
  have hdrop : ∀ l : List Char, '/' ∉ l → l.dropWhile (fun c => decide (c = '/')) = l := by
    intro l hl
    cases l with
    | nil => rfl
    | cons c cs =>
      have hc : c ≠ '/' := fun h => hl (by simp [h])
      simp [List.dropWhile, hc]
  have htake : ∀ l : List Char, '/' ∉ l → l.takeWhile (fun c => decide (c = '/')) = [] := by
    intro l hl
    cases l with
    | nil => rfl
    | cons c cs =>
      have hc : c ≠ '/' := fun h => hl (by simp [h])
      simp [List.takeWhile, hc]
  have hrev : '/' ∉ service.toList.reverse := fun h => hsep (List.mem_reverse.mp h)
  unfold service_path
  simp only [hdrop _ hsep, hdrop _ hrev, htake _ hrev, List.reverse_reverse, hne, if_false]
  apply String.ext
  simp [String.toList]

/-- The directory of the path of a service is the unit directory. -/
theorem g_path_get_dirname_service_path (home_dir service : String)
    (hname : service_name_ok service) :
    g_path_get_dirname (service_path home_dir service) = config_dir home_dir := by
  rw [service_path_of_ok home_dir service hname]
  have hsep : ∀ a ∈ service.toList.reverse, (decide (a ≠ '/')) = true := by
    intro a ha
    have hmem : a ∈ service.toList := List.mem_reverse.mp ha
    have : a ≠ '/' := fun h => hname.2 (h ▸ hmem)
    simpa using this
  have hrev : (config_dir home_dir ++ "/" ++ service).toList.reverse =
      service.toList.reverse ++
        '/' :: 'r' :: ("/.config/systemd/use".toList.reverse ++ home_dir.toList.reverse) := by
    simp [config_dir, String.toList]
  unfold g_path_get_dirname
  rw [hrev, List.dropWhile_append_of_pos hsep]
  simp only [List.dropWhile, ne_eq, not_true_eq_false, decide_False, decide_True]
  apply String.ext
  simp [config_dir, String.toList]

/-- A unit file that exists before the mask is gone after the unmask, and a
unit directory of mode 0700 has mode 0755. -/
theorem mask_unmask_other_changes :
    (cc_unmask_user_service
      (cc_mask_user_service
        (home_with_units.set "/home/user/.config/systemd/user/x.service" (some Node.regular))
        "/home/user" "x.service").2
      "/home/user" "x.service").2.node "/home/user/.config/systemd/user/x.service" = none ∧
    (cc_unmask_user_service
      (cc_mask_user_service
        (home_with_units.set "/home/user/.config/systemd/user" (some (Node.directory 0o700)))
        "/home/user" "x.service").2
      "/home/user" "x.service").2.node "/home/user/.config/systemd/user" =
      some (Node.directory 0o755) := by
  decide

/-- C20, the claim as stated fails.  With a regular file where the unit
directory would be, nothing is named `x.service` in it, yet the deletion fails
with an error that is not `G_IO_ERROR_NOT_FOUND` and
`cc_unmask_user_service` returns `FALSE`.  And for the empty name, which
`g_build_filename` ignores, nothing has that name in the unit directory, yet
`cc_unmask_user_service` removes the (empty) unit directory itself. -/
theorem C20_unmask_fails_or_removes_directory :
    home_with_unit_file.node (unit_entry "/home/user" "x.service") = none ∧
    (cc_unmask_user_service home_with_unit_file "/home/user" "x.service").1 = false ∧
    home_with_units.node (unit_entry "/home/user" "") = none ∧
    home_with_units.node "/home/user/.config/systemd/user" = some (Node.directory 0o755) ∧
    (cc_unmask_user_service home_with_units "/home/user" "").1 = true ∧
    (cc_unmask_user_service home_with_units "/home/user" "").2.node
      "/home/user/.config/systemd/user" = none := by
  refine ⟨by decide, by decide, by decide, by decide, by decide, by decide⟩

/-- C20, amended: for every service name `s` (not empty, without separator),
when `$HOME/.config/systemd/user` is a directory that the process may search,
the file system is not read-only and nothing is named `s` in the directory,
`cc_unmask_user_service (s)` returns `TRUE` and leaves the file system as it
is; and whenever it returns `FALSE`, the deletion failed with an error other
than `G_IO_ERROR_NOT_FOUND`. -/
theorem C20_unmask_absent_is_success (fs : FileSystem) (home_dir s : String) :
    (service_name_ok s →
      (∃ mode, fs.node (home_dir ++ "/.config/systemd/user") = some (Node.directory mode) ∧
        mode &&& 0o100 ≠ 0) →
      fs.read_only = false →
      fs.node (unit_entry home_dir s) = none →
      cc_unmask_user_service fs home_dir s = (true, fs)) ∧
    ((cc_unmask_user_service fs home_dir s).1 = false →
      ∃ e, g_file_delete fs (service_path home_dir s) = Except.error e ∧
        e ≠ G_IO_ERROR_NOT_FOUND) := by
  constructor
  · rintro hname ⟨mode, hdir, hsearch⟩ hwritable habsent
    have hpath : service_path home_dir s = unit_entry home_dir s :=
      service_path_of_ok home_dir s hname
    have hdirname := g_path_get_dirname_service_path home_dir s hname
    rw [hpath] at hdirname
    simp only [config_dir] at hdirname
    simp [cc_unmask_user_service, g_file_delete, hpath, hdirname, hdir, hsearch, hwritable,
      habsent]
  · intro hfalse
    unfold cc_unmask_user_service at hfalse
    cases hdel : g_file_delete fs (service_path home_dir s) with
    | ok fs' => simp [hdel] at hfalse
    | error e =>
      refine ⟨e, rfl, ?_⟩
      intro he
      simp [hdel, he] at hfalse

/-- C20 amended, for `x.service` in the example home, where no mask exists,
and on the same home mounted read-only with a mask in place. -/
theorem C20_unmask_absent_is_success_witness :
    (cc_unmask_user_service home_with_units "/home/user" "x.service").1 = true ∧
    ∃ e, g_file_delete
        { (cc_mask_user_service home_with_units "/home/user" "x.service").2 with
          read_only := true }
        (service_path "/home/user" "x.service") = Except.error e ∧
      e ≠ G_IO_ERROR_NOT_FOUND :=
  ⟨congrArg Prod.fst
      ((C20_unmask_absent_is_success home_with_units "/home/user" "x.service").1
        (by decide) ⟨0o755, by decide, by decide⟩ rfl (by decide)),
   (C20_unmask_absent_is_success
      { (cc_mask_user_service home_with_units "/home/user" "x.service").2 with
        read_only := true }
      "/home/user" "x.service").2 (by decide)⟩

end Systemd

/-! ## WWAN: the IMS properties -/

namespace Wwan

/-- `g_str_has_suffix` holds exactly when the string ends with the suffix. -/
theorem g_str_has_suffix_iff (str suffix : String) :
    g_str_has_suffix str suffix = true ↔ ∃ front : String, str = front ++ suffix := by
  unfold g_str_has_suffix
  rw [List.isSuffixOf_iff_suffix]
  constructor
  · rintro ⟨t, ht⟩
    refine ⟨String.mk t, ?_⟩
    apply String.ext
    simpa [String.toList] using ht.symm
  · rintro ⟨front, hfront⟩
    refine ⟨front.toList, ?_⟩
    rw [hfront]
    simp [String.toList]

/-- The loop finds a path exactly when it is the path of the first modem of
the reply that has the port name as suffix. -/
theorem matched_path_eq_some (port_name path : String)
    (modems : List (String × List (String × GVariant))) :
    matched_path port_name modems = some path ↔
      ∃ before properties after, modems = before ++ (path, properties) :: after ∧
        g_str_has_suffix path port_name = true ∧
        ∀ m ∈ before, g_str_has_suffix m.1 port_name = false := by
  induction modems with
  | nil => simp [matched_path]
  | cons m rest ih =>
    obtain ⟨mpath, mprops⟩ := m
    by_cases hm : g_str_has_suffix mpath port_name = true
    · simp only [matched_path, hm, if_true, Option.some.injEq]
      constructor
      · intro h
        subst h
        exact ⟨[], mprops, rest, rfl, hm, by simp⟩
      · rintro ⟨before, properties, after, hsplit, hpath, hbefore⟩
        cases before with
        | nil =>
          simp only [List.nil_append, List.cons.injEq, Prod.mk.injEq] at hsplit
          exact hsplit.1.1
        | cons b bs =>
          simp only [List.cons_append, List.cons.injEq] at hsplit
          have hb := hbefore b (List.mem_cons_self _ _)
          rw [← hsplit.1] at hb
          simp [hm] at hb
    · simp only [matched_path, hm, if_false, Bool.false_eq_true]
      rw [ih]
      constructor
      · rintro ⟨before, properties, after, hsplit, hpath, hbefore⟩
        refine ⟨(mpath, mprops) :: before, properties, after, by simp [hsplit], hpath, ?_⟩
        intro x hx
        rcases List.mem_cons.mp hx with hx | hx
        · subst hx
          simpa using hm
        · exact hbefore x hx
      · rintro ⟨before, properties, after, hsplit, hpath, hbefore⟩
        cases before with
        | nil =>
          simp only [List.nil_append, List.cons.injEq, Prod.mk.injEq] at hsplit
          rw [hsplit.1.1] at hm
          exact absurd hpath hm
        | cons b bs =>
          simp only [List.cons_append, List.cons.injEq] at hsplit
          exact ⟨bs, properties, after, hsplit.2, hpath,
            fun x hx => hbefore x (List.mem_cons_of_mem _ hx)⟩

/-- The loop finds nothing exactly when no modem of the reply has the port
name as suffix. -/
theorem matched_path_eq_none (port_name : String)
    (modems : List (String × List (String × GVariant))) :
    matched_path port_name modems = none ↔
      ∀ m ∈ modems, g_str_has_suffix m.1 port_name = false := by
  induction modems with
  | nil => simp [matched_path]
  | cons m rest ih =>
    obtain ⟨mpath, mprops⟩ := m
    by_cases hm : g_str_has_suffix mpath port_name = true
    · simp [matched_path, hm]
    · simp only [matched_path, hm, if_false, Bool.false_eq_true, ih, List.mem_cons,
        forall_eq_or_imp]
      simp [hm]

end Wwan

namespace Wwan

/-- The example bus: the three properties of the port `ril_0`. -/
theorem ims_checks_example :
    cc_wwan_ims_check_registered one_modem_bus (some "ril_0") = some true ∧
    cc_wwan_ims_check_voice_capable one_modem_bus (some "ril_0") = some true ∧
    cc_wwan_ims_check_sms_capable one_modem_bus (some "ril_0") = some false := by
  decide

/-- With `NULL` for the port name `cc_wwan_ims_check_registered` returns
false, and the two other functions read the message of an error that was not
set. -/
theorem ims_checks_null_port (bus : Bus) :
    cc_wwan_ims_check_registered bus none = some false ∧
    cc_wwan_ims_check_voice_capable bus none = none ∧
    cc_wwan_ims_check_sms_capable bus none = none := by
  refine ⟨rfl, rfl, rfl⟩

/-- C27: for every reply of `GetModems` and every port name,
`get_ims_proxy_for_port` picks the first modem, in the order of the reply,
whose object path ends with the port name (the proxy is made for that path),
and sets the error `G_IO_ERROR_NOT_FOUND`, with no proxy, exactly when no path
of the reply ends with the port name. -/
theorem C27_first_modem_with_suffix (bus : Bus) (port_name : String)
    (modems : List (String × List (String × GVariant)))
    (hconnection : bus.connection = true) (hreply : bus.get_modems = some modems)
    (hpaths : ∀ m ∈ modems, g_variant_is_object_path m.1 = true) :
    ((∃ before m after, modems = before ++ m :: after ∧
        (∃ front : String, m.1 = front ++ port_name) ∧
        (∀ x ∈ before, ¬ ∃ front : String, x.1 = front ++ port_name) ∧
        get_ims_proxy_for_port bus (some port_name) =
          (if bus.proxy_new m.1 = true then (some m.1, none)
           else (none, some GError.proxy_failed))) ∨
      ((∀ x ∈ modems, ¬ ∃ front : String, x.1 = front ++ port_name) ∧
        get_ims_proxy_for_port bus (some port_name) =
          (none, some GError.G_IO_ERROR_NOT_FOUND))) ∧
    ((get_ims_proxy_for_port bus (some port_name)).2 = some GError.G_IO_ERROR_NOT_FOUND ↔
      ∀ x ∈ modems, ¬ ∃ front : String, x.1 = front ++ port_name) := by
  have hsuffix : ∀ x : String × List (String × GVariant),
      (¬ ∃ front : String, x.1 = front ++ port_name) ↔
        g_str_has_suffix x.1 port_name = false := by
    intro x
    rw [← g_str_has_suffix_iff]
    simp
  simp only [hsuffix, ← matched_path_eq_none]
  cases hp : matched_path port_name modems with
  | none =>
    simp [get_ims_proxy_for_port, hconnection, hreply, hp]
  | some path =>
    obtain ⟨before, properties, after, hsplit, hpath, hbefore⟩ :=
      (matched_path_eq_some port_name path modems).mp hp
    have hvalid : g_variant_is_object_path path = true :=
      hpaths (path, properties) (by simp [hsplit])
    have hresult : get_ims_proxy_for_port bus (some port_name) =
        (if bus.proxy_new path = true then (some path, none)
         else (none, some GError.proxy_failed)) := by
      simp only [get_ims_proxy_for_port, hconnection, hreply, hp, hvalid]
      rfl
    constructor
    · left
      exact ⟨before, (path, properties), after, hsplit,
        (g_str_has_suffix_iff path port_name).mp hpath,
        (matched_path_eq_none port_name before).mpr hbefore, hresult⟩
    · rw [hresult]
      cases bus.proxy_new path <;> simp

/-- C27 on a reply of three modems, two of which end with `ril_1`: the
first of the two is picked. -/
theorem C27_first_modem_with_suffix_witness :
    get_ims_proxy_for_port
      { one_modem_bus with
        get_modems := some [("/ril_0", []), ("/ril_1", []), ("/b/ril_1", [])] }
      (some "ril_1") = (some "/ril_1", none) ∧
    (get_ims_proxy_for_port
      { one_modem_bus with
        get_modems := some [("/ril_0", []), ("/ril_1", []), ("/b/ril_1", [])] }
      (some "ttyUSB0")).2 = some GError.G_IO_ERROR_NOT_FOUND :=
  ⟨by decide,
   (C27_first_modem_with_suffix
      { one_modem_bus with
        get_modems := some [("/ril_0", []), ("/ril_1", []), ("/b/ril_1", [])] }
      "ttyUSB0" [("/ril_0", []), ("/ril_1", []), ("/b/ril_1", [])] rfl rfl
      (by decide)).2.mpr (by
        intro x hx
        rw [← g_str_has_suffix_iff]
        simp only [List.mem_cons, List.mem_singleton, List.not_mem_nil, or_false] at hx
        rcases hx with h | h | h <;> (rw [h]; decide))⟩

end Wwan

/-! ## Fingerprint workflow: the enroll session -/

namespace Fingerprint

/-- The `EnrollProgressChanged` branch of `handle_signal`, unfolded. -/
theorem handle_signal_enroll_progress (self : CcFingerprintPanel) (progress : Int) :
    handle_signal self "EnrollProgressChanged" (.int progress) =
      if progress = 100 then
        { self with enroll_progress_fraction :=
                      max 0 (min (round_to_double ((progress : ℚ) / 100)) 1),
                    usleep_log := self.usleep_log ++ [500 * 1000],
                    enrollment_done := true,
                    enroll_progress_visible := false }
      else
        { self with enroll_progress_fraction :=
                      max 0 (min (round_to_double ((progress : ℚ) / 100)) 1),
                    enroll_progress_visible := true } := by
  simp only [handle_signal, gtk_progress_bar_set_fraction, g_usleep, if_true]

/-- The loop of a refresh leaves the log of sleeps alone. -/
theorem refresh_loop_usleep_log (enrolled_fingers : Option (List String))
    (show_enrolled : Bool) (fingers : List String) (self : CcFingerprintPanel) :
    (refresh_loop enrolled_fingers show_enrolled fingers self).usleep_log = self.usleep_log := by
  induction fingers generalizing self with
  | nil => rfl
  | cons finger rest ih =>
    simp only [refresh_loop]
    split <;> simp [ih]

/-- A refresh leaves the log of sleeps alone. -/
theorem refresh_fingerprint_list_usleep_log (self : CcFingerprintPanel)
    (enrolled_fingers : Option (List String)) :
    (refresh_fingerprint_list self enrolled_fingers).usleep_log = self.usleep_log := by
  simp [refresh_fingerprint_list, refresh_loop_usleep_log]

/-- The wait loop of the enroll worker is left only with `enrollment_done`
set. -/
theorem enroll_wait_done (deliveries : List (List Signal)) (self completed : CcFingerprintPanel)
    (hleft : enroll_wait self deliveries = some completed) :
    completed.enrollment_done = true := by
  induction deliveries generalizing self with
  | nil =>
    simp only [enroll_wait] at hleft
    split at hleft
    · rename_i hdone
      simp only [Option.some.injEq] at hleft
      rw [← hleft]
      exact hdone
    · simp at hleft
  | cons batch rest ih =>
    simp only [enroll_wait] at hleft
    split at hleft
    · rename_i hdone
      simp only [Option.some.injEq] at hleft
      rw [← hleft]
      exact hdone
    · exact ih _ hleft

/-- C22, the claim as stated fails: in an enroll session that reaches progress
100 during the first sleep of the worker, the sleeps are the poll of 50 ms,
the 500 ms of the signal handler and 50 ms of the worker before the refresh;
only one sleep lasts 500 ms. -/
theorem C22_worker_settles_50_ms :
    (cc_fingerprint_panel_enroll_finger nothing_enrolled_panel true true
      [[("EnrollProgressChanged", .int 100)], []] (some ["right-thumb"])).map
        (fun p => p.usleep_log) = some [50000, 500000, 50000] ∧
    (cc_fingerprint_panel_enroll_finger nothing_enrolled_panel true true
      [[("EnrollProgressChanged", .int 100)], []] (some ["right-thumb"])).map
        (fun p => p.usleep_log.count 500000) = some 1 := by
  decide

/-- C22, amended: on progress 100 the signal handler sleeps 500 ms
(`g_usleep (500 * 1000)`, in microseconds) and marks the session complete;
the worker, once it has seen the completion, sleeps 50 ms
(`g_usleep (500 * 100)`) and then refreshes the finger list; when the session
has also been canceled by an `ErrorInfo`, the worker sleeps one more 50 ms
before that.  Every session that leaves the wait loop ends with this part of
the worker. -/
theorem C22_settling_sleeps (self : CcFingerprintPanel)
    (enrolled_fingers : Option (List String)) (deliveries : List (List Signal)) :
    (handle_signal self "EnrollProgressChanged" (.int 100)).usleep_log =
      self.usleep_log ++ [500000] ∧
    (handle_signal self "EnrollProgressChanged" (.int 100)).enrollment_done = true ∧
    (enroll_finish self enrolled_fingers).usleep_log =
      self.usleep_log ++ (if self.finger_canceled then [50000, 50000] else [50000]) ∧
    (enroll_finish self enrolled_fingers).finger_list =
      (refresh_fingerprint_list self enrolled_fingers).finger_list ∧
    (∀ ended : CcFingerprintPanel,
      enroll_finger_thread self true true deliveries enrolled_fingers = some ended →
      ∃ completed : CcFingerprintPanel, completed.enrollment_done = true ∧
        ended = enroll_finish completed enrolled_fingers) := by
  rw [handle_signal_enroll_progress]
  refine ⟨rfl, rfl, ?_, ?_, ?_⟩
  · cases hcanceled : self.finger_canceled <;>
      simp [enroll_finish, hcanceled, refresh_fingerprint_list_usleep_log, g_usleep]
  · cases hcanceled : self.finger_canceled <;>
      simp [enroll_finish, hcanceled, refresh_fingerprint_list_rows, g_usleep]
  · intro ended hended
    simp only [enroll_finger_thread, Bool.not_true, Bool.false_eq_true, if_false,
      Bool.and_false] at hended
    cases hwait : enroll_wait (set_ui_sensitivity { self with sensitive := false })
        deliveries with
    | none => simp [hwait] at hended
    | some completed =>
      simp only [hwait, Option.some.injEq] at hended
      exact ⟨completed, enroll_wait_done _ _ _ hwait, hended.symm⟩

/-- C22 amended, on the example panel and on a session that reaches progress
100 during the first sleep of the worker. -/
theorem C22_settling_sleeps_witness :
    (handle_signal initial_panel "EnrollProgressChanged" (.int 100)).usleep_log = [500000] ∧
    (enroll_finish initial_panel (some ["right-thumb"])).usleep_log = [50000] ∧
    (enroll_finish { initial_panel with finger_canceled := true }
      (some ["right-thumb"])).usleep_log = [50000, 50000] ∧
    ∃ completed : CcFingerprintPanel, completed.enrollment_done = true ∧
      enroll_finger_thread nothing_enrolled_panel true true
        [[("EnrollProgressChanged", .int 100)], []] (some ["right-thumb"]) =
        some (enroll_finish completed (some ["right-thumb"])) :=
  ⟨(C22_settling_sleeps initial_panel (some ["right-thumb"]) []).1,
   (C22_settling_sleeps initial_panel (some ["right-thumb"]) []).2.2.1,
   (C22_settling_sleeps { initial_panel with finger_canceled := true }
      (some ["right-thumb"]) []).2.2.1,
   by
    obtain ⟨ended, hended⟩ := Option.isSome_iff_exists.mp
      (show (enroll_finger_thread nothing_enrolled_panel true true
        [[("EnrollProgressChanged", .int 100)], []] (some ["right-thumb"])).isSome = true
        by decide)
    obtain ⟨completed, hdone, heq⟩ :=
      (C22_settling_sleeps nothing_enrolled_panel (some ["right-thumb"])
        [[("EnrollProgressChanged", .int 100)], []]).2.2.2.2 ended hended
    exact ⟨completed, hdone, by rw [hended, heq]⟩⟩

/-- One signal sets no flag of the workflow back to false. -/
theorem handle_signal_monotone (self : CcFingerprintPanel) (signal_name : String)
    (parameters : GVariant) :
    (self.enrollment_done = true →
      (handle_signal self signal_name parameters).enrollment_done = true) ∧
    (self.identification_done = true →
      (handle_signal self signal_name parameters).identification_done = true) ∧
    (self.finger_canceled = true →
      (handle_signal self signal_name parameters).finger_canceled = true) := by
  unfold handle_signal
  cases parameters with
  | int i =>
    simp only [gtk_progress_bar_set_fraction, g_usleep]
    split_ifs <;> simp_all
  | str s =>
    simp only [show_toast, g_usleep]
    split_ifs <;> (try simp_all)
    all_goals (split <;> simp_all [show_toast])

/-- A sequence of signals sets no flag of the workflow back to false. -/
theorem handle_signals_monotone (batch : List Signal) (self : CcFingerprintPanel) :
    (self.enrollment_done = true → (handle_signals self batch).enrollment_done = true) ∧
    (self.identification_done = true →
      (handle_signals self batch).identification_done = true) ∧
    (self.finger_canceled = true → (handle_signals self batch).finger_canceled = true) := by
  induction batch generalizing self with
  | nil => exact ⟨id, id, id⟩
  | cons sig rest ih =>
    obtain ⟨h1, h2, h3⟩ := handle_signal_monotone self sig.1 sig.2
    obtain ⟨g1, g2, g3⟩ := ih (handle_signal self sig.1 sig.2)
    simp only [handle_signals, List.foldl_cons] at g1 g2 g3 ⊢
    exact ⟨fun h => g1 (h1 h), fun h => g2 (h2 h), fun h => g3 (h3 h)⟩

/-- C23: for every sequence of daemon signals handled within one session, a
workflow flag that is true after the earlier signals is true after every
further signal: this holds for `enrollment_done`, for `identification_done`
and for `finger_canceled`, so each flag moves from false to true at most
once. -/
theorem C23_flags_monotone (self : CcFingerprintPanel) (earlier later : List Signal) :
    ((handle_signals self earlier).enrollment_done = true →
      (handle_signals self (earlier ++ later)).enrollment_done = true) ∧
    ((handle_signals self earlier).identification_done = true →
      (handle_signals self (earlier ++ later)).identification_done = true) ∧
    ((handle_signals self earlier).finger_canceled = true →
      (handle_signals self (earlier ++ later)).finger_canceled = true) := by
  have hsplit : handle_signals self (earlier ++ later) =
      handle_signals (handle_signals self earlier) later := by
    simp [handle_signals, List.foldl_append]
  rw [hsplit]
  exact handle_signals_monotone later (handle_signals self earlier)

/-- C23 on an enroll session that is canceled by an error and then receives
progress and state signals. -/
theorem C23_flags_monotone_witness :
    (handle_signals initial_panel
      ([("ErrorInfo", .str "ERROR_CANCELED")] ++
        [("EnrollProgressChanged", .int 10), ("StateChanged", .str "FPSTATE_IDLE"),
         ("AcquisitionInfo", .str "FPACQUIRED_PARTIAL")])).enrollment_done = true ∧
    (handle_signals initial_panel
      ([("ErrorInfo", .str "ERROR_CANCELED")] ++
        [("EnrollProgressChanged", .int 10), ("StateChanged", .str "FPSTATE_IDLE"),
         ("AcquisitionInfo", .str "FPACQUIRED_PARTIAL")])).finger_canceled = true :=
  ⟨(C23_flags_monotone initial_panel [("ErrorInfo", .str "ERROR_CANCELED")]
      [("EnrollProgressChanged", .int 10), ("StateChanged", .str "FPSTATE_IDLE"),
       ("AcquisitionInfo", .str "FPACQUIRED_PARTIAL")]).1 rfl,
   (C23_flags_monotone initial_panel [("ErrorInfo", .str "ERROR_CANCELED")]
      [("EnrollProgressChanged", .int 10), ("StateChanged", .str "FPSTATE_IDLE"),
       ("AcquisitionInfo", .str "FPACQUIRED_PARTIAL")]).2.2 rfl⟩

end Fingerprint

namespace Fingerprint

/-- For a percentage the quotient `i / 100.0` is a double between 0 and 1
that lies within `2 ^ -54` of `i / 100`. -/
theorem round_to_double_percent (i : Int) (hlow : 0 ≤ i) (hhigh : i ≤ 100) :
    0 ≤ round_to_double ((i : ℚ) / 100) ∧ round_to_double ((i : ℚ) / 100) ≤ 1 ∧
    |round_to_double ((i : ℚ) / 100) - (i : ℚ) / 100| ≤ 1 / 2 ^ 54 := by
  interval_cases i <;> decide!

/-- The quotients `i / 100.0` for some values of `i`: the quarters are doubles,
33/100 is not. -/
theorem round_to_double_examples :
    round_to_double (((25 : Int) : ℚ) / 100) = 1 / 4 ∧
    round_to_double (((50 : Int) : ℚ) / 100) = 1 / 2 ∧
    round_to_double (((75 : Int) : ℚ) / 100) = 3 / 4 ∧
    round_to_double (((100 : Int) : ℚ) / 100) = 1 ∧
    round_to_double (((150 : Int) : ℚ) / 100) = 3 / 2 ∧
    round_to_double (((33 : Int) : ℚ) / 100) = 5944751508129055 / 2 ^ 54 := by
  decide!

/-- C24, the claim as stated fails: for `EnrollProgressChanged(150)` the bar
has the fraction 1, not 150/100, because GTK clamps the fraction; and for
`EnrollProgressChanged(33)` the fraction is the double nearest to 33/100,
`5944751508129055 / 2 ^ 54`, not 33/100 itself. -/
theorem C24_fraction_clamped_and_rounded :
    (handle_signal initial_panel "EnrollProgressChanged" (.int 150)).enroll_progress_fraction
      = 1 ∧
    (1 : ℚ) ≠ ((150 : Int) : ℚ) / 100 ∧
    (handle_signal initial_panel "EnrollProgressChanged" (.int 33)).enroll_progress_fraction
      = 5944751508129055 / 2 ^ 54 ∧
    (5944751508129055 / 2 ^ 54 : ℚ) ≠ ((33 : Int) : ℚ) / 100 := by
  simp only [handle_signal_enroll_progress, round_to_double_examples]
  norm_num

/-- C24, amended: for every `EnrollProgressChanged(i)` the handler gives the
progress bar the fraction `i / 100.0`, computed in double precision and
clamped to `[0, 1]`; for `0 ≤ i ≤ 100` that is the double nearest to `i/100`,
within `2 ^ -54` of it.  The handler marks the session complete
(`enrollment_done` true, the bar hidden) if and only if `i = 100`, and
otherwise leaves `enrollment_done` as it was and the bar visible; for the
sequence 25, 50, 75, 100 the fractions are exactly 1/4, 1/2, 3/4 and 1, and
only the last signal sets `enrollment_done`. -/
theorem C24_progress_fraction_and_completion (self : CcFingerprintPanel) (i : Int) :
    (handle_signal self "EnrollProgressChanged" (.int i)).enroll_progress_fraction =
      max 0 (min (round_to_double ((i : ℚ) / 100)) 1) ∧
    (0 ≤ i → i ≤ 100 →
      (handle_signal self "EnrollProgressChanged" (.int i)).enroll_progress_fraction =
        round_to_double ((i : ℚ) / 100) ∧
      |(handle_signal self "EnrollProgressChanged" (.int i)).enroll_progress_fraction -
        (i : ℚ) / 100| ≤ 1 / 2 ^ 54) ∧
    (((handle_signal self "EnrollProgressChanged" (.int i)).enrollment_done = true ∧
        (handle_signal self "EnrollProgressChanged" (.int i)).enroll_progress_visible = false)
      ↔ i = 100) ∧
    (i ≠ 100 →
      (handle_signal self "EnrollProgressChanged" (.int i)).enrollment_done =
        self.enrollment_done ∧
      (handle_signal self "EnrollProgressChanged" (.int i)).enroll_progress_visible = true) ∧
    ((handle_signals self [("EnrollProgressChanged", .int 25)]).enroll_progress_fraction
        = 1 / 4 ∧
      (handle_signals self [("EnrollProgressChanged", .int 25),
        ("EnrollProgressChanged", .int 50)]).enroll_progress_fraction = 1 / 2 ∧
      (handle_signals self [("EnrollProgressChanged", .int 25),
        ("EnrollProgressChanged", .int 50),
        ("EnrollProgressChanged", .int 75)]).enroll_progress_fraction = 3 / 4 ∧
      (handle_signals self [("EnrollProgressChanged", .int 25),
        ("EnrollProgressChanged", .int 50), ("EnrollProgressChanged", .int 75),
        ("EnrollProgressChanged", .int 100)]).enroll_progress_fraction = 1) ∧
    ((handle_signals self [("EnrollProgressChanged", .int 25),
        ("EnrollProgressChanged", .int 50),
        ("EnrollProgressChanged", .int 75)]).enrollment_done = self.enrollment_done ∧
      (handle_signals self [("EnrollProgressChanged", .int 25),
        ("EnrollProgressChanged", .int 50), ("EnrollProgressChanged", .int 75),
        ("EnrollProgressChanged", .int 100)]).enrollment_done = true) := by
  have hfraction :
      (handle_signal self "EnrollProgressChanged" (.int i)).enroll_progress_fraction =
        max 0 (min (round_to_double ((i : ℚ) / 100)) 1) := by
    rw [handle_signal_enroll_progress]
    split <;> rfl
  refine ⟨hfraction, ?_, ?_, ?_, ?_, ?_⟩
  · intro hlow hhigh
    obtain ⟨h0, h1, hnear⟩ := round_to_double_percent i hlow hhigh
    have hkept : (handle_signal self "EnrollProgressChanged" (.int i)).enroll_progress_fraction
        = round_to_double ((i : ℚ) / 100) := by
      rw [hfraction, min_eq_left h1, max_eq_right h0]
    rw [hkept]
    exact ⟨rfl, hnear⟩
  · rw [handle_signal_enroll_progress]
    by_cases h : i = 100
    · simp [h]
    · simp [h]
  · intro h
    rw [handle_signal_enroll_progress]
    simp [h]
  · simp only [handle_signals, List.foldl_cons, List.foldl_nil, handle_signal_enroll_progress,
      round_to_double_examples]
    norm_num
  · simp only [handle_signals, List.foldl_cons, List.foldl_nil, handle_signal_enroll_progress]
    norm_num

/-- C24 amended, for the signal `EnrollProgressChanged(50)` on the example
panel: the fraction is the double for 50/100, and the session goes on. -/
theorem C24_progress_fraction_and_completion_witness :
    (handle_signal initial_panel "EnrollProgressChanged" (.int 50)).enroll_progress_fraction =
      round_to_double (((50 : Int) : ℚ) / 100) ∧
    (handle_signal initial_panel "EnrollProgressChanged" (.int 50)).enrollment_done = false :=
  ⟨((C24_progress_fraction_and_completion initial_panel 50).2.1 (by decide) (by decide)).1,
   ((C24_progress_fraction_and_completion initial_panel 50).2.2.2.1 (by decide)).1⟩

/-- C26: evaluation of the code in an enroll session started with nothing
enrolled (the identify button insensitive) that is ended by
`ErrorInfo("ERROR_TIMEOUT")`, after which `GetAll` still returns the empty
list: the list is refreshed (the Enrolled view is empty), and the identify
button is sensitive. -/
theorem C26_identify_sensitive_with_nothing_enrolled :
    nothing_enrolled_panel.identify_finger_button_sensitive = false ∧
    has_enrolled_fingers (some []) = false ∧
    (cc_fingerprint_panel_enroll_finger nothing_enrolled_panel true true
      [[("ErrorInfo", .str "ERROR_TIMEOUT")], []] (some [])).map
        (fun p => (p.finger_canceled, p.finger_list, p.identify_finger_button_sensitive)) =
      some (true, [], true) := by
  decide

/-- The end of an enroll session makes the identify button sensitive whatever
`GetAll` returns. -/
theorem enroll_finish_identify_sensitive (self : CcFingerprintPanel)
    (enrolled_fingers : Option (List String)) :
    (enroll_finish self enrolled_fingers).identify_finger_button_sensitive = true := by
  unfold enroll_finish
  simp only [refresh_fingerprint_list_identify_sensitive]
  split <;> rfl

end Fingerprint

/-! ## Gesture-action store: the leading integer and the action buttons -/

namespace Assistant

open AssistantGesture

/-- Reading digits does not lower the value. -/
theorem le_digits_value (s : List Char) (acc : Nat) : acc ≤ digits_value s acc := by
  induction s generalizing acc with
  | nil => exact Nat.le_refl _
  | cons c cs ih =>
    simp only [digits_value]
    split
    · exact Nat.le_trans (by omega) (ih _)
    · exact Nat.le_refl _

/-- While the value fits 64 bits the digit loop computes it without
overflow. -/
theorem parse_digits_eq_digits_value (s : List Char) (acc : Nat)
    (hfits : digits_value s acc ≤ G_MAXUINT64) :
    parse_digits s acc false true = (digits_value s acc, false, true) := by
  induction s generalizing acc with
  | nil => rfl
  | cons c cs ih =>
    simp only [digits_value] at hfits
    simp only [parse_digits, digits_value]
    by_cases hc : '0' ≤ c ∧ c ≤ '9'
    · simp only [hc, and_self, if_true] at hfits ⊢
      have hstep := le_digits_value cs (acc * 10 + (c.toNat - '0'.toNat))
      have hbound : acc * 10 + (c.toNat - '0'.toNat) ≤ G_MAXUINT64 := Nat.le_trans hstep hfits
      have hno : ¬ (acc > G_MAXUINT64 / 10 ∨
          (acc = G_MAXUINT64 / 10 ∧ c.toNat - '0'.toNat > G_MAXUINT64 % 10)) := by
        simp only [G_MAXUINT64] at hbound ⊢
        omega
      rw [if_neg hno]
      exact ih _ hfits
    · simp only [hc, if_false]

/-- The conversion yields the leading integer when that fits 64 bits. -/
theorem g_ascii_strtoll_eq_leading_integer (content : String) (v : Int)
    (hv : leading_integer content = some v) (hlow : -(2 ^ 63) ≤ v) (hhigh : v ≤ 2 ^ 63 - 1) :
    g_ascii_strtoll content = v := by
  unfold leading_integer at hv
  unfold g_ascii_strtoll
  simp only [String.toList] at hv ⊢
  generalize List.dropWhile ISSPACE content.data = l at hv ⊢
  cases l with
  | nil => simp at hv
  | cons c rest =>
    simp only at hv ⊢
    generalize (if c = '-' ∨ c = '+' then rest else c :: rest) = s at hv ⊢
    cases s with
    | nil => simp at hv
    | cons d digits =>
      simp only at hv
      by_cases hdigit : '0' ≤ d ∧ d ≤ '9'
      · simp only [hdigit, and_self, if_true, Option.some.injEq] at hv
        have hfirst : parse_digits (d :: digits) 0 false false =
            parse_digits digits (0 * 10 + (d.toNat - '0'.toNat)) false true := by
          simp only [parse_digits, hdigit, and_self, if_true, G_MAXUINT64]
          rw [if_neg (by omega)]
        have hvalue : digits_value (d :: digits) 0 =
            digits_value digits (0 * 10 + (d.toNat - '0'.toNat)) := by
          simp only [digits_value, hdigit, and_self, if_true]
        by_cases hneg : c = '-'
        · simp only [hneg, if_true] at hv
          have hfits : digits_value digits (0 * 10 + (d.toNat - '0'.toNat)) ≤ G_MAXUINT64 := by
            rw [← hvalue]
            simp only [G_MAXUINT64]
            omega
          rw [hfirst, parse_digits_eq_digits_value _ _ hfits, ← hvalue]
          simp only [hneg, decide_True, Bool.not_true, Bool.false_eq_true, if_false, true_and,
            not_true_eq_false, false_and]
          rw [if_neg (by omega)]
          exact hv
        · simp only [hneg, if_false] at hv
          have hfits : digits_value digits (0 * 10 + (d.toNat - '0'.toNat)) ≤ G_MAXUINT64 := by
            rw [← hvalue]
            simp only [G_MAXUINT64]
            omega
          rw [hfirst, parse_digits_eq_digits_value _ _ hfits, ← hvalue]
          simp only [hneg, decide_False, Bool.not_true, Bool.false_eq_true, if_false,
            false_and, not_false_eq_true, true_and]
          rw [if_neg (by omega)]
          exact hv
      · simp [hdigit] at hv

/-- There is no leading integer exactly when the content does not start with
one. -/
theorem leading_integer_eq_none (content : String) :
    leading_integer content = none ↔ starts_with_integer content = false := by
  unfold leading_integer starts_with_integer
  cases content.toList.dropWhile ISSPACE with
  | nil => simp
  | cons c rest =>
    by_cases hsign : c = '-' ∨ c = '+'
    · simp only [hsign, if_true]
      cases rest with
      | nil => simp
      | cons d digits =>
        by_cases hdigit : '0' ≤ d ∧ d ≤ '9' <;> simp [hdigit]
    · simp only [hsign, if_false]
      by_cases hdigit : '0' ≤ c ∧ c ≤ '9' <;> simp [hdigit]

end Assistant

namespace Assistant

open AssistantGesture

/-- C25, counterexample: the content `4294967300` followed by a newline starts
with the decimal integer 4294967300, and `load_predefined_action` returns `4`
(`TAKE_SCREENSHOT`) for it, not the value of that integer: the `gint64` result
of the conversion is cast to the 32-bit `enum PredefinedAction`. -/
theorem C25_load_wraps_at_32_bits :
    leading_integer "4294967300\n" = some 4294967300 ∧
    load_predefined_action
      (single_file (file_path "/home/user" GESTURE_SHORT_PRESS) "4294967300\n")
      "/home/user" GESTURE_SHORT_PRESS = TAKE_SCREENSHOT ∧
    (TAKE_SCREENSHOT : Int) ≠ 4294967300 := by
  refine ⟨by decide, by decide, by decide⟩

/-- C25, amended: for every content `c` of the file of a gesture,
`load_predefined_action` returns the value of the decimal integer that starts
`c` (after optional leading white space and sign, ignoring whatever follows the
digits) when that value lies in `0 .. 2 ^ 32 - 1`, and returns `NO_ACTION` (0)
when `c` does not start with an integer. -/
theorem C25_load_leading_integer (fs : FileSystem) (home : String) (g : AssistantGesture)
    (c : String) (hfile : fs.node (file_path home g) = FileNode.regular c) :
    (∀ v : Int, leading_integer c = some v → 0 ≤ v → v < 2 ^ 32 →
      (load_predefined_action fs home g : Int) = v) ∧
    (leading_integer c = none → load_predefined_action fs home g = NO_ACTION) := by
  unfold load_predefined_action g_file_get_contents
  simp only [hfile]
  constructor
  · intro v hv hlow hhigh
    rw [g_ascii_strtoll_eq_leading_integer c v hv (by omega) (by omega)]
    simp only [to_PredefinedAction]
    rw [Int.emod_eq_of_lt hlow hhigh]
    exact Int.toNat_of_nonneg hlow
  · intro hnone
    rw [g_ascii_strtoll_without_integer c ((leading_integer_eq_none c).mp hnone)]
    rfl

/-- C25 amended, for a `long_press` file holding `  +7 and more`: the value 7
is loaded. -/
theorem C25_load_leading_integer_witness :
    leading_integer "  +7 and more" = some 7 ∧
    (load_predefined_action
      (single_file (file_path "/home/user" GESTURE_LONG_PRESS) "  +7 and more")
      "/home/user" GESTURE_LONG_PRESS : Int) = 7 :=
  ⟨by decide,
   (C25_load_leading_integer
      (single_file (file_path "/home/user" GESTURE_LONG_PRESS) "  +7 and more")
      "/home/user" GESTURE_LONG_PRESS "  +7 and more" (by decide)).1 7
      (by decide) (by decide) (by decide)⟩

end Assistant

namespace Assistant

open AssistantGesture

/-- After a gesture is selected each action button is active exactly when the
loaded value is its action. -/
theorem action_buttons_after_gesture (self : CcAssistantPanel) (fs : FileSystem)
    (home : String) (g : AssistantGesture) :
    action_buttons (on_gesture_toggled self fs home (gesture_button_id g) true).1 =
      (List.range 9).map (fun a => decide (load_predefined_action fs home g = a)) := by
  cases g <;>
    simp [on_gesture_toggled, gesture_button_id, update_action_buttons, set_action_active,
      action_buttons, update_action_sensitivity, List.range, List.range.loop,
      NO_ACTION, FLASHLIGHT, OPEN_CAMERA, TAKE_PICTURE, TAKE_SCREENSHOT, SEND_TAB,
      MANUAL_AUTOROTATE, SEND_XF86BACK, SEND_ESCAPE]

/-- Among the tests of a value against `0 .. 8` one holds when the value is at
most 8 and none otherwise. -/
theorem count_action_tests (a : Nat) :
    ((List.range 9).map (fun b => decide (a = b))).count true = if a ≤ 8 then 1 else 0 := by
  by_cases h : a ≤ 8
  · rw [if_pos h]
    interval_cases a <;> decide
  · rw [if_neg h]
    have h0 : a ≠ 0 := by omega
    have h1 : a ≠ 1 := by omega
    have h2 : a ≠ 2 := by omega
    have h3 : a ≠ 3 := by omega
    have h4 : a ≠ 4 := by omega
    have h5 : a ≠ 5 := by omega
    have h6 : a ≠ 6 := by omega
    have h7 : a ≠ 7 := by omega
    have h8 : a ≠ 8 := by omega
    simp [List.range, List.range.loop, h0, h1, h2, h3, h4, h5, h6, h7, h8]

/-- C28, counterexample: a `short_press` file holding `42` loads as the value
42, which is none of the nine actions, and after the gesture is selected no
action button is active. -/
theorem C28_loaded_value_outside_actions :
    load_predefined_action
      (single_file (file_path "/home/user" GESTURE_SHORT_PRESS) "42\n")
      "/home/user" GESTURE_SHORT_PRESS = 42 ∧
    ¬ (42 : PredefinedAction) ≤ SEND_ESCAPE ∧
    action_buttons
      (on_gesture_toggled startup_panel
        (single_file (file_path "/home/user" GESTURE_SHORT_PRESS) "42\n")
        "/home/user" "short_press" true).1 =
      [false, false, false, false, false, false, false, false, false] := by
  refine ⟨by decide, by decide, by decide⟩

/-- C28, amended: for every gesture and every content of its file, after the
gesture is selected at most one of the nine action check buttons is active:
exactly the button of the loaded action when the loaded value is one of the
nine actions (0..8), and no button when it is not. -/
theorem C28_at_most_one_action_active (self : CcAssistantPanel) (fs : FileSystem)
    (home : String) (g : AssistantGesture) :
    (action_buttons (on_gesture_toggled self fs home (gesture_button_id g) true).1).count true
      ≤ 1 ∧
    (∀ a : PredefinedAction, a ≤ SEND_ESCAPE →
      ((action_buttons
          (on_gesture_toggled self fs home (gesture_button_id g) true).1).getD a false = true ↔
        load_predefined_action fs home g = a)) ∧
    (SEND_ESCAPE < load_predefined_action fs home g →
      (action_buttons (on_gesture_toggled self fs home (gesture_button_id g) true).1).count true
        = 0) := by
  rw [action_buttons_after_gesture, count_action_tests]
  refine ⟨by split <;> omega, ?_, ?_⟩
  · intro a ha
    simp only [SEND_ESCAPE] at ha
    interval_cases a <;> simp [List.range, List.range.loop]
  · intro h
    exact if_neg (Nat.not_le.mpr h)

/-- C28 amended, for `long_press` selected with a file holding `5`: the button
of `send_tab` is active. -/
theorem C28_at_most_one_action_active_witness :
    SEND_TAB ≤ SEND_ESCAPE ∧
    (action_buttons
      (on_gesture_toggled startup_panel
        (single_file (file_path "/home/user" GESTURE_LONG_PRESS) "5\n")
        "/home/user" (gesture_button_id GESTURE_LONG_PRESS) true).1).getD SEND_TAB false
      = true :=
  ⟨by decide,
   ((C28_at_most_one_action_active startup_panel
      (single_file (file_path "/home/user" GESTURE_LONG_PRESS) "5\n")
      "/home/user" GESTURE_LONG_PRESS).2.1 SEND_TAB (by decide)).mpr (by decide)⟩

/-- The buttons after `long_press` is selected with a file holding `5`: only
the button of `send_tab` is active. -/
theorem action_buttons_example :
    action_buttons
      (on_gesture_toggled startup_panel
        (single_file (file_path "/home/user" GESTURE_LONG_PRESS) "5\n")
        "/home/user" "long_press" true).1 =
      [false, false, false, false, false, true, false, false, false] := by
  decide

end Assistant

/-! ## Android panel: the mount test at init and the click handlers -/

namespace Waydroid

/-- C29: `is_mounted` returns only 0 or 1 when `/proc/mounts` can be read, and
-1 when it cannot be opened; `cc_waydroid_panel_init` tests the result for
non-zero, so with Waydroid installed and the session `RUNNING`, when
`/proc/mounts` cannot be opened the shared-folder switch is shown as on. -/
theorem C29_unreadable_mounts_switch_on (template : CcWaydroidPanel) (env : Environment)
    (path : String)
    (hinstalled : env.waydroid_installed = true)
    (hrunning : env.current_state = some "RUNNING")
    (hunreadable : env.proc_mounts = none) :
    (∀ content : String,
      is_mounted (some content) path = 0 ∨ is_mounted (some content) path = 1) ∧
    is_mounted none path = -1 ∧
    (cc_waydroid_panel_init template env).waydroid_shared_folder_switch_active = true := by
  refine ⟨fun content => is_mounted_loop_zero_or_one path.toList (getlines content.toList),
    rfl, ?_⟩
  simp only [cc_waydroid_panel_init, hinstalled, hrunning, hunreadable, if_true,
    update_app_list_threaded, g_thread_new, is_mounted]
  split <;> simp_all

/-- C29 on a running session whose `/proc/mounts` cannot be opened. -/
theorem C29_unreadable_mounts_switch_on_witness :
    is_mounted none "/home/user/Android" = -1 ∧
    (cc_waydroid_panel_init template_panel
      { running_environment with proc_mounts := none
      }).waydroid_shared_folder_switch_active = true :=
  (C29_unreadable_mounts_switch_on template_panel
    { running_environment with proc_mounts := none } "/home/user/Android" rfl rfl rfl).2

/-- C30, evaluation of the code: the panel is built with the session running,
which connects one click handler to each app-management button; the enable
switch is turned off and on again, and when the 10 s timer runs `enable_idle`
each of the seven buttons has two click handlers connected. -/
theorem C30_click_handlers_connected_twice :
    (cc_waydroid_panel_init template_panel running_environment).signal_handlers.count
      ("remove_app_button", "clicked", "cc_waydroid_panel_uninstall_app") = 1 ∧
    (World.run template_panel running_environment
      [Event.enable_switch false true (some "STOPPED")]).panel.timeout_sources = [] ∧
    (World.run template_panel running_environment
      [Event.enable_switch false true (some "STOPPED"),
       Event.enable_switch true true (some "RUNNING")]).panel.timeout_sources =
      [(10, "enable_idle")] ∧
    [("launch_app_button", "clicked", "cc_waydroid_panel_launch_app_threaded"),
     ("remove_app_button", "clicked", "cc_waydroid_panel_uninstall_app"),
     ("install_app_button", "clicked", "cc_waydroid_panel_install_app"),
     ("store_button", "clicked", "cc_waydroid_panel_open_store"),
     ("refresh_app_list_button", "clicked", "cc_waydroid_refresh_button"),
     ("clear_app_data_button", "clicked", "cc_waydroid_panel_clear_app_data"),
     ("kill_app_button", "clicked", "cc_waydroid_panel_kill_app")].map
      (fun handler =>
        (World.run template_panel running_environment
          [Event.enable_switch false true (some "STOPPED"),
           Event.enable_switch true true (some "RUNNING"),
           Event.enable_idle_timer false]).panel.signal_handlers.count handler) =
      [2, 2, 2, 2, 2, 2, 2] := by
  refine ⟨by decide, by decide, by decide, by decide⟩

/-- Each run of `enable_idle` adds one click handler to a button, whatever is
connected already. -/
theorem enable_idle_adds_click_handler (self : CcWaydroidPanel) (nfc_status : Bool) :
    (enable_idle self nfc_status).signal_handlers.count
        ("remove_app_button", "clicked", "cc_waydroid_panel_uninstall_app") =
      self.signal_handlers.count
        ("remove_app_button", "clicked", "cc_waydroid_panel_uninstall_app") + 1 := by
  cases nfc_status <;>
    simp [enable_idle, connect_app_buttons, g_signal_connect, g_idle_add, List.count_append,
      List.count_cons]

end Waydroid

namespace Assistant

open AssistantGesture

/-- C9, amended: `load_predefined_action (g)` returns `NO_ACTION` (0) when the
file of `g` is absent, and when its content does not begin with a decimal
integer (optional leading white space, an optional sign, then at least one
digit).  A content that begins with a decimal integer of a value `v` in
`1 .. 2 ^ 32 - 1` loads as `v`, which is not `NO_ACTION`, whether or not the
content is a single line. -/
theorem C9_load_none_when_absent_or_no_integer (fs : FileSystem) (home : String)
    (g : AssistantGesture) :
    (fs.node (file_path home g) = FileNode.absent →
      load_predefined_action fs home g = NO_ACTION) ∧
    (∀ content : String, fs.node (file_path home g) = FileNode.regular content →
      starts_with_integer content = false →
      load_predefined_action fs home g = NO_ACTION) ∧
    (∀ (content : String) (v : Int), fs.node (file_path home g) = FileNode.regular content →
      leading_integer content = some v → 1 ≤ v → v < 2 ^ 32 →
      (load_predefined_action fs home g : Int) = v ∧
      load_predefined_action fs home g ≠ NO_ACTION) := by
  unfold load_predefined_action g_file_get_contents
  refine ⟨?_, ?_, ?_⟩
  · intro h
    simp [h]
  · intro content h hno
    simp only [h, g_ascii_strtoll_without_integer content hno]
    rfl
  · intro content v h hv hlow hhigh
    simp only [h]
    rw [g_ascii_strtoll_eq_leading_integer content v hv (by omega) (by omega)]
    have hvalue : ((to_PredefinedAction v : Nat) : Int) = v := by
      simp only [to_PredefinedAction]
      rw [Int.emod_eq_of_lt (by omega) hhigh]
      exact Int.toNat_of_nonneg (by omega)
    refine ⟨hvalue, ?_⟩
    intro hnone
    rw [hnone] at hvalue
    simp only [NO_ACTION] at hvalue
    omega

/-- C9 amended, for a `double_press` file holding the word `none` and for a
`short_press` file of two lines that begins with 4. -/
theorem C9_load_none_when_absent_or_no_integer_witness :
    load_predefined_action
      (single_file (file_path "/home/user" GESTURE_DOUBLE_PRESS) "none\n")
      "/home/user" GESTURE_DOUBLE_PRESS = NO_ACTION ∧
    load_predefined_action no_files "/home/user" GESTURE_DOUBLE_PRESS = NO_ACTION ∧
    (load_predefined_action
      (single_file (file_path "/home/user" GESTURE_SHORT_PRESS) "4\n5\n")
      "/home/user" GESTURE_SHORT_PRESS : Int) = 4 :=
  ⟨(C9_load_none_when_absent_or_no_integer
      (single_file (file_path "/home/user" GESTURE_DOUBLE_PRESS) "none\n")
      "/home/user" GESTURE_DOUBLE_PRESS).2.1 "none\n" (by decide) (by decide),
   (C9_load_none_when_absent_or_no_integer no_files "/home/user" GESTURE_DOUBLE_PRESS).1 rfl,
   ((C9_load_none_when_absent_or_no_integer
      (single_file (file_path "/home/user" GESTURE_SHORT_PRESS) "4\n5\n")
      "/home/user" GESTURE_SHORT_PRESS).2.2 "4\n5\n" 4 (by decide) (by decide) (by decide)
      (by decide)).1⟩

end Assistant
